import Mathlib

/-!
# Local residual assembly of opm-models: a shallow embedding

The definitions below transcribe, function by function, the parts of

* `dumux/boxmodels/1p2c/1p2cvolumevariables.hh`
* `ewoms/models/immiscible/immisciblelocalresidual.hh`
* `ewoms/models/blackoil/blackoilindices.hh`
* `opm/models/blackoil/blackoilenergymodules.hh`

that the verified properties talk about.  `Scalar` is the field of exact
rationals, so every statement is one of exact arithmetic.  The division of `ℚ` is
total (`x / 0 = 0`), the division of the code is not: for a zero divisor a `double`
quotient is an infinity or NaN.  The functions `completeFluidStateChecked`,
`thermalTransmissibilityChecked` and `updateEnergyChecked` therefore repeat the code
with checked quotients, which have no result for a zero divisor, and a statement
that depends on a quotient having a value is made for non-zero divisors.  Vectors
indexed by an equation or primary-variable slot (`Dune::FieldVector`,
`PrimaryVariables`, `RateVector`, `EqVector`) are maps from the slot number to its
content, and `v[i] = x` is `Function.update v i x`.
-/

set_option autoImplicit false

/-- The numeric type `Scalar` of the models, taken as exact rationals. -/
abbrev Scalar := ℚ

/-- The quotient `a / b` where it is a number: there is none for `b = 0`, where the
`double` quotient of the code is an infinity or NaN. -/
def checkedDiv (a b : Scalar) : Option Scalar :=
  if b = 0 then none else some (a / b)

/-! ## 1p2c volume variables (`Dumux::OnePTwoCVolumeVariables`) -/

namespace Dumux

/-- The two indices `Indices::pressureIdx` and `Indices::x1Idx` the class reads. -/
structure Indices where
  pressureIdx : Nat
  x1Idx : Nat

/-- The vector of primary variables of one sub-control volume. -/
abbrev PrimaryVariables := Nat → Scalar

/-- The record `Dumux::CompositionalFluidState` as far as the volume variables set and
read it: one temperature (shared by all phases) and per-phase pressure, composition,
density and viscosity. -/
structure FluidState where
  temperature : Scalar
  pressure : Nat → Scalar
  moleFraction : Nat → Nat → Scalar
  density : Nat → Scalar
  viscosity : Nat → Scalar

namespace FluidState

/-- The setter `setTemperature(value)`. -/
def setTemperature (fs : FluidState) (value : Scalar) : FluidState :=
  { fs with temperature := value }

/-- The setter `setPressure(phaseIdx, value)`. -/
def setPressure (fs : FluidState) (phaseIdx : Nat) (value : Scalar) : FluidState :=
  { fs with pressure := Function.update fs.pressure phaseIdx value }

/-- The setter `setMoleFraction(phaseIdx, compIdx, value)`. -/
def setMoleFraction (fs : FluidState) (phaseIdx compIdx : Nat) (value : Scalar) : FluidState :=
  { fs with
    moleFraction :=
      Function.update fs.moleFraction phaseIdx
        (Function.update (fs.moleFraction phaseIdx) compIdx value) }

/-- The setter `setDensity(phaseIdx, value)`. -/
def setDensity (fs : FluidState) (phaseIdx : Nat) (value : Scalar) : FluidState :=
  { fs with density := Function.update fs.density phaseIdx value }

/-- The setter `setViscosity(phaseIdx, value)`. -/
def setViscosity (fs : FluidState) (phaseIdx : Nat) (value : Scalar) : FluidState :=
  { fs with viscosity := Function.update fs.viscosity phaseIdx value }

end FluidState

/-- The collaborator `FluidSystem`: its static functions, as the volume variables call
them.  The parameter cache is recomputed from the fluid state before each call
(`paramCache.updatePhase(fluidState, 0)`), so the functions depend on the fluid state
only. -/
structure FluidSystem where
  molarMass : Nat → Scalar
  density : FluidState → Nat → Scalar
  viscosity : FluidState → Nat → Scalar
  binaryDiffusionCoefficient : FluidState → Nat → Nat → Nat → Scalar

/-- The collaborator `problem().spatialParameters()`, per sub-control volume. -/
structure SpatialParameters where
  porosity : Nat → Scalar
  tortuosity : Nat → Scalar
  dispersivity : Nat → Scalar

/-- The element context: primary variables per (sub-control volume, history index), the
problem's temperature per sub-control volume and the spatial parameters. -/
structure ElementContext where
  primaryVars : Nat → Nat → PrimaryVariables
  problemTemperature : Nat → Scalar
  spatialParameters : SpatialParameters

/-- The method `OnePTwoCVolumeVariables::updateTemperature_`. -/
def updateTemperature_ (fluidState : FluidState) (elemCtx : ElementContext)
    (scvIdx _historyIdx : Nat) : FluidState :=
  fluidState.setTemperature (elemCtx.problemTemperature scvIdx)

/-- The method `OnePTwoCVolumeVariables::completeFluidState`; `useMolarFormulation` is the
compile-time switch of the class. -/
def completeFluidState (useMolarFormulation : Bool) (FS : FluidSystem) (I : Indices)
    (fluidState : FluidState) (elemCtx : ElementContext) (scvIdx historyIdx : Nat) :
    FluidState :=
  let fluidState := updateTemperature_ fluidState elemCtx scvIdx historyIdx
  let priVars := elemCtx.primaryVars scvIdx historyIdx
  let fluidState := fluidState.setPressure 0 (priVars I.pressureIdx)
  let x1 : Scalar := priVars I.x1Idx
  let x1 : Scalar :=
    if !useMolarFormulation then
      let M0 := FS.molarMass 0
      let M1 := FS.molarMass 1
      let meanMolarMass := M0 * M1 / (M1 + x1 * (M0 - M1))
      x1 * (meanMolarMass / M1)
    else x1
  let fluidState := fluidState.setMoleFraction 0 0 (1 - x1)
  let fluidState := fluidState.setMoleFraction 0 1 x1
  let value := FS.density fluidState 0
  let fluidState := fluidState.setDensity 0 value
  let value := FS.viscosity fluidState 0
  fluidState.setViscosity 0 value

/-- The method `OnePTwoCVolumeVariables::completeFluidState` with its two divisions
checked: there is no result when `meanMolarMass` or the factor `meanMolarMass/M1` is the
quotient of a division by zero; the code then stores infinities or NaN as mole fractions. -/
def completeFluidStateChecked (useMolarFormulation : Bool) (FS : FluidSystem) (I : Indices)
    (fluidState : FluidState) (elemCtx : ElementContext) (scvIdx historyIdx : Nat) :
    Option FluidState := do
  let fluidState := updateTemperature_ fluidState elemCtx scvIdx historyIdx
  let priVars := elemCtx.primaryVars scvIdx historyIdx
  let fluidState := fluidState.setPressure 0 (priVars I.pressureIdx)
  let x1 : Scalar := priVars I.x1Idx
  let x1 : Scalar ←
    if !useMolarFormulation then do
      let M0 := FS.molarMass 0
      let M1 := FS.molarMass 1
      let meanMolarMass ← checkedDiv (M0 * M1) (M1 + x1 * (M0 - M1))
      let factor ← checkedDiv meanMolarMass M1
      pure (x1 * factor)
    else pure x1
  let fluidState := fluidState.setMoleFraction 0 0 (1 - x1)
  let fluidState := fluidState.setMoleFraction 0 1 x1
  let value := FS.density fluidState 0
  let fluidState := fluidState.setDensity 0 value
  let value := FS.viscosity fluidState 0
  pure (fluidState.setViscosity 0 value)

/-- The data members of `OnePTwoCVolumeVariables`. -/
structure OnePTwoCVolumeVariables where
  porosity_ : Scalar
  tortuosity_ : Scalar
  dispersivity_ : Scalar
  diffCoeff_ : Scalar
  fluidState_ : FluidState

/-- The method `OnePTwoCVolumeVariables::update`.  `ParentType::update` keeps the primary
variables it is given and touches none of the members of this class; `updateEnergy_` of this
class has an empty body. -/
def update (useMolarFormulation : Bool) (FS : FluidSystem) (I : Indices)
    (self : OnePTwoCVolumeVariables) (_priVars : PrimaryVariables) (elemCtx : ElementContext)
    (scvIdx historyIdx : Nat) : OnePTwoCVolumeVariables :=
  let fluidState_ :=
    completeFluidState useMolarFormulation FS I self.fluidState_ elemCtx scvIdx historyIdx
  let spatialParams := elemCtx.spatialParameters
  let porosity_ := spatialParams.porosity scvIdx
  let tortuosity_ := spatialParams.tortuosity scvIdx
  let dispersivity_ : Scalar := 0
  let diffCoeff_ := FS.binaryDiffusionCoefficient fluidState_ 0 0 1
  { porosity_ := porosity_
    tortuosity_ := tortuosity_
    dispersivity_ := dispersivity_
    diffCoeff_ := diffCoeff_
    fluidState_ := fluidState_ }

namespace OnePTwoCVolumeVariables

/-- The accessor `pressure()`. -/
def pressure (self : OnePTwoCVolumeVariables) : Scalar :=
  self.fluidState_.pressure 0

/-- The accessor `diffCoeff()`. -/
def diffCoeff (self : OnePTwoCVolumeVariables) : Scalar :=
  self.diffCoeff_

/-- The accessor `tortuosity()`. -/
def tortuosity (self : OnePTwoCVolumeVariables) : Scalar :=
  self.tortuosity_

/-- The accessor `porosity()`. -/
def porosity (self : OnePTwoCVolumeVariables) : Scalar :=
  self.porosity_

end OnePTwoCVolumeVariables

/-- The accessor `OnePTwoCVolumeVariables::moleFraction(compIdx)` on the fluid state. -/
def moleFraction (fluidState : FluidState) (compIdx : Nat) : Scalar :=
  fluidState.moleFraction 0 compIdx

/-- The standard conversion of a mole fraction of component 1 back to its mass fraction:
`x1*M1 / ((1 - x1)*M0 + x1*M1)`. -/
def massFractionOfMoleFraction (M0 M1 x1 : Scalar) : Scalar :=
  x1 * M1 / ((1 - x1) * M0 + x1 * M1)

end Dumux

/-! ## The automatic-differentiation number `Evaluation` -/

/-- Modelled from the spec: the value type `Evaluation` (opm-material's dense AD number,
whose header is not part of these sources): "a value type holding a scalar and a
fixed-size gradient buffer [...], with arithmetic operators propagating derivatives via
the standard product/quotient rules", together with "a cheap decay to scalar conversion".
The gradient is taken with respect to the `numDerivs` primary variables of the focus
degree of freedom. -/
@[ext]
structure Evaluation (numDerivs : Nat) where
  value : Scalar
  derivatives : Fin numDerivs → Scalar

namespace Evaluation

variable {n : Nat}

/-- The number `Toolbox::createConstant(c)`: value `c`, zero gradient. -/
def createConstant (c : Scalar) : Evaluation n :=
  ⟨c, fun _ => 0⟩

instance : Zero (Evaluation n) := ⟨createConstant 0⟩

instance : Add (Evaluation n) :=
  ⟨fun a b => ⟨a.value + b.value, fun i => a.derivatives i + b.derivatives i⟩⟩

instance : Sub (Evaluation n) :=
  ⟨fun a b => ⟨a.value - b.value, fun i => a.derivatives i - b.derivatives i⟩⟩

instance : Neg (Evaluation n) :=
  ⟨fun a => ⟨-a.value, fun i => -a.derivatives i⟩⟩

/-- Product rule. -/
instance : Mul (Evaluation n) :=
  ⟨fun a b => ⟨a.value * b.value,
    fun i => a.derivatives i * b.value + a.value * b.derivatives i⟩⟩

/-- Quotient rule. -/
instance : Div (Evaluation n) :=
  ⟨fun a b => ⟨a.value / b.value,
    fun i => (a.derivatives i * b.value - a.value * b.derivatives i) / (b.value * b.value)⟩⟩

/-- The conversions `decay<Scalar>(x)`, `Toolbox::value(x)` and `scalarValue(x)`: the plain
value, the gradient is dropped. -/
def decay (a : Evaluation n) : Scalar := a.value

/-- Mixed product `Evaluation * Scalar`. -/
def mulScalar (a : Evaluation n) (s : Scalar) : Evaluation n := a * createConstant s

/-- Mixed product `Scalar * Evaluation`. -/
def scalarMul (s : Scalar) (a : Evaluation n) : Evaluation n := createConstant s * a

/-- Mixed quotient `Evaluation / Scalar`. -/
def divScalar (a : Evaluation n) (s : Scalar) : Evaluation n := a / createConstant s

/-- Mixed quotient `Scalar / Evaluation`. -/
def scalarDiv (s : Scalar) (a : Evaluation n) : Evaluation n := createConstant s / a

/-- The quotient `Scalar / Evaluation` where it is a number: none for a divisor of value
zero. -/
def scalarDivChecked (s : Scalar) (a : Evaluation n) : Option (Evaluation n) :=
  if a.value = 0 then none else some (scalarDiv s a)

/-- The quotient `Evaluation / Scalar` where it is a number: none for the divisor zero. -/
def divScalarChecked (a : Evaluation n) (s : Scalar) : Option (Evaluation n) :=
  if s = 0 then none else some (divScalar a s)

/-- Mixed difference `Scalar - Evaluation`. -/
def scalarSub (s : Scalar) (a : Evaluation n) : Evaluation n := createConstant s - a

/-- Mixed difference `Evaluation - Scalar`. -/
def subScalar (a : Evaluation n) (s : Scalar) : Evaluation n := a - createConstant s

end Evaluation

/-! ## Immiscible local residual (`Ewoms::ImmiscibleLocalResidual`) -/

namespace Ewoms

variable {n : Nat}

/-- The fluid state of the immiscible model, as far as the local residual reads it. -/
structure FluidState (n : Nat) where
  saturation : Nat → Evaluation n
  density : Nat → Evaluation n

/-- The intensive quantities of one degree of freedom at one time level. -/
structure IntensiveQuantities (n : Nat) where
  fluidState : FluidState n
  porosity : Evaluation n

/-- The extensive quantities of one face. -/
structure ExtensiveQuantities (n : Nat) where
  interiorIndex : Nat
  exteriorIndex : Nat
  upstreamIndex : Nat → Nat
  volumeFlux : Nat → Evaluation n

/-- Modelled from the spec: the choice of the upstream degree of freedom in
`ExtensiveQuantities::update` (the flux computation of the extensive quantities is not part
of these sources).  The spec has the update determine "the upstream DOF as the donor whose
phase satisfies `flux ≥ 0 ⇒ interior is upstream`, else exterior (tie at exactly zero flux
resolved to interior [...])"; the signed volumetric fluxes themselves come from the external
transmissibility and mobility terms. -/
def ExtensiveQuantities.update (interiorIndex exteriorIndex : Nat)
    (volumeFlux : Nat → Evaluation n) : ExtensiveQuantities n where
  interiorIndex := interiorIndex
  exteriorIndex := exteriorIndex
  upstreamIndex := fun phaseIdx =>
    if 0 ≤ (volumeFlux phaseIdx).value then interiorIndex else exteriorIndex
  volumeFlux := volumeFlux

/-- The element context.  `focusDofIndex` is the degree of freedom whose primary variables
the derivatives are taken for; `ImmiscibleLocalResidual` never reads it. -/
structure ElementContext (n : Nat) where
  focusDofIndex : Nat
  intensiveQuantities : Nat → Nat → IntensiveQuantities n
  extensiveQuantities : Nat → Nat → ExtensiveQuantities n

/-- The compile-time constants of the local residual: `Indices::conti0EqIdx` and the
property `NumPhases`. -/
structure Config where
  conti0EqIdx : Nat
  numPhases : Nat

/-- Modelled from the spec: the hooks of `Ewoms::EnergyModule<TypeTag, enableEnergy>`
(`ewoms/models/common/energymodule.hh` is not part of these sources).  The spec has "When
the extension is disabled, every method is a verified no-op" and "Energy-equation slot is
only written when the energy extension is enabled": a disabled module returns its vector
unchanged, an enabled one adds its contribution to the slot `energyEqIdx` and touches no
other slot.  The contributions are those of the collaborator. -/
structure EnergyModule (n : Nat) where
  enableEnergy : Bool
  energyEqIdx : Nat
  phaseStorage : IntensiveQuantities n → Nat → Evaluation n
  solidHeatStorage : IntensiveQuantities n → Evaluation n
  advectiveFlux : ElementContext n → Nat → Nat → Evaluation n
  diffusiveFlux : ElementContext n → Nat → Nat → Evaluation n

namespace EnergyModule

variable {L : Type} [Add L]

/-- The hook `EnergyModule::addPhaseStorage(storage, intQuants, phaseIdx)`. -/
def addPhaseStorage (EM : EnergyModule n) (toLhs : Evaluation n → L) (storage : Nat → L)
    (intQuants : IntensiveQuantities n) (phaseIdx : Nat) : Nat → L :=
  if EM.enableEnergy then
    Function.update storage EM.energyEqIdx
      (storage EM.energyEqIdx + toLhs (EM.phaseStorage intQuants phaseIdx))
  else storage

/-- The hook `EnergyModule::addSolidHeatStorage(storage, intQuants)`. -/
def addSolidHeatStorage (EM : EnergyModule n) (toLhs : Evaluation n → L) (storage : Nat → L)
    (intQuants : IntensiveQuantities n) : Nat → L :=
  if EM.enableEnergy then
    Function.update storage EM.energyEqIdx
      (storage EM.energyEqIdx + toLhs (EM.solidHeatStorage intQuants))
  else storage

/-- The hook `EnergyModule::addAdvectiveFlux(flux, elemCtx, scvfIdx, timeIdx)`. -/
def addAdvectiveFlux (EM : EnergyModule n) (flux : Nat → Evaluation n)
    (elemCtx : ElementContext n) (scvfIdx timeIdx : Nat) : Nat → Evaluation n :=
  if EM.enableEnergy then
    Function.update flux EM.energyEqIdx
      (flux EM.energyEqIdx + EM.advectiveFlux elemCtx scvfIdx timeIdx)
  else flux

/-- The hook `EnergyModule::addDiffusiveFlux(flux, elemCtx, scvfIdx, timeIdx)`. -/
def addDiffusiveFlux (EM : EnergyModule n) (flux : Nat → Evaluation n)
    (elemCtx : ElementContext n) (scvfIdx timeIdx : Nat) : Nat → Evaluation n :=
  if EM.enableEnergy then
    Function.update flux EM.energyEqIdx
      (flux EM.energyEqIdx + EM.diffusiveFlux elemCtx scvfIdx timeIdx)
  else flux

end EnergyModule

section Storage

variable {L : Type} [Zero L] [Add L] [Mul L]

/-- The method `ImmiscibleLocalResidual::addPhaseStorage<LhsEval>`; `toLhs` is
`Toolbox::toLhs<LhsEval>`. -/
def addPhaseStorage (C : Config) (EM : EnergyModule n) (toLhs : Evaluation n → L)
    (storage : Nat → L) (elemCtx : ElementContext n) (dofIdx timeIdx phaseIdx : Nat) :
    Nat → L :=
  let intQuants := elemCtx.intensiveQuantities dofIdx timeIdx
  let fs := intQuants.fluidState
  let storage := Function.update storage (C.conti0EqIdx + phaseIdx)
    (toLhs intQuants.porosity * toLhs (fs.saturation phaseIdx) * toLhs (fs.density phaseIdx))
  EM.addPhaseStorage toLhs storage intQuants phaseIdx

/-- The method `ImmiscibleLocalResidual::computeStorage<LhsEval>`.  Its first statement
overwrites the whole vector, so the content before the call is an argument that is never
read. -/
def computeStorage (C : Config) (EM : EnergyModule n) (toLhs : Evaluation n → L)
    (_storage : Nat → L) (elemCtx : ElementContext n) (dofIdx timeIdx : Nat) : Nat → L :=
  let storage : Nat → L := fun _ => 0
  let storage := (List.range C.numPhases).foldl
    (fun (storage : Nat → L) (phaseIdx : Nat) =>
      addPhaseStorage C EM toLhs storage elemCtx dofIdx timeIdx phaseIdx)
    storage
  EM.addSolidHeatStorage toLhs storage (elemCtx.intensiveQuantities dofIdx timeIdx)

end Storage

/-- One pass of the loop body of `addAdvectiveFlux`: the mass flux of phase `phaseIdx`
that is added to its continuity slot. -/
def advectiveMassFlux (elemCtx : ElementContext n) (scvfIdx timeIdx phaseIdx : Nat) :
    Evaluation n :=
  let extQuants := elemCtx.extensiveQuantities scvfIdx timeIdx
  let interiorIdx := extQuants.interiorIndex
  let upIdx := extQuants.upstreamIndex phaseIdx
  let up := elemCtx.intensiveQuantities upIdx 0
  let rho := up.fluidState.density phaseIdx
  if interiorIdx = upIdx then extQuants.volumeFlux phaseIdx * rho
  else (extQuants.volumeFlux phaseIdx).mulScalar rho.decay

/-- The method `ImmiscibleLocalResidual::addAdvectiveFlux`. -/
def addAdvectiveFlux (C : Config) (EM : EnergyModule n) (flux : Nat → Evaluation n)
    (elemCtx : ElementContext n) (scvfIdx timeIdx : Nat) : Nat → Evaluation n :=
  let flux := (List.range C.numPhases).foldl
    (fun (flux : Nat → Evaluation n) (phaseIdx : Nat) =>
      Function.update flux (C.conti0EqIdx + phaseIdx)
        (flux (C.conti0EqIdx + phaseIdx) + advectiveMassFlux elemCtx scvfIdx timeIdx phaseIdx))
    flux
  EM.addAdvectiveFlux flux elemCtx scvfIdx timeIdx

/-- The method `ImmiscibleLocalResidual::addDiffusiveFlux`: no diffusive mass flux, heat
conduction is left to the energy module. -/
def addDiffusiveFlux (EM : EnergyModule n) (flux : Nat → Evaluation n)
    (elemCtx : ElementContext n) (scvfIdx timeIdx : Nat) : Nat → Evaluation n :=
  EM.addDiffusiveFlux flux elemCtx scvfIdx timeIdx

/-- The method `ImmiscibleLocalResidual::computeFlux`. -/
def computeFlux (C : Config) (EM : EnergyModule n) (_flux : Nat → Evaluation n)
    (elemCtx : ElementContext n) (scvfIdx timeIdx : Nat) : Nat → Evaluation n :=
  let flux : Nat → Evaluation n := fun _ => Evaluation.createConstant 0
  let flux := addAdvectiveFlux C EM flux elemCtx scvfIdx timeIdx
  addDiffusiveFlux EM flux elemCtx scvfIdx timeIdx

/-! ### The index table `Ewoms::BlackOilIndices<PVOffset>` -/

namespace BlackOilIndices

/-- The constant `gasPressureIdx`.  The offset and the indices are `int`s; an offset for
which one of the sums overflowed would not compile, so the sums are those of `ℤ`. -/
def gasPressureIdx (PVOffset : Int) : Int := PVOffset + 0

/-- The constant `waterSaturationIdx`. -/
def waterSaturationIdx (PVOffset : Int) : Int := PVOffset + 1

/-- The constant `switchIdx`. -/
def switchIdx (PVOffset : Int) : Int := PVOffset + 2

/-- The constant `conti0EqIdx`. -/
def conti0EqIdx (PVOffset : Int) : Int := PVOffset + 0

/-- The constant `numEq`. -/
def numEq : Int := 3

end BlackOilIndices

end Ewoms

/-! ## Energy extension of the black-oil model (`Opm::BlackOilEnergy...`) -/

namespace Opm

variable {n : Nat}

/-- The black-oil fluid state, as far as the energy extension sets and reads it. -/
structure FluidState (n : Nat) where
  temperature : Nat → Evaluation n
  saturation : Nat → Evaluation n
  density : Nat → Evaluation n
  internalEnergy : Nat → Evaluation n
  enthalpy : Nat → Evaluation n

namespace FluidState

/-- The setter `setTemperature(value)`: one temperature for all phases. -/
def setTemperature (fs : FluidState n) (value : Evaluation n) : FluidState n :=
  { fs with temperature := fun _ => value }

/-- The setter `setEnthalpy(phaseIdx, value)`. -/
def setEnthalpy (fs : FluidState n) (phaseIdx : Nat) (value : Evaluation n) : FluidState n :=
  { fs with enthalpy := Function.update fs.enthalpy phaseIdx value }

end FluidState

/-- The class template `BlackOilEnergyIntensiveQuantities<TypeTag, enableEnergyV>`: the
primary template (`enabled`) stores the rock internal energy and the total thermal
conductivity, the specialisation for `false` (`disabled`) stores nothing. -/
inductive BlackOilEnergyIntensiveQuantities (n : Nat) : Bool → Type
  | enabled (rockInternalEnergy_ totalThermalConductivity_ : Evaluation n) :
      BlackOilEnergyIntensiveQuantities n true
  | disabled : BlackOilEnergyIntensiveQuantities n false

namespace BlackOilEnergyIntensiveQuantities

/-- The accessor `rockInternalEnergy()` of both class templates; `Except.error` is the
`std::logic_error` thrown, with its message. -/
def rockInternalEnergy :
    {e : Bool} → BlackOilEnergyIntensiveQuantities n e → Except String (Evaluation n)
  | _, enabled rockInternalEnergy_ _ => Except.ok rockInternalEnergy_
  | _, disabled =>
      Except.error
        "Requested the rock internal energy, which is unavailable because energy is not conserved"

/-- The accessor `totalThermalConductivity()` of both class templates. -/
def totalThermalConductivity :
    {e : Bool} → BlackOilEnergyIntensiveQuantities n e → Except String (Evaluation n)
  | _, enabled _ totalThermalConductivity_ => Except.ok totalThermalConductivity_
  | _, disabled =>
      Except.error
        "Requested the total thermal conductivity, which is unavailable because energy is not conserved"

/-- The member `rockInternalEnergy_` of the primary template. -/
def rockInternalEnergy_ : BlackOilEnergyIntensiveQuantities n true → Evaluation n
  | enabled r _ => r

/-- The member `totalThermalConductivity_` of the primary template. -/
def totalThermalConductivity_ : BlackOilEnergyIntensiveQuantities n true → Evaluation n
  | enabled _ t => t

end BlackOilEnergyIntensiveQuantities

/-- The intensive quantities of the black-oil model (the `Implementation` that derives
from `BlackOilEnergyIntensiveQuantities`), as far as the energy extension uses them. -/
structure IntensiveQuantities (n : Nat) (e : Bool) where
  fluidState_ : FluidState n
  porosity : Evaluation n
  referencePorosity : Scalar
  energy : BlackOilEnergyIntensiveQuantities n e

/-- The class template `BlackOilEnergyExtensiveQuantities<TypeTag, enableEnergyV>`: the
primary template stores the energy flux, the specialisation for `false` nothing. -/
inductive BlackOilEnergyExtensiveQuantities (n : Nat) : Bool → Type
  | enabled (energyFlux_ : Evaluation n) : BlackOilEnergyExtensiveQuantities n true
  | disabled : BlackOilEnergyExtensiveQuantities n false

/-- The extensive quantities of the black-oil model, as far as the energy extension uses
them. -/
structure ExtensiveQuantities (n : Nat) (e : Bool) where
  upstreamIndex : Nat → Nat
  volumeFlux : Nat → Evaluation n
  energy : BlackOilEnergyExtensiveQuantities n e

/-- An interior face of the stencil. -/
structure SubControlVolumeFace where
  area : Scalar
  interiorIndex : Nat
  exteriorIndex : Nat

/-- A boundary face of the stencil. -/
structure BoundaryFace where
  interiorIndex : Nat

/-- The stencil of an element. -/
structure Stencil where
  interiorFace : Nat → SubControlVolumeFace
  boundaryFace : Nat → BoundaryFace

/-- The collaborator `problem()`.  The two law evaluations stand for
`SolidEnergyLaw::solidInternalEnergy(problem.solidEnergyLawParams(ctx, dof, time), fs)` and
`ThermalConductionLaw::thermalConductivity(problem.thermalConductionLawParams(ctx, dof, time), fs)`. -/
structure Problem (n : Nat) where
  temperature : Nat → Nat → Scalar
  thermalHalfTransmissibilityIn : Nat → Nat → Scalar
  thermalHalfTransmissibilityOut : Nat → Nat → Scalar
  thermalHalfTransmissibilityBoundary : Nat → Scalar
  solidInternalEnergy : Nat → Nat → FluidState n → Evaluation n
  thermalConductivity : Nat → Nat → FluidState n → Evaluation n

/-- The collaborator `FluidSystem` of the black-oil model. -/
structure FluidSystem (n : Nat) (ParameterCache : Type) where
  numPhases : Nat
  phaseIsActive : Nat → Bool
  enthalpy : FluidState n → ParameterCache → Nat → Evaluation n

/-- The vector of primary variables of one degree of freedom. -/
abbrev PrimaryVariables := Nat → Scalar

/-- A vector with one `Scalar` per equation. -/
abbrev EqVector := Nat → Scalar

/-- A vector with one `Evaluation` per equation. -/
abbrev RateVector (n : Nat) := Nat → Evaluation n

/-- The element context.  `makeEvaluation priVars varIdx timeIdx` stands for
`priVars.makeEvaluation(varIdx, timeIdx, elemCtx.linearizationType())`, a method of the
primary variables that is not part of these sources. -/
structure ElementContext (n : Nat) (e : Bool) where
  focusDofIndex : Nat
  stencil : Nat → Stencil
  intensiveQuantities : Nat → Nat → IntensiveQuantities n e
  extensiveQuantities : Nat → Nat → ExtensiveQuantities n e
  problem : Problem n
  primaryVars : Nat → Nat → PrimaryVariables
  makeEvaluation : PrimaryVariables → Nat → Nat → Evaluation n

/-- The compile-time constants the energy extension takes from its type tag:
`Indices::temperatureIdx`, `Indices::contiEnergyEqIdx` and the properties
`BlackOilEnergyScalingFactor` and `EnableTemperature`. -/
structure TypeTag where
  temperatureIdx : Nat
  contiEnergyEqIdx : Nat
  BlackOilEnergyScalingFactor : Scalar
  enableTemperature : Bool

/-- The simulator's `Model` as far as (de)serialisation uses it: `solution timeIdx dofIdx`
is `model.solution(timeIdx)[dofIdx]`, `dofMapperIndex dof` is `model.dofMapper().index(dof)`. -/
structure Model (DofEntity : Type) where
  solution : Nat → Nat → PrimaryVariables
  dofMapperIndex : DofEntity → Nat

namespace IntensiveQuantities

/-- The loop of `updateEnergyQuantities_` over the phases: the enthalpy of every active
phase is computed and stored in the fluid state. -/
def setEnthalpies {ParameterCache : Type} (FS : FluidSystem n ParameterCache)
    (fs : FluidState n) (paramCache : ParameterCache) : FluidState n :=
  (List.range FS.numPhases).foldl
    (fun (fs : FluidState n) (phaseIdx : Nat) =>
      if !FS.phaseIsActive phaseIdx then fs
      else
        let h := FS.enthalpy fs paramCache phaseIdx
        fs.setEnthalpy phaseIdx h)
    fs

/-- The method `updateEnergyQuantities_` of both class templates, acting on the
implementation object (`asImp_().fluidState_` and the two members). -/
def updateEnergyQuantities_ {ParameterCache : Type} (FS : FluidSystem n ParameterCache) :
    {e : Bool} → IntensiveQuantities n e → ElementContext n e → Nat → Nat → ParameterCache →
      IntensiveQuantities n e
  | true, self, elemCtx, dofIdx, timeIdx, paramCache =>
      let fs := setEnthalpies FS self.fluidState_ paramCache
      let rockInternalEnergy_ := elemCtx.problem.solidInternalEnergy dofIdx timeIdx fs
      let totalThermalConductivity_ := elemCtx.problem.thermalConductivity dofIdx timeIdx fs
      { self with
        fluidState_ := fs
        energy :=
          BlackOilEnergyIntensiveQuantities.enabled rockInternalEnergy_
            totalThermalConductivity_ }
  | false, self, _, _, _, _ => self

/-- The method `updateTemperature_` of both class templates, acting on
`asImp_().fluidState_`. -/
def updateTemperature_ (T : TypeTag) :
    {e : Bool} → IntensiveQuantities n e → ElementContext n e → Nat → Nat →
      IntensiveQuantities n e
  | true, self, elemCtx, dofIdx, timeIdx =>
      let priVars := elemCtx.primaryVars dofIdx timeIdx
      { self with
        fluidState_ :=
          self.fluidState_.setTemperature
            (elemCtx.makeEvaluation priVars T.temperatureIdx timeIdx) }
  | false, self, elemCtx, dofIdx, timeIdx =>
      if T.enableTemperature then
        let temperature := elemCtx.problem.temperature dofIdx timeIdx
        { self with
          fluidState_ :=
            self.fluidState_.setTemperature (Evaluation.createConstant temperature) }
      else self

end IntensiveQuantities

namespace BlackOilEnergyExtensiveQuantities

/-- The accessor `energyFlux()` of both class templates. -/
def energyFlux :
    {e : Bool} → BlackOilEnergyExtensiveQuantities n e → Except String (Evaluation n)
  | _, enabled energyFlux_ => Except.ok energyFlux_
  | _, disabled => Except.error "Requested the energy flux, but energy is not conserved"

/-- The member `energyFlux_` of the primary template. -/
def energyFlux_ : BlackOilEnergyExtensiveQuantities n true → Evaluation n
  | enabled f => f

/-- The local `deltaT` of `updateEnergy`. -/
def deltaT (elemCtx : ElementContext n true) (scvfIdx timeIdx : Nat) : Evaluation n :=
  let stencil := elemCtx.stencil timeIdx
  let scvf := stencil.interiorFace scvfIdx
  let inIdx := scvf.interiorIndex
  let exIdx := scvf.exteriorIndex
  let inIq := elemCtx.intensiveQuantities inIdx timeIdx
  let exIq := elemCtx.intensiveQuantities exIdx timeIdx
  let inFs := inIq.fluidState_
  let exFs := exIq.fluidState_
  if elemCtx.focusDofIndex = inIdx then
    Evaluation.scalarSub (exFs.temperature 0).decay (inFs.temperature 0)
  else if elemCtx.focusDofIndex = exIdx then
    Evaluation.subScalar (exFs.temperature 0) (inFs.temperature 0).decay
  else
    Evaluation.createConstant ((exFs.temperature 0).decay - (inFs.temperature 0).decay)

/-- The local `inLambda` of `updateEnergy`. -/
def inLambda (elemCtx : ElementContext n true) (scvfIdx timeIdx : Nat) : Evaluation n :=
  let scvf := (elemCtx.stencil timeIdx).interiorFace scvfIdx
  let inIdx := scvf.interiorIndex
  let inIq := elemCtx.intensiveQuantities inIdx timeIdx
  if elemCtx.focusDofIndex = inIdx then inIq.energy.totalThermalConductivity_
  else Evaluation.createConstant inIq.energy.totalThermalConductivity_.decay

/-- The local `exLambda` of `updateEnergy`. -/
def exLambda (elemCtx : ElementContext n true) (scvfIdx timeIdx : Nat) : Evaluation n :=
  let scvf := (elemCtx.stencil timeIdx).interiorFace scvfIdx
  let exIdx := scvf.exteriorIndex
  let exIq := elemCtx.intensiveQuantities exIdx timeIdx
  if elemCtx.focusDofIndex = exIdx then exIq.energy.totalThermalConductivity_
  else Evaluation.createConstant exIq.energy.totalThermalConductivity_.decay

/-- The local `H` of `updateEnergy`, the thermal transmissibility. -/
def thermalTransmissibility (elemCtx : ElementContext n true) (scvfIdx timeIdx : Nat) :
    Evaluation n :=
  let inLambda := inLambda elemCtx scvfIdx timeIdx
  let exLambda := exLambda elemCtx scvfIdx timeIdx
  if inLambda.value > 0 ∧ exLambda.value > 0 then
    let inAlpha := elemCtx.problem.thermalHalfTransmissibilityIn scvfIdx timeIdx
    let outAlpha := elemCtx.problem.thermalHalfTransmissibilityOut scvfIdx timeIdx
    let inH := inLambda.mulScalar inAlpha
    let exH := exLambda.mulScalar outAlpha
    Evaluation.scalarDiv 1 (Evaluation.scalarDiv 1 inH + Evaluation.scalarDiv 1 exH)
  else Evaluation.createConstant 0

/-- The method `updateEnergy` of both class templates.  (The vector `distVec` the primary
template computes is never used.) -/
def updateEnergy :
    {e : Bool} → BlackOilEnergyExtensiveQuantities n e → ElementContext n e → Nat → Nat →
      BlackOilEnergyExtensiveQuantities n e
  | true, _, elemCtx, scvfIdx, timeIdx =>
      let faceArea := ((elemCtx.stencil timeIdx).interiorFace scvfIdx).area
      let deltaT := deltaT elemCtx scvfIdx timeIdx
      let H := thermalTransmissibility elemCtx scvfIdx timeIdx
      enabled (deltaT * (-H).divScalar faceArea)
  | false, self, _, _, _ => self

/-- The local `H` of `updateEnergy` with its three divisions checked: there is no result
when `1.0/inH`, `1.0/exH` or `1.0/(1.0/inH + 1.0/exH)` is a division by zero. -/
def thermalTransmissibilityChecked (elemCtx : ElementContext n true)
    (scvfIdx timeIdx : Nat) : Option (Evaluation n) :=
  let inLambda := inLambda elemCtx scvfIdx timeIdx
  let exLambda := exLambda elemCtx scvfIdx timeIdx
  if inLambda.value > 0 ∧ exLambda.value > 0 then do
    let inAlpha := elemCtx.problem.thermalHalfTransmissibilityIn scvfIdx timeIdx
    let outAlpha := elemCtx.problem.thermalHalfTransmissibilityOut scvfIdx timeIdx
    let inH := inLambda.mulScalar inAlpha
    let exH := exLambda.mulScalar outAlpha
    let inResistance ← Evaluation.scalarDivChecked 1 inH
    let exResistance ← Evaluation.scalarDivChecked 1 exH
    Evaluation.scalarDivChecked 1 (inResistance + exResistance)
  else pure (Evaluation.createConstant 0)

/-- The method `updateEnergy` of both class templates with its divisions checked: there is
no result when the transmissibility has none or when `-H/faceArea` is a division by zero;
the code then stores a flux that is not the quotient's value (NaN for `-0.0/0.0`). -/
def updateEnergyChecked :
    {e : Bool} → BlackOilEnergyExtensiveQuantities n e → ElementContext n e → Nat → Nat →
      Option (BlackOilEnergyExtensiveQuantities n e)
  | true, _, elemCtx, scvfIdx, timeIdx => do
      let faceArea := ((elemCtx.stencil timeIdx).interiorFace scvfIdx).area
      let deltaT := deltaT elemCtx scvfIdx timeIdx
      let H ← thermalTransmissibilityChecked elemCtx scvfIdx timeIdx
      let conductance ← (-H).divScalarChecked faceArea
      pure (enabled (deltaT * conductance))
  | false, self, _, _, _ => pure self

/-- The method `updateEnergyBoundary` of both class templates.  (The vector `distVec` the
primary template computes is never used.) -/
def updateEnergyBoundary :
    {e : Bool} → BlackOilEnergyExtensiveQuantities n e → ElementContext n e → Nat → Nat →
      FluidState n → BlackOilEnergyExtensiveQuantities n e
  | true, _, ctx, scvfIdx, timeIdx, boundaryFs =>
      let stencil := ctx.stencil timeIdx
      let scvf := stencil.boundaryFace scvfIdx
      let inIdx := scvf.interiorIndex
      let inIq := ctx.intensiveQuantities inIdx timeIdx
      let inFs := inIq.fluidState_
      let deltaT : Evaluation n :=
        if ctx.focusDofIndex = inIdx then boundaryFs.temperature 0 - inFs.temperature 0
        else
          Evaluation.createConstant
            ((boundaryFs.temperature 0).decay - (inFs.temperature 0).decay)
      let lambda : Evaluation n :=
        if ctx.focusDofIndex = inIdx then inIq.energy.totalThermalConductivity_
        else Evaluation.createConstant inIq.energy.totalThermalConductivity_.decay
      if lambda.value > 0 then
        let alpha := ctx.problem.thermalHalfTransmissibilityBoundary scvfIdx
        enabled ((deltaT * lambda).mulScalar (-alpha))
      else enabled (Evaluation.createConstant 0)
  | false, self, _, _, _, _ => self

end BlackOilEnergyExtensiveQuantities

/-! ### Numbers as an output stream writes them -/

namespace BlackOilEnergyModule

/-- The predicate `primaryVarApplies(pvIdx)`; `e` is `enableEnergy`. -/
def primaryVarApplies (T : TypeTag) (e : Bool) (pvIdx : Nat) : Bool :=
  if e then pvIdx == T.temperatureIdx else false

/-- The predicate `eqApplies(eqIdx)`. -/
def eqApplies (T : TypeTag) (e : Bool) (eqIdx : Nat) : Bool :=
  if e then eqIdx == T.contiEnergyEqIdx else false

/-- The method `addStorage<LhsEval>`; `decayLhs` is `decay<LhsEval>` and `ofScalar` the
conversion of a `Scalar` factor to `LhsEval`. -/
def addStorage {L ParameterCache : Type} [Add L] [Mul L] (T : TypeTag)
    (FS : FluidSystem n ParameterCache) (decayLhs : Evaluation n → L) (ofScalar : Scalar → L) :
    {e : Bool} → (Nat → L) → IntensiveQuantities n e → Nat → L
  | true, storage, intQuants =>
      let poro := decayLhs intQuants.porosity
      let fs := intQuants.fluidState_
      let storage := (List.range FS.numPhases).foldl
        (fun (storage : Nat → L) (phaseIdx : Nat) =>
          if !FS.phaseIsActive phaseIdx then storage
          else
            let u := decayLhs (fs.internalEnergy phaseIdx)
            let S := decayLhs (fs.saturation phaseIdx)
            let rho := decayLhs (fs.density phaseIdx)
            Function.update storage T.contiEnergyEqIdx
              (storage T.contiEnergyEqIdx + poro * S * u * rho))
        storage
      let refPoro := intQuants.referencePorosity
      let uRock := decayLhs intQuants.energy.rockInternalEnergy_
      let storage := Function.update storage T.contiEnergyEqIdx
        (storage T.contiEnergyEqIdx + ofScalar (1 - refPoro) * uRock)
      Function.update storage T.contiEnergyEqIdx
        (storage T.contiEnergyEqIdx * ofScalar T.BlackOilEnergyScalingFactor)
  | false, storage, _ => storage

/-- The method `addPhaseEnthalpyFlux_<UpstreamEval>`; `upstreamIsEvaluation` tells whether
`UpstreamEval` is `Evaluation` (otherwise it is `Scalar`). -/
def addPhaseEnthalpyFlux_ (T : TypeTag) (upstreamIsEvaluation : Bool) (flux : RateVector n)
    (phaseIdx : Nat) (elemCtx : ElementContext n true) (scvfIdx timeIdx : Nat) : RateVector n :=
  let extQuants := elemCtx.extensiveQuantities scvfIdx timeIdx
  let upIdx := extQuants.upstreamIndex phaseIdx
  let up := elemCtx.intensiveQuantities upIdx timeIdx
  let fs := up.fluidState_
  let volFlux := extQuants.volumeFlux phaseIdx
  Function.update flux T.contiEnergyEqIdx
    (flux T.contiEnergyEqIdx +
      (if upstreamIsEvaluation then fs.enthalpy phaseIdx * fs.density phaseIdx * volFlux
       else
        Evaluation.scalarMul ((fs.enthalpy phaseIdx).decay * (fs.density phaseIdx).decay)
          volFlux))

/-- The method `computeFlux`. -/
def computeFlux {ParameterCache : Type} (T : TypeTag) (FS : FluidSystem n ParameterCache) :
    {e : Bool} → RateVector n → ElementContext n e → Nat → Nat → RateVector n
  | true, flux, elemCtx, scvfIdx, timeIdx =>
      let flux := Function.update flux T.contiEnergyEqIdx (Evaluation.createConstant 0)
      let extQuants := elemCtx.extensiveQuantities scvfIdx timeIdx
      let focusIdx := elemCtx.focusDofIndex
      let flux := (List.range FS.numPhases).foldl
        (fun (flux : RateVector n) (phaseIdx : Nat) =>
          if !FS.phaseIsActive phaseIdx then flux
          else
            let upIdx := extQuants.upstreamIndex phaseIdx
            if upIdx = focusIdx then
              addPhaseEnthalpyFlux_ T true flux phaseIdx elemCtx scvfIdx timeIdx
            else addPhaseEnthalpyFlux_ T false flux phaseIdx elemCtx scvfIdx timeIdx)
        flux
      let flux := Function.update flux T.contiEnergyEqIdx
        (flux T.contiEnergyEqIdx + extQuants.energy.energyFlux_)
      Function.update flux T.contiEnergyEqIdx
        ((flux T.contiEnergyEqIdx).mulScalar T.BlackOilEnergyScalingFactor)
  | false, flux, _, _, _ => flux

/-- The method `addToEnthalpyRate`. -/
def addToEnthalpyRate (T : TypeTag) (e : Bool) (flux : RateVector n) (hRate : Evaluation n) :
    RateVector n :=
  if e then Function.update flux T.contiEnergyEqIdx (flux T.contiEnergyEqIdx + hRate)
  else flux

/-- The overload `assignPrimaryVars(PrimaryVariables&, Scalar)`.  The scalar argument has
no name in the source; what is stored is `temperatureIdx`. -/
def assignPrimaryVars (T : TypeTag) (e : Bool) (priVars : PrimaryVariables) (_ : Scalar) :
    PrimaryVariables :=
  if e then Function.update priVars T.temperatureIdx (T.temperatureIdx : Scalar) else priVars

/-- The overload `assignPrimaryVars(PrimaryVariables&, const FluidState&)` for any fluid
state type `F` with the accessor `temperature(phaseIdx)`. -/
def assignPrimaryVarsFluidState {F : Type} (T : TypeTag) (e : Bool)
    (temperature : F → Nat → Scalar) (priVars : PrimaryVariables) (fluidState : F) :
    PrimaryVariables :=
  if e then Function.update priVars T.temperatureIdx (temperature fluidState 0) else priVars

/-- The method `updatePrimaryVars`. -/
def updatePrimaryVars (T : TypeTag) (e : Bool) (newPv oldPv : PrimaryVariables)
    (delta : EqVector) : PrimaryVariables :=
  if e then
    Function.update newPv T.temperatureIdx (oldPv T.temperatureIdx - delta T.temperatureIdx)
  else newPv

/-- The method `computeUpdateError`. -/
def computeUpdateError (_e : Bool) (_ : PrimaryVariables) (_ : EqVector) : Scalar :=
  0

/-- The method `computeResidualError`; its body does not consult `enableEnergy`. -/
def computeResidualError (T : TypeTag) (_e : Bool) (resid : EqVector) : Scalar :=
  |resid T.contiEnergyEqIdx|

/-- The method `deserializeEntity`; the input stream is the list of the tokens not yet
read.  `instream >> x` takes the first token; at the end of the stream it fails and leaves
`x` as it is.  `priVars1 = priVars0[temperatureIdx]` assigns a scalar to a vector of primary
variables, which sets every entry (the assignment of `Dune::FieldVector`). -/
def deserializeEntity {DofEntity : Type} (T : TypeTag) (e : Bool) (model : Model DofEntity)
    (instream : List Scalar) (dof : DofEntity) : Model DofEntity × List Scalar :=
  if e then
    let dofIdx := model.dofMapperIndex dof
    let priVars0 := model.solution 0 dofIdx
    let (priVars0, instream) :=
      match instream with
      | token :: rest => (Function.update priVars0 T.temperatureIdx token, rest)
      | [] => (priVars0, [])
    let priVars1 : PrimaryVariables := fun _ => priVars0 T.temperatureIdx
    let solution := Function.update model.solution 0
      (Function.update (model.solution 0) dofIdx priVars0)
    let solution := Function.update solution 1 (Function.update (solution 1) dofIdx priVars1)
    ({ model with solution := solution }, instream)
  else (model, instream)

end BlackOilEnergyModule

end Opm

/-! ## Concrete data on which the statements are evaluated -/

namespace Examples

/-- A fluid system of water (18 g/mol) and nitrogen (28 g/mol) with constant density and
viscosity. -/
def fluidSystem1p2c : Dumux.FluidSystem where
  molarMass := fun compIdx => if compIdx = 0 then 18 else 28
  density := fun _ _ => 1000
  viscosity := fun _ _ => 1 / 1000
  binaryDiffusionCoefficient := fun _ _ _ _ => 1 / 1000000

/-- Pressure in slot 0, fraction of component 1 in slot 1. -/
def indices1p2c : Dumux.Indices := ⟨0, 1⟩

/-- A fluid state with all entries zero. -/
def fluidState1p2c : Dumux.FluidState := ⟨0, fun _ => 0, fun _ _ => 0, fun _ => 0, fun _ => 0⟩

/-- An element context whose sub-control volumes all have pressure `100000` and the
fraction `1/2` of component 1. -/
def elemCtx1p2c : Dumux.ElementContext where
  primaryVars := fun _ _ pvIdx => if pvIdx = 0 then 100000 else 1 / 2
  problemTemperature := fun _ => 293
  spatialParameters := ⟨fun _ => 2 / 5, fun _ => 7 / 25, fun _ => 1⟩

/-- One phase, continuity equations from slot 0 on. -/
def configImm : Ewoms.Config := ⟨0, 1⟩

/-- A disabled energy module. -/
def energyOff : Ewoms.EnergyModule 1 :=
  ⟨false, 1, fun _ _ => 0, fun _ => 0, fun _ _ _ => 0, fun _ _ _ => 0⟩

/-- Intensive quantities of a single-phase control volume: porosity `2/5`, saturation `1`,
density `1000` with derivative `3`. -/
def intQuantsImm : Ewoms.IntensiveQuantities 1 :=
  ⟨⟨fun _ => Evaluation.createConstant 1, fun _ => ⟨1000, fun _ => 3⟩⟩, ⟨2 / 5, fun _ => 0⟩⟩

/-- A face between the degrees of freedom 0 (interior) and 1 (exterior) with a flux of `-2`
from the exterior to the interior; the focus is the exterior (upstream) one. -/
def elemCtxInflow : Ewoms.ElementContext 1 where
  focusDofIndex := 1
  intensiveQuantities := fun _ _ => intQuantsImm
  extensiveQuantities := fun _ _ => ⟨0, 1, fun _ => 1, fun _ => ⟨-2, fun _ => 0⟩⟩

/-- The same face with a flux of `2` from the interior to the exterior; the focus is the
interior (upstream) one. -/
def elemCtxOutflow : Ewoms.ElementContext 1 where
  focusDofIndex := 0
  intensiveQuantities := fun _ _ => intQuantsImm
  extensiveQuantities := fun _ _ => ⟨0, 1, fun _ => 0, fun _ => ⟨2, fun _ => 1⟩⟩

/-- Intensive quantities with the temperature `T` (derivative `1`) and the total thermal
conductivity `lambda` (derivative `1/2`), energy enabled. -/
def intQuantsEnergy (T lambda : Scalar) : Opm.IntensiveQuantities 1 true where
  fluidState_ :=
    ⟨fun _ => ⟨T, fun _ => 1⟩, fun _ => Evaluation.createConstant 1,
      fun _ => Evaluation.createConstant 1000, fun _ => Evaluation.createConstant 0,
      fun _ => Evaluation.createConstant 0⟩
  porosity := Evaluation.createConstant (2 / 5)
  referencePorosity := 2 / 5
  energy := Opm.BlackOilEnergyIntensiveQuantities.enabled 0 ⟨lambda, fun _ => 1 / 2⟩

/-- The problem of the examples: half-transmissibilities `1/2` (interior side) and `1/3`
(exterior side). -/
def problemEnergy : Opm.Problem 1 where
  temperature := fun _ _ => 293
  thermalHalfTransmissibilityIn := fun _ _ => 1 / 2
  thermalHalfTransmissibilityOut := fun _ _ => 1 / 3
  thermalHalfTransmissibilityBoundary := fun _ => 1
  solidInternalEnergy := fun _ _ _ => 0
  thermalConductivity := fun _ _ _ => 0

/-- A face of area `2` between the degree of freedom 0 (interior, `300` K, focus) and the
degree of freedom 1 (exterior, `310` K); the interior conductivity is `lambdaIn`, the
exterior one `3`. -/
def elemCtxEnergy (lambdaIn : Scalar) : Opm.ElementContext 1 true where
  focusDofIndex := 0
  stencil := fun _ => ⟨fun _ => ⟨2, 0, 1⟩, fun _ => ⟨0⟩⟩
  intensiveQuantities := fun dofIdx _ =>
    if dofIdx = 0 then intQuantsEnergy 300 lambdaIn else intQuantsEnergy 310 3
  extensiveQuantities := fun _ _ =>
    ⟨fun _ => 0, fun _ => 0, Opm.BlackOilEnergyExtensiveQuantities.enabled 0⟩
  problem := problemEnergy
  primaryVars := fun dofIdx _ _ => if dofIdx = 0 then 300 else 310
  makeEvaluation := fun priVars varIdx _ => ⟨priVars varIdx, fun _ => 1⟩

/-- The type tag of the examples: three black-oil equations, temperature and energy
equation in slot 3, scaling factor `2`, `EnableTemperature` unset. -/
def typeTagEnergy : Opm.TypeTag := ⟨3, 3, 2, false⟩

/-- Volume variables of the 1p2c model with all members zero. -/
def volVars1p2c : Dumux.OnePTwoCVolumeVariables := ⟨0, 0, 0, 0, fluidState1p2c⟩

/-- A model whose degrees of freedom all hold, at both time levels, the pressure `100000`
(slot 0), the saturations `3/10` and `1/5` (slots 1 and 2) and the temperature `300`
(slot 3). -/
def modelEnergy : Opm.Model Nat where
  solution := fun _ _ pvIdx =>
    if pvIdx = 0 then 100000 else if pvIdx = 1 then 3 / 10 else if pvIdx = 2 then 1 / 5 else 300
  dofMapperIndex := fun dof => dof

/-- Intensive quantities of a model without energy, with the temperature `273`. -/
def intQuantsNoEnergy : Opm.IntensiveQuantities 1 false where
  fluidState_ :=
    ⟨fun _ => Evaluation.createConstant 273, fun _ => Evaluation.createConstant 1,
      fun _ => Evaluation.createConstant 1000, fun _ => Evaluation.createConstant 0,
      fun _ => Evaluation.createConstant 0⟩
  porosity := Evaluation.createConstant (2 / 5)
  referencePorosity := 2 / 5
  energy := Opm.BlackOilEnergyIntensiveQuantities.disabled

/-- An element context of a model without energy; the problem's temperature is `293`. -/
def elemCtxNoEnergy : Opm.ElementContext 1 false where
  focusDofIndex := 0
  stencil := fun _ => ⟨fun _ => ⟨2, 0, 1⟩, fun _ => ⟨0⟩⟩
  intensiveQuantities := fun _ _ => intQuantsNoEnergy
  extensiveQuantities := fun _ _ =>
    ⟨fun _ => 0, fun _ => 0, Opm.BlackOilEnergyExtensiveQuantities.disabled⟩
  problem := problemEnergy
  primaryVars := fun _ _ _ => 0
  makeEvaluation := fun priVars varIdx _ => ⟨priVars varIdx, fun _ => 1⟩

/-- The problem of the examples with a vanishing half-transmissibility on the interior
side. -/
def problemZeroAlpha : Opm.Problem 1 :=
  { problemEnergy with thermalHalfTransmissibilityIn := fun _ _ => 0 }

/-- The example face with conductivities `2` and `3` and the problem `problemZeroAlpha`. -/
def elemCtxZeroAlpha : Opm.ElementContext 1 true :=
  { elemCtxEnergy 2 with problem := problemZeroAlpha }

/-- A boundary fluid state with the temperature `320` (derivative `0`). -/
def boundaryFsEnergy : Opm.FluidState 1 :=
  ⟨fun _ => Evaluation.createConstant 320, fun _ => Evaluation.createConstant 1,
    fun _ => Evaluation.createConstant 1000, fun _ => Evaluation.createConstant 0,
    fun _ => Evaluation.createConstant 0⟩

/-- The problem of the examples with the two half-transmissibilities exchanged. -/
def problemEnergySwapped : Opm.Problem 1 :=
  { problemEnergy with
    thermalHalfTransmissibilityIn := fun _ _ => 1 / 3
    thermalHalfTransmissibilityOut := fun _ _ => 1 / 2 }

/-- The example face seen from the other side: the degree of freedom 1 is the interior and
the degree of freedom 0 the exterior one, with the half-transmissibilities exchanged. -/
def elemCtxEnergySwapped : Opm.ElementContext 1 true :=
  { elemCtxEnergy 2 with
    stencil := fun _ => ⟨fun _ => ⟨2, 1, 0⟩, fun _ => ⟨0⟩⟩
    problem := problemEnergySwapped }

/-- A fluid system with the molar masses `3` and `1`. -/
def fluidSystemSingular : Dumux.FluidSystem :=
  { fluidSystem1p2c with molarMass := fun compIdx => if compIdx = 0 then 3 else 1 }

/-- An element context whose primary variable of component 1 is `-1/2`; nothing in
`completeFluidState` rejects it. -/
def elemCtxSingular : Dumux.ElementContext :=
  { elemCtx1p2c with primaryVars := fun _ _ pvIdx => if pvIdx = 0 then 100000 else -1 / 2 }

/-- The example face with an insulating interior side (conductivity `0`) and the face area
`0`. -/
def elemCtxZeroArea : Opm.ElementContext 1 true :=
  { elemCtxEnergy 0 with stencil := fun _ => ⟨fun _ => ⟨0, 0, 1⟩, fun _ => ⟨0⟩⟩ }

/-- An enabled energy module of the immiscible model whose slot is slot 1 and which adds
a heat-conduction flux of `7`. -/
def energyOn : Ewoms.EnergyModule 1 :=
  ⟨true, 1, fun _ _ => 0, fun _ => 0, fun _ _ _ => 0, fun _ _ _ => Evaluation.createConstant 7⟩

end Examples

/-! ## Properties of the 1p2c fluid-state builder -/

namespace Dumux

/-- The mole fraction of component 1 that `completeFluidState` stores. -/
theorem moleFraction_completeFluidState_one (useMolarFormulation : Bool) (FS : FluidSystem)
    (I : Indices) (fluidState : FluidState) (elemCtx : ElementContext)
    (scvIdx historyIdx : Nat) :
    moleFraction (completeFluidState useMolarFormulation FS I fluidState elemCtx scvIdx
      historyIdx) 1 =
      if useMolarFormulation then elemCtx.primaryVars scvIdx historyIdx I.x1Idx
      else elemCtx.primaryVars scvIdx historyIdx I.x1Idx *
        (FS.molarMass 0 * FS.molarMass 1 /
          (FS.molarMass 1 + elemCtx.primaryVars scvIdx historyIdx I.x1Idx *
            (FS.molarMass 0 - FS.molarMass 1)) / FS.molarMass 1) := by
  cases useMolarFormulation <;>
    simp [moleFraction, completeFluidState, FluidState.setViscosity, FluidState.setDensity,
      FluidState.setMoleFraction, FluidState.setPressure]

/-- The mole fraction of component 0 that `completeFluidState` stores. -/
theorem moleFraction_completeFluidState_zero (useMolarFormulation : Bool) (FS : FluidSystem)
    (I : Indices) (fluidState : FluidState) (elemCtx : ElementContext)
    (scvIdx historyIdx : Nat) :
    moleFraction (completeFluidState useMolarFormulation FS I fluidState elemCtx scvIdx
      historyIdx) 0 =
      1 - moleFraction (completeFluidState useMolarFormulation FS I fluidState elemCtx scvIdx
        historyIdx) 1 := by
  cases useMolarFormulation <;>
    simp [moleFraction, completeFluidState, FluidState.setViscosity, FluidState.setDensity,
      FluidState.setMoleFraction, FluidState.setPressure]

/-- C1: in the mass-fraction formulation `completeFluidState` stores, as the mole fraction
of component 1, `x1 * meanMolarMass / M1` with
`meanMolarMass = M0*M1 / (M1 + x1*(M0 - M1))` and `x1` the primary variable at `x1Idx`; in
the molar formulation it stores `x1` itself. -/
theorem completeFluidState_moleFraction_formula (FS : FluidSystem) (I : Indices)
    (fluidState : FluidState) (elemCtx : ElementContext) (scvIdx historyIdx : Nat) :
    let x1 := elemCtx.primaryVars scvIdx historyIdx I.x1Idx
    let M0 := FS.molarMass 0
    let M1 := FS.molarMass 1
    let meanMolarMass := M0 * M1 / (M1 + x1 * (M0 - M1))
    moleFraction (completeFluidState false FS I fluidState elemCtx scvIdx historyIdx) 1 =
        x1 * meanMolarMass / M1 ∧
      moleFraction (completeFluidState true FS I fluidState elemCtx scvIdx historyIdx) 1 =
        x1 := by
  intro x1 M0 M1 meanMolarMass
  constructor
  · rw [moleFraction_completeFluidState_one]
    simp only [Bool.false_eq_true, if_false, x1, M0, M1, meanMolarMass]
    ring
  · rw [moleFraction_completeFluidState_one]
    simp

/-- C2: for positive molar masses and a mass fraction `X1` in `[0,1]`, converting the mole
fraction that `completeFluidState` computes in the mass-fraction formulation back with
`x1*M1 / ((1 - x1)*M0 + x1*M1)` gives `X1` again. -/
theorem completeFluidState_massFraction_roundTrip (FS : FluidSystem) (I : Indices)
    (fluidState : FluidState) (elemCtx : ElementContext) (scvIdx historyIdx : Nat)
    (hM0 : 0 < FS.molarMass 0) (hM1 : 0 < FS.molarMass 1)
    (hlo : 0 ≤ elemCtx.primaryVars scvIdx historyIdx I.x1Idx)
    (hhi : elemCtx.primaryVars scvIdx historyIdx I.x1Idx ≤ 1) :
    massFractionOfMoleFraction (FS.molarMass 0) (FS.molarMass 1)
        (moleFraction (completeFluidState false FS I fluidState elemCtx scvIdx historyIdx) 1) =
      elemCtx.primaryVars scvIdx historyIdx I.x1Idx := by
  rw [moleFraction_completeFluidState_one]
  simp only [Bool.false_eq_true, if_false, massFractionOfMoleFraction]
  generalize elemCtx.primaryVars scvIdx historyIdx I.x1Idx = X at hlo hhi ⊢
  generalize FS.molarMass 0 = M0 at hM0 ⊢
  generalize FS.molarMass 1 = M1 at hM1 ⊢
  have hD : 0 < M1 + X * (M0 - M1) := by
    nlinarith [mul_nonneg hlo hM0.le, mul_nonneg (sub_nonneg.2 hhi) hM1.le]
  have hD' : M1 + X * (M0 - M1) ≠ 0 := ne_of_gt hD
  have hM0' : M0 ≠ 0 := ne_of_gt hM0
  have hM1' : M1 ≠ 0 := ne_of_gt hM1
  have key : (1 - X * (M0 * M1 / (M1 + X * (M0 - M1)) / M1)) * M0 +
      X * (M0 * M1 / (M1 + X * (M0 - M1)) / M1) * M1 = M0 * M1 / (M1 + X * (M0 - M1)) := by
    field_simp
    ring
  rw [key]
  field_simp
  ring

/-- Evaluation of C2 on water/nitrogen at the mass fraction `1/2`. -/
theorem completeFluidState_massFraction_roundTrip_witness :
    massFractionOfMoleFraction 18 28
        (moleFraction (completeFluidState false Examples.fluidSystem1p2c Examples.indices1p2c
          Examples.fluidState1p2c Examples.elemCtx1p2c 0 0) 1) = 1 / 2 :=
  completeFluidState_massFraction_roundTrip Examples.fluidSystem1p2c Examples.indices1p2c
    Examples.fluidState1p2c Examples.elemCtx1p2c 0 0 (by norm_num [Examples.fluidSystem1p2c])
    (by norm_num [Examples.fluidSystem1p2c])
    (by norm_num [Examples.elemCtx1p2c, Examples.indices1p2c])
    (by norm_num [Examples.elemCtx1p2c, Examples.indices1p2c])

/-- Where the mass-fraction formulation divides by non-zero numbers, and always in the
molar formulation, the checked builder returns the fluid state of `completeFluidState`. -/
theorem completeFluidStateChecked_eq_some (useMolarFormulation : Bool) (FS : FluidSystem)
    (I : Indices) (fluidState : FluidState) (elemCtx : ElementContext)
    (scvIdx historyIdx : Nat)
    (hdiv : useMolarFormulation = true ∨
      (FS.molarMass 1 + elemCtx.primaryVars scvIdx historyIdx I.x1Idx *
          (FS.molarMass 0 - FS.molarMass 1) ≠ 0 ∧ FS.molarMass 1 ≠ 0)) :
    completeFluidStateChecked useMolarFormulation FS I fluidState elemCtx scvIdx historyIdx =
      some (completeFluidState useMolarFormulation FS I fluidState elemCtx scvIdx
        historyIdx) := by
  cases useMolarFormulation with
  | true => rfl
  | false =>
    rcases hdiv with h | ⟨hD, hM1⟩
    · exact absurd h (by decide)
    · simp [completeFluidStateChecked, completeFluidState, checkedDiv, hD, hM1]

/-- C3 as stated fails for a primary variable that makes the divisor of `meanMolarMass`
vanish.  With the molar masses `M0 = 3`, `M1 = 1` and the primary variable `-1/2` the divisor
`M1 + x1*(M0 - M1)` is `0`: the mass-fraction formulation divides by zero, the checked
builder has no fluid state, and no pair of mole fractions with the sum `1` is stored (the
code stores the infinities of `x1*(M0*M1/0)/M1`, whose sum is NaN). -/
theorem completeFluidState_moleFractions_sum_counterexample :
    Examples.fluidSystemSingular.molarMass 1 +
          Examples.elemCtxSingular.primaryVars 0 0 Examples.indices1p2c.x1Idx *
            (Examples.fluidSystemSingular.molarMass 0 -
              Examples.fluidSystemSingular.molarMass 1) = 0 ∧
      completeFluidStateChecked false Examples.fluidSystemSingular Examples.indices1p2c
          Examples.fluidState1p2c Examples.elemCtxSingular 0 0 = none ∧
      Option.map (fun fs => moleFraction fs 0 + moleFraction fs 1)
          (completeFluidStateChecked false Examples.fluidSystemSingular Examples.indices1p2c
            Examples.fluidState1p2c Examples.elemCtxSingular 0 0) ≠ some 1 := by
  have hD : Examples.fluidSystemSingular.molarMass 1 +
      Examples.elemCtxSingular.primaryVars 0 0 Examples.indices1p2c.x1Idx *
        (Examples.fluidSystemSingular.molarMass 0 -
          Examples.fluidSystemSingular.molarMass 1) = 0 := by
    norm_num [Examples.fluidSystemSingular, Examples.elemCtxSingular, Examples.indices1p2c]
  have hnone : completeFluidStateChecked false Examples.fluidSystemSingular
      Examples.indices1p2c Examples.fluidState1p2c Examples.elemCtxSingular 0 0 = none := by
    simp [completeFluidStateChecked, checkedDiv, hD]
  refine ⟨hD, hnone, ?_⟩
  rw [hnone]
  simp

/-- C3, amended: in the molar formulation for every primary variable, and in the
mass-fraction formulation for every primary variable for which the two divisors
`M1 + x1*(M0 - M1)` and `M1` are not zero, `completeFluidState` divides by no zero and the
two mole fractions it stores for the single phase sum to one. -/
theorem completeFluidStateChecked_moleFractions_sum (useMolarFormulation : Bool)
    (FS : FluidSystem) (I : Indices) (fluidState : FluidState) (elemCtx : ElementContext)
    (scvIdx historyIdx : Nat)
    (hdiv : useMolarFormulation = true ∨
      (FS.molarMass 1 + elemCtx.primaryVars scvIdx historyIdx I.x1Idx *
          (FS.molarMass 0 - FS.molarMass 1) ≠ 0 ∧ FS.molarMass 1 ≠ 0)) :
    completeFluidStateChecked useMolarFormulation FS I fluidState elemCtx scvIdx historyIdx =
        some (completeFluidState useMolarFormulation FS I fluidState elemCtx scvIdx
          historyIdx) ∧
      Option.map (fun fs => moleFraction fs 0 + moleFraction fs 1)
          (completeFluidStateChecked useMolarFormulation FS I fluidState elemCtx scvIdx
            historyIdx) = some 1 := by
  have hsome := completeFluidStateChecked_eq_some useMolarFormulation FS I fluidState elemCtx
    scvIdx historyIdx hdiv
  refine ⟨hsome, ?_⟩
  rw [hsome, Option.map_some', moleFraction_completeFluidState_zero]
  congr 1
  ring

/-- Evaluation of the amended C3 on water/nitrogen at the mass fraction `1/2`, in the
mass-fraction formulation: the divisor is `28 + (1/2)*(18 - 28) = 23`. -/
theorem completeFluidStateChecked_moleFractions_sum_witness :
    Option.map (fun fs => moleFraction fs 0 + moleFraction fs 1)
        (completeFluidStateChecked false Examples.fluidSystem1p2c Examples.indices1p2c
          Examples.fluidState1p2c Examples.elemCtx1p2c 0 0) = some 1 :=
  (completeFluidStateChecked_moleFractions_sum false Examples.fluidSystem1p2c
    Examples.indices1p2c Examples.fluidState1p2c Examples.elemCtx1p2c 0 0
    (Or.inr ⟨by norm_num [Examples.fluidSystem1p2c, Examples.elemCtx1p2c,
      Examples.indices1p2c], by norm_num [Examples.fluidSystem1p2c]⟩)).2

end Dumux

/-! ## Properties of the immiscible local residual -/

/-- A loop that assigns `val p` to the slot `c0 + p`, for `p` below `N`. -/
theorem foldl_range_update_assign {α : Type} (val : Nat → α) (c0 N : Nat) (init : Nat → α)
    (j : Nat) :
    (List.range N).foldl (fun (v : Nat → α) (p : Nat) => Function.update v (c0 + p) (val p))
        init j =
      if c0 ≤ j ∧ j < c0 + N then val (j - c0) else init j := by
  induction N with
  | zero => rw [if_neg (by omega)]; rfl
  | succ N ih =>
    rw [List.range_succ, List.foldl_append]
    simp only [List.foldl_cons, List.foldl_nil]
    by_cases hj : j = c0 + N
    · subst hj
      simp
    · rw [Function.update_noteq hj, ih]
      by_cases h : c0 ≤ j ∧ j < c0 + N
      · rw [if_pos h, if_pos ⟨h.1, by omega⟩]
      · rw [if_neg h, if_neg (by omega)]

/-- A loop that adds `t p` to the slot `c0 + p`, for `p` below `N`. -/
theorem foldl_range_update_add {α : Type} [Add α] (t : Nat → α) (c0 N : Nat) (init : Nat → α)
    (j : Nat) :
    (List.range N).foldl
        (fun (v : Nat → α) (p : Nat) => Function.update v (c0 + p) (v (c0 + p) + t p))
        init j =
      if c0 ≤ j ∧ j < c0 + N then init j + t (j - c0) else init j := by
  induction N with
  | zero => rw [if_neg (by omega)]; rfl
  | succ N ih =>
    rw [List.range_succ, List.foldl_append]
    simp only [List.foldl_cons, List.foldl_nil]
    by_cases hj : j = c0 + N
    · subst hj
      rw [Function.update_same, ih]
      simp
    · rw [Function.update_noteq hj, ih]
      by_cases h : c0 ≤ j ∧ j < c0 + N
      · rw [if_pos h, if_pos ⟨h.1, by omega⟩]
      · rw [if_neg h, if_neg (by omega)]

namespace Evaluation

variable {n : Nat}

theorem add_value (a b : Evaluation n) : (a + b).value = a.value + b.value := rfl

theorem add_derivatives (a b : Evaluation n) (i : Fin n) :
    (a + b).derivatives i = a.derivatives i + b.derivatives i := rfl

theorem mul_value (a b : Evaluation n) : (a * b).value = a.value * b.value := rfl

theorem mul_derivatives (a b : Evaluation n) (i : Fin n) :
    (a * b).derivatives i = a.derivatives i * b.value + a.value * b.derivatives i := rfl

theorem mulScalar_value (a : Evaluation n) (s : Scalar) : (a.mulScalar s).value = a.value * s :=
  rfl

theorem mulScalar_derivatives (a : Evaluation n) (s : Scalar) (i : Fin n) :
    (a.mulScalar s).derivatives i = a.derivatives i * s := by
  show a.derivatives i * s + a.value * 0 = a.derivatives i * s
  ring

theorem mul_createConstant_one (a : Evaluation n) : a * createConstant 1 = a := by
  ext
  · show a.value * 1 = a.value
    ring
  · show _ * 1 + a.value * 0 = _
    ring

end Evaluation

namespace Ewoms

variable {n : Nat}

/-- The storage vector of `computeStorage` with a disabled energy module, slot by slot. -/
theorem computeStorage_disabled_slot {L : Type} [Zero L] [Add L] [Mul L] (C : Config)
    (EM : EnergyModule n) (toLhs : Evaluation n → L) (storage : Nat → L)
    (elemCtx : ElementContext n) (dofIdx timeIdx j : Nat) (hE : EM.enableEnergy = false) :
    computeStorage C EM toLhs storage elemCtx dofIdx timeIdx j =
      if C.conti0EqIdx ≤ j ∧ j < C.conti0EqIdx + C.numPhases then
        toLhs (elemCtx.intensiveQuantities dofIdx timeIdx).porosity *
          toLhs ((elemCtx.intensiveQuantities dofIdx timeIdx).fluidState.saturation
            (j - C.conti0EqIdx)) *
          toLhs ((elemCtx.intensiveQuantities dofIdx timeIdx).fluidState.density
            (j - C.conti0EqIdx))
      else 0 := by
  simp only [computeStorage, addPhaseStorage, EnergyModule.addPhaseStorage,
    EnergyModule.addSolidHeatStorage, hE, Bool.false_eq_true, if_false]
  exact foldl_range_update_assign _ _ _ _ j

/-- The flux vector after `addAdvectiveFlux`, in a continuity slot that is not the energy
slot. -/
theorem addAdvectiveFlux_slot (C : Config) (EM : EnergyModule n) (flux : Nat → Evaluation n)
    (elemCtx : ElementContext n) (scvfIdx timeIdx phaseIdx : Nat)
    (hp : phaseIdx < C.numPhases)
    (hE : EM.enableEnergy = true → EM.energyEqIdx ≠ C.conti0EqIdx + phaseIdx) :
    addAdvectiveFlux C EM flux elemCtx scvfIdx timeIdx (C.conti0EqIdx + phaseIdx) =
      flux (C.conti0EqIdx + phaseIdx) + advectiveMassFlux elemCtx scvfIdx timeIdx phaseIdx := by
  have hloop := foldl_range_update_add (fun p => advectiveMassFlux elemCtx scvfIdx timeIdx p)
    C.conti0EqIdx C.numPhases flux (C.conti0EqIdx + phaseIdx)
  rw [if_pos ⟨by omega, by omega⟩, Nat.add_sub_cancel_left] at hloop
  unfold addAdvectiveFlux EnergyModule.addAdvectiveFlux
  by_cases h : EM.enableEnergy = true
  · simp only [h, if_true]
    rw [Function.update_noteq (Ne.symm (hE h))]
    exact hloop
  · simp only [h, Bool.false_eq_true, if_false]
    exact hloop

/-- C4: with the energy extension disabled, whatever the storage vector held before,
`computeStorage` leaves `porosity * saturation(p) * density(p)` of the degree of freedom in
the slot `conti0EqIdx + p` of every phase `p < numPhases`; for a single phase of saturation
one this is `porosity * density`, for `LhsEval = Evaluation` and for `LhsEval = Scalar`. -/
theorem computeStorage_energyDisabled {L : Type} [Zero L] [Add L] [Mul L] (C : Config)
    (EM : EnergyModule n) (toLhs : Evaluation n → L) (storage : Nat → L)
    (storageEval : Nat → Evaluation n) (storageScalar : Nat → Scalar)
    (elemCtx : ElementContext n) (dofIdx timeIdx phaseIdx : Nat)
    (hE : EM.enableEnergy = false) (hp : phaseIdx < C.numPhases) :
    computeStorage C EM toLhs storage elemCtx dofIdx timeIdx (C.conti0EqIdx + phaseIdx) =
        toLhs (elemCtx.intensiveQuantities dofIdx timeIdx).porosity *
          toLhs ((elemCtx.intensiveQuantities dofIdx timeIdx).fluidState.saturation phaseIdx) *
          toLhs ((elemCtx.intensiveQuantities dofIdx timeIdx).fluidState.density phaseIdx) ∧
      ((elemCtx.intensiveQuantities dofIdx timeIdx).fluidState.saturation phaseIdx =
          Evaluation.createConstant 1 →
        computeStorage C EM id storageEval elemCtx dofIdx timeIdx (C.conti0EqIdx + phaseIdx) =
            (elemCtx.intensiveQuantities dofIdx timeIdx).porosity *
              (elemCtx.intensiveQuantities dofIdx timeIdx).fluidState.density phaseIdx ∧
          computeStorage C EM Evaluation.decay storageScalar elemCtx dofIdx timeIdx
              (C.conti0EqIdx + phaseIdx) =
            (elemCtx.intensiveQuantities dofIdx timeIdx).porosity.value *
              ((elemCtx.intensiveQuantities dofIdx timeIdx).fluidState.density phaseIdx).value) := by
  have hslot : C.conti0EqIdx ≤ C.conti0EqIdx + phaseIdx ∧
      C.conti0EqIdx + phaseIdx < C.conti0EqIdx + C.numPhases := ⟨by omega, by omega⟩
  refine ⟨?_, fun hS => ⟨?_, ?_⟩⟩
  · rw [computeStorage_disabled_slot C EM toLhs storage elemCtx dofIdx timeIdx _ hE,
      if_pos hslot, Nat.add_sub_cancel_left]
  · rw [computeStorage_disabled_slot C EM id storageEval elemCtx dofIdx timeIdx _ hE,
      if_pos hslot, Nat.add_sub_cancel_left, hS]
    simp only [id, Evaluation.mul_createConstant_one]
  · rw [computeStorage_disabled_slot C EM Evaluation.decay storageScalar elemCtx dofIdx timeIdx
      _ hE, if_pos hslot, Nat.add_sub_cancel_left, hS]
    simp [Evaluation.decay, Evaluation.createConstant]

/-- Evaluation of C4 on a single-phase control volume with porosity `2/5` and density
`1000`: the storage is `400`. -/
theorem computeStorage_energyDisabled_witness :
    computeStorage Examples.configImm Examples.energyOff Evaluation.decay (fun _ => 7)
      Examples.elemCtxOutflow 0 0 (Examples.configImm.conti0EqIdx + 0) = 400 := by
  have h := (computeStorage_energyDisabled Examples.configImm Examples.energyOff Evaluation.decay
    (fun _ => 7) (fun _ => 0) (fun _ => 7) Examples.elemCtxOutflow 0 0 0 rfl (by decide)).2 rfl
  rw [h.2]
  norm_num [Examples.elemCtxOutflow, Examples.intQuantsImm]

/-- C5: for every face and every phase `p`, `addAdvectiveFlux` increases the value of
`flux[conti0EqIdx + p]` by `volumeFlux(p) * density(upstream degree of freedom of p, p)`;
when the upstream degree of freedom is the interior one, the mass flux added is
`volumeFlux * density` of the interior degree of freedom.  (An enabled energy module writes
its own slot, which is not a continuity slot.) -/
theorem addAdvectiveFlux_value (C : Config) (EM : EnergyModule n)
    (flux : Nat → Evaluation n) (elemCtx : ElementContext n) (scvfIdx timeIdx phaseIdx : Nat)
    (hp : phaseIdx < C.numPhases)
    (hE : EM.enableEnergy = true → EM.energyEqIdx ≠ C.conti0EqIdx + phaseIdx) :
    (addAdvectiveFlux C EM flux elemCtx scvfIdx timeIdx (C.conti0EqIdx + phaseIdx)).value =
        (flux (C.conti0EqIdx + phaseIdx)).value +
          ((elemCtx.extensiveQuantities scvfIdx timeIdx).volumeFlux phaseIdx).value *
            ((elemCtx.intensiveQuantities
              ((elemCtx.extensiveQuantities scvfIdx timeIdx).upstreamIndex phaseIdx)
              0).fluidState.density phaseIdx).value ∧
      ((elemCtx.extensiveQuantities scvfIdx timeIdx).upstreamIndex phaseIdx =
          (elemCtx.extensiveQuantities scvfIdx timeIdx).interiorIndex →
        addAdvectiveFlux C EM flux elemCtx scvfIdx timeIdx (C.conti0EqIdx + phaseIdx) =
          flux (C.conti0EqIdx + phaseIdx) +
            (elemCtx.extensiveQuantities scvfIdx timeIdx).volumeFlux phaseIdx *
              (elemCtx.intensiveQuantities
                (elemCtx.extensiveQuantities scvfIdx timeIdx).interiorIndex
                0).fluidState.density phaseIdx) := by
  rw [addAdvectiveFlux_slot C EM flux elemCtx scvfIdx timeIdx phaseIdx hp hE]
  refine ⟨?_, fun hup => ?_⟩
  · rw [Evaluation.add_value]
    unfold advectiveMassFlux
    dsimp only
    split_ifs <;> rfl
  · unfold advectiveMassFlux
    dsimp only
    rw [if_pos hup.symm, hup]

/-- Evaluation of C5 on the outflow face: the flux `2` of density `1000` adds `2000` to the
value `5` the slot held before. -/
theorem addAdvectiveFlux_value_witness :
    (addAdvectiveFlux Examples.configImm Examples.energyOff
        (fun _ => Evaluation.createConstant 5) Examples.elemCtxOutflow 0 0
        (Examples.configImm.conti0EqIdx + 0)).value = 2005 := by
  have h := (addAdvectiveFlux_value Examples.configImm Examples.energyOff
    (fun _ => Evaluation.createConstant 5) Examples.elemCtxOutflow 0 0 0 (by decide)
    (by decide)).1
  rw [h]
  norm_num [Examples.elemCtxOutflow, Examples.intQuantsImm, Evaluation.createConstant]

/-- C6 as stated fails: on the inflow face the upstream degree of freedom of phase 0 is the
focus degree of freedom, and yet the density does not enter with its derivative:
the derivative of the continuity slot is `0`, that of `volumeFlux * density` is `-6`. -/
theorem addAdvectiveFlux_focus_counterexample :
    (Examples.elemCtxInflow.extensiveQuantities 0 0).upstreamIndex 0 =
        Examples.elemCtxInflow.focusDofIndex ∧
      (addAdvectiveFlux Examples.configImm Examples.energyOff (fun _ => 0)
          Examples.elemCtxInflow 0 0 (Examples.configImm.conti0EqIdx + 0)).derivatives 0 = 0 ∧
      ((0 : Evaluation 1) +
          (Examples.elemCtxInflow.extensiveQuantities 0 0).volumeFlux 0 *
            (Examples.elemCtxInflow.intensiveQuantities 1 0).fluidState.density 0).derivatives
        0 = -6 ∧
      addAdvectiveFlux Examples.configImm Examples.energyOff (fun _ => 0)
          Examples.elemCtxInflow 0 0 (Examples.configImm.conti0EqIdx + 0) ≠
        (0 : Evaluation 1) +
          (Examples.elemCtxInflow.extensiveQuantities 0 0).volumeFlux 0 *
            (Examples.elemCtxInflow.intensiveQuantities 1 0).fluidState.density 0 := by
  have hslot : (addAdvectiveFlux Examples.configImm Examples.energyOff (fun _ => 0)
      Examples.elemCtxInflow 0 0 (Examples.configImm.conti0EqIdx + 0)).derivatives 0 = 0 := by
    rw [addAdvectiveFlux_slot Examples.configImm Examples.energyOff (fun _ => 0)
      Examples.elemCtxInflow 0 0 0 (by decide) (by decide)]
    rw [Evaluation.add_derivatives]
    have hflux : advectiveMassFlux Examples.elemCtxInflow 0 0 0 =
        Evaluation.mulScalar ⟨-2, fun _ => 0⟩ 1000 := by
      simp [advectiveMassFlux, Examples.elemCtxInflow, Examples.intQuantsImm, Evaluation.decay]
    rw [hflux, Evaluation.mulScalar_derivatives]
    show (0 : ℚ) + 0 * 1000 = 0
    norm_num
  have hfull : ((0 : Evaluation 1) +
      (Examples.elemCtxInflow.extensiveQuantities 0 0).volumeFlux 0 *
        (Examples.elemCtxInflow.intensiveQuantities 1 0).fluidState.density 0).derivatives
      0 = -6 := by
    rw [Evaluation.add_derivatives, Evaluation.mul_derivatives]
    show (0 : ℚ) + (0 * 1000 + -2 * 3) = -6
    norm_num
  refine ⟨rfl, hslot, hfull, fun h => ?_⟩
  rw [h, hfull] at hslot
  norm_num at hslot

/-- C6, amended: the density of the upstream degree of freedom enters the product
`volumeFlux * density` as a full `Evaluation`, its derivative propagated by the product
rule, exactly when the upstream degree of freedom of the phase is the interior degree of
freedom of the face; otherwise the density is decayed to its value and contributes no
derivative. -/
theorem addAdvectiveFlux_derivative_rule (C : Config) (EM : EnergyModule n)
    (flux : Nat → Evaluation n) (elemCtx : ElementContext n) (scvfIdx timeIdx phaseIdx : Nat)
    (hp : phaseIdx < C.numPhases)
    (hE : EM.enableEnergy = true → EM.energyEqIdx ≠ C.conti0EqIdx + phaseIdx) :
    ((elemCtx.extensiveQuantities scvfIdx timeIdx).interiorIndex =
          (elemCtx.extensiveQuantities scvfIdx timeIdx).upstreamIndex phaseIdx →
        addAdvectiveFlux C EM flux elemCtx scvfIdx timeIdx (C.conti0EqIdx + phaseIdx) =
            flux (C.conti0EqIdx + phaseIdx) +
              (elemCtx.extensiveQuantities scvfIdx timeIdx).volumeFlux phaseIdx *
                (elemCtx.intensiveQuantities
                  ((elemCtx.extensiveQuantities scvfIdx timeIdx).upstreamIndex phaseIdx)
                  0).fluidState.density phaseIdx ∧
          ∀ i : Fin n,
            (addAdvectiveFlux C EM flux elemCtx scvfIdx timeIdx
                (C.conti0EqIdx + phaseIdx)).derivatives i =
              (flux (C.conti0EqIdx + phaseIdx)).derivatives i +
                (((elemCtx.extensiveQuantities scvfIdx timeIdx).volumeFlux
                    phaseIdx).derivatives i *
                    ((elemCtx.intensiveQuantities
                      ((elemCtx.extensiveQuantities scvfIdx timeIdx).upstreamIndex phaseIdx)
                      0).fluidState.density phaseIdx).value +
                  ((elemCtx.extensiveQuantities scvfIdx timeIdx).volumeFlux phaseIdx).value *
                    ((elemCtx.intensiveQuantities
                      ((elemCtx.extensiveQuantities scvfIdx timeIdx).upstreamIndex phaseIdx)
                      0).fluidState.density phaseIdx).derivatives i)) ∧
      ((elemCtx.extensiveQuantities scvfIdx timeIdx).interiorIndex ≠
          (elemCtx.extensiveQuantities scvfIdx timeIdx).upstreamIndex phaseIdx →
        addAdvectiveFlux C EM flux elemCtx scvfIdx timeIdx (C.conti0EqIdx + phaseIdx) =
            flux (C.conti0EqIdx + phaseIdx) +
              ((elemCtx.extensiveQuantities scvfIdx timeIdx).volumeFlux phaseIdx).mulScalar
                ((elemCtx.intensiveQuantities
                  ((elemCtx.extensiveQuantities scvfIdx timeIdx).upstreamIndex phaseIdx)
                  0).fluidState.density phaseIdx).value ∧
          ∀ i : Fin n,
            (addAdvectiveFlux C EM flux elemCtx scvfIdx timeIdx
                (C.conti0EqIdx + phaseIdx)).derivatives i =
              (flux (C.conti0EqIdx + phaseIdx)).derivatives i +
                ((elemCtx.extensiveQuantities scvfIdx timeIdx).volumeFlux
                    phaseIdx).derivatives i *
                  ((elemCtx.intensiveQuantities
                    ((elemCtx.extensiveQuantities scvfIdx timeIdx).upstreamIndex phaseIdx)
                    0).fluidState.density phaseIdx).value) := by
  rw [addAdvectiveFlux_slot C EM flux elemCtx scvfIdx timeIdx phaseIdx hp hE]
  constructor
  · intro hup
    have hterm : advectiveMassFlux elemCtx scvfIdx timeIdx phaseIdx =
        (elemCtx.extensiveQuantities scvfIdx timeIdx).volumeFlux phaseIdx *
          (elemCtx.intensiveQuantities
            ((elemCtx.extensiveQuantities scvfIdx timeIdx).upstreamIndex phaseIdx)
            0).fluidState.density phaseIdx := by
      unfold advectiveMassFlux
      dsimp only
      rw [if_pos hup]
    rw [hterm]
    exact ⟨rfl, fun i => rfl⟩
  · intro hup
    have hterm : advectiveMassFlux elemCtx scvfIdx timeIdx phaseIdx =
        ((elemCtx.extensiveQuantities scvfIdx timeIdx).volumeFlux phaseIdx).mulScalar
          ((elemCtx.intensiveQuantities
            ((elemCtx.extensiveQuantities scvfIdx timeIdx).upstreamIndex phaseIdx)
            0).fluidState.density phaseIdx).value := by
      unfold advectiveMassFlux
      dsimp only
      rw [if_neg hup]
      rfl
    rw [hterm]
    refine ⟨rfl, fun i => ?_⟩
    rw [Evaluation.add_derivatives, Evaluation.mulScalar_derivatives]

/-- Evaluation of the amended C6 on the inflow face, where the upstream degree of freedom
is the exterior one: the slot receives `volumeFlux` times the plain density `1000`. -/
theorem addAdvectiveFlux_derivative_rule_witness :
    addAdvectiveFlux Examples.configImm Examples.energyOff (fun _ => 0)
        Examples.elemCtxInflow 0 0 (Examples.configImm.conti0EqIdx + 0) =
      (0 : Evaluation 1) +
        Evaluation.mulScalar
          ((Examples.elemCtxInflow.extensiveQuantities 0 0).volumeFlux 0) 1000 :=
  ((addAdvectiveFlux_derivative_rule Examples.configImm Examples.energyOff (fun _ => 0)
    Examples.elemCtxInflow 0 0 0 (by decide) (by decide)).2 (by decide)).1

/-- C7: `computeFlux` returns what `addAdvectiveFlux` followed by `addDiffusiveFlux` make
of the all-zero rate vector, whatever the flux vector held before the call. -/
theorem computeFlux_from_zero (C : Config) (EM : EnergyModule n)
    (flux flux' : Nat → Evaluation n) (elemCtx : ElementContext n) (scvfIdx timeIdx : Nat) :
    computeFlux C EM flux elemCtx scvfIdx timeIdx =
        addDiffusiveFlux EM
          (addAdvectiveFlux C EM (fun _ => Evaluation.createConstant 0) elemCtx scvfIdx timeIdx)
          elemCtx scvfIdx timeIdx ∧
      computeFlux C EM flux elemCtx scvfIdx timeIdx =
        computeFlux C EM flux' elemCtx scvfIdx timeIdx :=
  ⟨rfl, rfl⟩

end Ewoms

/-! ## Properties of the energy extension of the black-oil model -/

namespace Opm

variable {n : Nat}

namespace BlackOilEnergyExtensiveQuantities

/-- The value of `deltaT` does not depend on which branch computed it. -/
theorem deltaT_value (elemCtx : ElementContext n true) (scvfIdx timeIdx : Nat) :
    (deltaT elemCtx scvfIdx timeIdx).value =
      ((elemCtx.intensiveQuantities
          ((elemCtx.stencil timeIdx).interiorFace scvfIdx).exteriorIndex
          timeIdx).fluidState_.temperature 0).value -
        ((elemCtx.intensiveQuantities
          ((elemCtx.stencil timeIdx).interiorFace scvfIdx).interiorIndex
          timeIdx).fluidState_.temperature 0).value := by
  unfold deltaT
  dsimp only
  split_ifs <;> rfl

/-- The value of `inLambda` is the value of the interior conductivity. -/
theorem inLambda_value (elemCtx : ElementContext n true) (scvfIdx timeIdx : Nat) :
    (inLambda elemCtx scvfIdx timeIdx).value =
      (elemCtx.intensiveQuantities
        ((elemCtx.stencil timeIdx).interiorFace scvfIdx).interiorIndex
        timeIdx).energy.totalThermalConductivity_.value := by
  unfold inLambda
  dsimp only
  split_ifs <;> rfl

/-- The value of `exLambda` is the value of the exterior conductivity. -/
theorem exLambda_value (elemCtx : ElementContext n true) (scvfIdx timeIdx : Nat) :
    (exLambda elemCtx scvfIdx timeIdx).value =
      (elemCtx.intensiveQuantities
        ((elemCtx.stencil timeIdx).interiorFace scvfIdx).exteriorIndex
        timeIdx).energy.totalThermalConductivity_.value := by
  unfold exLambda
  dsimp only
  split_ifs <;> rfl

/-- Where the guard of `updateEnergy` fails, or where the three divisors of the
transmissibility are not zero, the checked transmissibility is the transmissibility. -/
theorem thermalTransmissibilityChecked_eq_some (elemCtx : ElementContext n true)
    (scvfIdx timeIdx : Nat)
    (hdiv : 0 < (elemCtx.intensiveQuantities
          ((elemCtx.stencil timeIdx).interiorFace scvfIdx).interiorIndex
          timeIdx).energy.totalThermalConductivity_.value →
        0 < (elemCtx.intensiveQuantities
          ((elemCtx.stencil timeIdx).interiorFace scvfIdx).exteriorIndex
          timeIdx).energy.totalThermalConductivity_.value →
        elemCtx.problem.thermalHalfTransmissibilityIn scvfIdx timeIdx ≠ 0 ∧
          elemCtx.problem.thermalHalfTransmissibilityOut scvfIdx timeIdx ≠ 0 ∧
          1 / ((elemCtx.intensiveQuantities
                ((elemCtx.stencil timeIdx).interiorFace scvfIdx).interiorIndex
                timeIdx).energy.totalThermalConductivity_.value *
              elemCtx.problem.thermalHalfTransmissibilityIn scvfIdx timeIdx) +
            1 / ((elemCtx.intensiveQuantities
                ((elemCtx.stencil timeIdx).interiorFace scvfIdx).exteriorIndex
                timeIdx).energy.totalThermalConductivity_.value *
              elemCtx.problem.thermalHalfTransmissibilityOut scvfIdx timeIdx) ≠ 0) :
    thermalTransmissibilityChecked elemCtx scvfIdx timeIdx =
      some (thermalTransmissibility elemCtx scvfIdx timeIdx) := by
  unfold thermalTransmissibilityChecked thermalTransmissibility
  dsimp only
  by_cases h : (inLambda elemCtx scvfIdx timeIdx).value > 0 ∧
      (exLambda elemCtx scvfIdx timeIdx).value > 0
  · rw [if_pos h, if_pos h]
    have hin := h.1
    have hex := h.2
    rw [inLambda_value] at hin
    rw [exLambda_value] at hex
    obtain ⟨hai, hao, hsum⟩ := hdiv hin hex
    have e1 : Evaluation.scalarDivChecked 1 ((inLambda elemCtx scvfIdx timeIdx).mulScalar
        (elemCtx.problem.thermalHalfTransmissibilityIn scvfIdx timeIdx)) =
        some (Evaluation.scalarDiv 1 ((inLambda elemCtx scvfIdx timeIdx).mulScalar
          (elemCtx.problem.thermalHalfTransmissibilityIn scvfIdx timeIdx))) := by
      unfold Evaluation.scalarDivChecked
      rw [if_neg]
      rw [Evaluation.mulScalar_value, inLambda_value]
      exact mul_ne_zero (ne_of_gt hin) hai
    have e2 : Evaluation.scalarDivChecked 1 ((exLambda elemCtx scvfIdx timeIdx).mulScalar
        (elemCtx.problem.thermalHalfTransmissibilityOut scvfIdx timeIdx)) =
        some (Evaluation.scalarDiv 1 ((exLambda elemCtx scvfIdx timeIdx).mulScalar
          (elemCtx.problem.thermalHalfTransmissibilityOut scvfIdx timeIdx))) := by
      unfold Evaluation.scalarDivChecked
      rw [if_neg]
      rw [Evaluation.mulScalar_value, exLambda_value]
      exact mul_ne_zero (ne_of_gt hex) hao
    have e3 : Evaluation.scalarDivChecked 1
        (Evaluation.scalarDiv 1 ((inLambda elemCtx scvfIdx timeIdx).mulScalar
            (elemCtx.problem.thermalHalfTransmissibilityIn scvfIdx timeIdx)) +
          Evaluation.scalarDiv 1 ((exLambda elemCtx scvfIdx timeIdx).mulScalar
            (elemCtx.problem.thermalHalfTransmissibilityOut scvfIdx timeIdx))) =
        some (Evaluation.scalarDiv 1
          (Evaluation.scalarDiv 1 ((inLambda elemCtx scvfIdx timeIdx).mulScalar
              (elemCtx.problem.thermalHalfTransmissibilityIn scvfIdx timeIdx)) +
            Evaluation.scalarDiv 1 ((exLambda elemCtx scvfIdx timeIdx).mulScalar
              (elemCtx.problem.thermalHalfTransmissibilityOut scvfIdx timeIdx)))) := by
      unfold Evaluation.scalarDivChecked
      rw [if_neg]
      show 1 / ((inLambda elemCtx scvfIdx timeIdx).value *
          elemCtx.problem.thermalHalfTransmissibilityIn scvfIdx timeIdx) +
        1 / ((exLambda elemCtx scvfIdx timeIdx).value *
          elemCtx.problem.thermalHalfTransmissibilityOut scvfIdx timeIdx) ≠ 0
      rw [inLambda_value, exLambda_value]
      exact hsum
    rw [e1, e2]
    exact e3
  · rw [if_neg h, if_neg h]
    rfl

/-- Where no divisor of `updateEnergy` is zero, the checked method stores what `updateEnergy`
stores. -/
theorem updateEnergyChecked_eq_some (self : BlackOilEnergyExtensiveQuantities n true)
    (elemCtx : ElementContext n true) (scvfIdx timeIdx : Nat)
    (hdiv : 0 < (elemCtx.intensiveQuantities
          ((elemCtx.stencil timeIdx).interiorFace scvfIdx).interiorIndex
          timeIdx).energy.totalThermalConductivity_.value →
        0 < (elemCtx.intensiveQuantities
          ((elemCtx.stencil timeIdx).interiorFace scvfIdx).exteriorIndex
          timeIdx).energy.totalThermalConductivity_.value →
        elemCtx.problem.thermalHalfTransmissibilityIn scvfIdx timeIdx ≠ 0 ∧
          elemCtx.problem.thermalHalfTransmissibilityOut scvfIdx timeIdx ≠ 0 ∧
          1 / ((elemCtx.intensiveQuantities
                ((elemCtx.stencil timeIdx).interiorFace scvfIdx).interiorIndex
                timeIdx).energy.totalThermalConductivity_.value *
              elemCtx.problem.thermalHalfTransmissibilityIn scvfIdx timeIdx) +
            1 / ((elemCtx.intensiveQuantities
                ((elemCtx.stencil timeIdx).interiorFace scvfIdx).exteriorIndex
                timeIdx).energy.totalThermalConductivity_.value *
              elemCtx.problem.thermalHalfTransmissibilityOut scvfIdx timeIdx) ≠ 0)
    (harea : ((elemCtx.stencil timeIdx).interiorFace scvfIdx).area ≠ 0) :
    updateEnergyChecked self elemCtx scvfIdx timeIdx =
      some (updateEnergy self elemCtx scvfIdx timeIdx) := by
  show (do
      let H ← thermalTransmissibilityChecked elemCtx scvfIdx timeIdx
      let conductance ← (-H).divScalarChecked
        ((elemCtx.stencil timeIdx).interiorFace scvfIdx).area
      pure (enabled (deltaT elemCtx scvfIdx timeIdx * conductance))) = _
  rw [thermalTransmissibilityChecked_eq_some elemCtx scvfIdx timeIdx hdiv]
  simp only [Evaluation.divScalarChecked, if_neg harea, Option.some_bind, Option.pure_def,
    Option.bind_eq_bind]
  rfl

/-- C9 as stated fails for the face area `0`.  On the example face with an insulating
interior side (conductivity `0`), the temperatures `300` and `310` and the area `0`, the
guard fails and `H` is the constant `0`, so `-H/faceArea` is the quotient `-0/0`: the checked
method stores no flux, in particular not the constant zero (the code stores
`deltaT * NaN`). -/
theorem updateEnergy_energyFlux_insulated_counterexample :
    ((Examples.elemCtxZeroArea.intensiveQuantities
          (((Examples.elemCtxZeroArea.stencil 0).interiorFace 0).interiorIndex)
          0).energy.totalThermalConductivity_.value ≤ 0) ∧
      ((Examples.elemCtxZeroArea.stencil 0).interiorFace 0).area = 0 ∧
      thermalTransmissibilityChecked Examples.elemCtxZeroArea 0 0 =
        some (Evaluation.createConstant 0) ∧
      updateEnergyChecked (BlackOilEnergyExtensiveQuantities.enabled 0)
          Examples.elemCtxZeroArea 0 0 = none ∧
      updateEnergyChecked (BlackOilEnergyExtensiveQuantities.enabled 0)
          Examples.elemCtxZeroArea 0 0 ≠
        some (BlackOilEnergyExtensiveQuantities.enabled (Evaluation.createConstant 0)) := by
  have hlam : (Examples.elemCtxZeroArea.intensiveQuantities
      (((Examples.elemCtxZeroArea.stencil 0).interiorFace 0).interiorIndex)
      0).energy.totalThermalConductivity_.value ≤ 0 := by
    norm_num [Examples.elemCtxZeroArea, Examples.elemCtxEnergy, Examples.intQuantsEnergy,
      BlackOilEnergyIntensiveQuantities.totalThermalConductivity_]
  have hH : thermalTransmissibilityChecked Examples.elemCtxZeroArea 0 0 =
      some (Evaluation.createConstant 0) := by
    unfold thermalTransmissibilityChecked
    dsimp only
    rw [if_neg]
    · rfl
    · rw [inLambda_value]
      exact fun h => absurd h.1 (not_lt.2 hlam)
  have hnone : updateEnergyChecked (BlackOilEnergyExtensiveQuantities.enabled 0)
      Examples.elemCtxZeroArea 0 0 = none := by
    show (do
        let H ← thermalTransmissibilityChecked Examples.elemCtxZeroArea 0 0
        let conductance ← (-H).divScalarChecked
          ((Examples.elemCtxZeroArea.stencil 0).interiorFace 0).area
        pure (enabled (deltaT Examples.elemCtxZeroArea 0 0 * conductance))) = none
    rw [hH]
    simp [Evaluation.divScalarChecked, Examples.elemCtxZeroArea]
  refine ⟨hlam, rfl, hH, hnone, ?_⟩
  rw [hnone]
  exact fun h => Option.noConfusion h

/-- C9, amended: if the thermal conductivity of the interior or of the exterior side is not
positive and the face area is not zero, `updateEnergy` divides by no zero and sets the
energy flux to the constant zero, value and derivatives, whatever the temperatures and the
half-transmissibilities are. -/
theorem updateEnergy_energyFlux_insulated (self : BlackOilEnergyExtensiveQuantities n true)
    (elemCtx : ElementContext n true) (scvfIdx timeIdx : Nat)
    (hlam : (elemCtx.intensiveQuantities
        ((elemCtx.stencil timeIdx).interiorFace scvfIdx).interiorIndex
        timeIdx).energy.totalThermalConductivity_.value ≤ 0 ∨
      (elemCtx.intensiveQuantities
        ((elemCtx.stencil timeIdx).interiorFace scvfIdx).exteriorIndex
        timeIdx).energy.totalThermalConductivity_.value ≤ 0)
    (harea : ((elemCtx.stencil timeIdx).interiorFace scvfIdx).area ≠ 0) :
    updateEnergyChecked self elemCtx scvfIdx timeIdx =
        some (enabled (Evaluation.createConstant 0)) ∧
      energyFlux (updateEnergy self elemCtx scvfIdx timeIdx) =
        Except.ok (Evaluation.createConstant 0) ∧
      (energyFlux_ (updateEnergy self elemCtx scvfIdx timeIdx)).value = 0 ∧
      ∀ i : Fin n, (energyFlux_ (updateEnergy self elemCtx scvfIdx timeIdx)).derivatives i = 0 := by
  have hnot : ¬ (0 < (elemCtx.intensiveQuantities
        ((elemCtx.stencil timeIdx).interiorFace scvfIdx).interiorIndex
        timeIdx).energy.totalThermalConductivity_.value ∧
      0 < (elemCtx.intensiveQuantities
        ((elemCtx.stencil timeIdx).interiorFace scvfIdx).exteriorIndex
        timeIdx).energy.totalThermalConductivity_.value) := by
    intro h
    rcases hlam with h1 | h1
    · exact absurd h.1 (not_lt.2 h1)
    · exact absurd h.2 (not_lt.2 h1)
  have hH : thermalTransmissibility elemCtx scvfIdx timeIdx = Evaluation.createConstant 0 := by
    unfold thermalTransmissibility
    dsimp only
    rw [if_neg]
    rw [inLambda_value, exLambda_value]
    exact hnot
  have hflux : deltaT elemCtx scvfIdx timeIdx *
      (-thermalTransmissibility elemCtx scvfIdx timeIdx).divScalar
        ((elemCtx.stencil timeIdx).interiorFace scvfIdx).area = Evaluation.createConstant 0 := by
    rw [hH]
    ext i
    · show (deltaT elemCtx scvfIdx timeIdx).value *
        (-0 / ((elemCtx.stencil timeIdx).interiorFace scvfIdx).area) = 0
      simp
    · show (deltaT elemCtx scvfIdx timeIdx).derivatives i *
          (-0 / ((elemCtx.stencil timeIdx).interiorFace scvfIdx).area) +
        (deltaT elemCtx scvfIdx timeIdx).value *
          ((-0 * ((elemCtx.stencil timeIdx).interiorFace scvfIdx).area - -0 * 0) /
            (((elemCtx.stencil timeIdx).interiorFace scvfIdx).area *
              ((elemCtx.stencil timeIdx).interiorFace scvfIdx).area)) = 0
      simp
  have hupd : updateEnergy self elemCtx scvfIdx timeIdx =
      enabled (Evaluation.createConstant 0) := by
    show enabled _ = enabled _
    rw [hflux]
  have hsome := updateEnergyChecked_eq_some self elemCtx scvfIdx timeIdx
    (fun h1 h2 => absurd ⟨h1, h2⟩ hnot) harea
  rw [hupd] at hsome
  rw [hupd]
  exact ⟨hsome, rfl, rfl, fun _ => rfl⟩

/-- Evaluation of the amended C9 on the example face with an insulating interior side
(conductivity `0`), the area `2` and a temperature difference of `10` K. -/
theorem updateEnergy_energyFlux_insulated_witness :
    BlackOilEnergyExtensiveQuantities.updateEnergyChecked
        (BlackOilEnergyExtensiveQuantities.enabled 0) (Examples.elemCtxEnergy 0) 0 0 =
      some (BlackOilEnergyExtensiveQuantities.enabled (Evaluation.createConstant 0)) :=
  (updateEnergy_energyFlux_insulated (BlackOilEnergyExtensiveQuantities.enabled 0)
    (Examples.elemCtxEnergy 0) 0 0
    (Or.inl (by
      norm_num [Examples.elemCtxEnergy, Examples.intQuantsEnergy,
        BlackOilEnergyIntensiveQuantities.totalThermalConductivity_]))
    (by norm_num [Examples.elemCtxEnergy])).1

end BlackOilEnergyExtensiveQuantities

/-- C10: each of the accessors `rockInternalEnergy()`, `totalThermalConductivity()` and
`energyFlux()` raises its logic error exactly when the energy extension is disabled; with
the extension enabled it returns the stored member, which after `updateEnergyQuantities_`
and `updateEnergy` is the value these updates computed. -/
theorem energy_accessors (ParameterCache : Type) (e : Bool)
    (iq : BlackOilEnergyIntensiveQuantities n e) (eq : BlackOilEnergyExtensiveQuantities n e) :
    ((∃ msg, iq.rockInternalEnergy = Except.error msg) ↔ e = false) ∧
      ((∃ msg, iq.totalThermalConductivity = Except.error msg) ↔ e = false) ∧
      ((∃ msg, eq.energyFlux = Except.error msg) ↔ e = false) ∧
      (∀ (iq' : BlackOilEnergyIntensiveQuantities n true)
          (eq' : BlackOilEnergyExtensiveQuantities n true),
        iq'.rockInternalEnergy = Except.ok iq'.rockInternalEnergy_ ∧
          iq'.totalThermalConductivity = Except.ok iq'.totalThermalConductivity_ ∧
          eq'.energyFlux = Except.ok eq'.energyFlux_) ∧
      (∀ (FS : FluidSystem n ParameterCache) (self : IntensiveQuantities n true)
          (elemCtx : ElementContext n true) (dofIdx timeIdx : Nat) (paramCache : ParameterCache),
        (self.updateEnergyQuantities_ FS elemCtx dofIdx timeIdx paramCache).energy.rockInternalEnergy =
            Except.ok (elemCtx.problem.solidInternalEnergy dofIdx timeIdx
              (IntensiveQuantities.setEnthalpies FS self.fluidState_ paramCache)) ∧
          (self.updateEnergyQuantities_ FS elemCtx dofIdx timeIdx
              paramCache).energy.totalThermalConductivity =
            Except.ok (elemCtx.problem.thermalConductivity dofIdx timeIdx
              (IntensiveQuantities.setEnthalpies FS self.fluidState_ paramCache))) ∧
      (∀ (self : BlackOilEnergyExtensiveQuantities n true) (elemCtx : ElementContext n true)
          (scvfIdx timeIdx : Nat),
        (self.updateEnergy elemCtx scvfIdx timeIdx).energyFlux =
          Except.ok (BlackOilEnergyExtensiveQuantities.deltaT elemCtx scvfIdx timeIdx *
            (-BlackOilEnergyExtensiveQuantities.thermalTransmissibility elemCtx scvfIdx
              timeIdx).divScalar ((elemCtx.stencil timeIdx).interiorFace scvfIdx).area)) := by
  refine ⟨?_, ?_, ?_, ?_, ?_, ?_⟩
  · cases iq
    · simp [BlackOilEnergyIntensiveQuantities.rockInternalEnergy]
    · simp [BlackOilEnergyIntensiveQuantities.rockInternalEnergy]
  · cases iq
    · simp [BlackOilEnergyIntensiveQuantities.totalThermalConductivity]
    · simp [BlackOilEnergyIntensiveQuantities.totalThermalConductivity]
  · cases eq
    · simp [BlackOilEnergyExtensiveQuantities.energyFlux]
    · simp [BlackOilEnergyExtensiveQuantities.energyFlux]
  · intro iq' eq'
    cases iq'
    cases eq'
    exact ⟨rfl, rfl, rfl⟩
  · intro FS self elemCtx dofIdx timeIdx paramCache
    exact ⟨rfl, rfl⟩
  · intro self elemCtx scvfIdx timeIdx
    rfl

end Opm

/-! ## Properties of the static class `BlackOilEnergyModule` -/

/-- A loop that adds `t p` to the one slot `c` for every `p` of a list that is not skipped
leaves the other slots alone and accumulates in the slot `c`. -/
theorem foldl_update_slot_add {α : Type} [Add α] (skip : Nat → Bool) (t : Nat → α) (c : Nat)
    (l : List Nat) (v : Nat → α) :
    l.foldl
        (fun (v : Nat → α) (p : Nat) =>
          if skip p then v else Function.update v c (v c + t p)) v =
      Function.update v c
        (l.foldl (fun (acc : α) (p : Nat) => if skip p then acc else acc + t p) (v c)) := by
  induction l generalizing v with
  | nil => simp
  | cons p l ih =>
    simp only [List.foldl_cons]
    by_cases h : skip p = true
    · simp only [h, if_true]
      exact ih v
    · simp only [h, Bool.false_eq_true, if_false]
      rw [ih, Function.update_same, Function.update_idem]

/-- A conditional sum over a range, accumulated from the left. -/
theorem foldl_range_cond_add (skip : Nat → Bool) (s : Nat → Scalar) (N : Nat) (a : Scalar) :
    (List.range N).foldl (fun (acc : Scalar) (p : Nat) => if skip p then acc else acc + s p) a =
      a + Finset.sum ((Finset.range N).filter (fun p => skip p = false)) s := by
  induction N with
  | zero => simp
  | succ N ih =>
    rw [List.range_succ, List.foldl_append, ih, Finset.range_succ, Finset.filter_insert]
    simp only [List.foldl_cons, List.foldl_nil]
    by_cases h : skip N = true
    · simp [h]
    · have h' : skip N = false := by simpa using h
      rw [if_neg h, if_pos h', Finset.sum_insert (by simp)]
      ring

namespace Evaluation

variable {n : Nat}

/-- The value of a conditional sum of `Evaluation`s is the conditional sum of the values. -/
theorem foldl_cond_add_value (skip : Nat → Bool) (t : Nat → Evaluation n) (l : List Nat)
    (a : Evaluation n) :
    (l.foldl (fun (acc : Evaluation n) (p : Nat) => if skip p then acc else acc + t p) a).value =
      l.foldl (fun (acc : Scalar) (p : Nat) => if skip p then acc else acc + (t p).value)
        a.value := by
  induction l generalizing a with
  | nil => rfl
  | cons p l ih =>
    simp only [List.foldl_cons]
    by_cases h : skip p = true
    · simp only [h, if_true]
      exact ih a
    · simp only [h, Bool.false_eq_true, if_false]
      rw [ih]
      rfl

end Evaluation

namespace Opm

variable {n : Nat}

namespace BlackOilEnergyModule

/-- The storage vector after `addStorage` of the enabled module. -/
theorem addStorage_enabled_eq {L ParameterCache : Type} [Add L] [Mul L] (T : TypeTag)
    (FS : FluidSystem n ParameterCache) (decayLhs : Evaluation n → L) (ofScalar : Scalar → L)
    (storage : Nat → L) (intQuants : IntensiveQuantities n true) :
    addStorage T FS decayLhs ofScalar storage intQuants =
      Function.update storage T.contiEnergyEqIdx
        (((List.range FS.numPhases).foldl
            (fun (acc : L) (p : Nat) =>
              if !FS.phaseIsActive p then acc
              else
                acc + decayLhs intQuants.porosity *
                  decayLhs (intQuants.fluidState_.saturation p) *
                  decayLhs (intQuants.fluidState_.internalEnergy p) *
                  decayLhs (intQuants.fluidState_.density p))
            (storage T.contiEnergyEqIdx) +
          ofScalar (1 - intQuants.referencePorosity) *
            decayLhs intQuants.energy.rockInternalEnergy_) *
          ofScalar T.BlackOilEnergyScalingFactor) := by
  simp only [addStorage]
  rw [foldl_update_slot_add (fun p => !FS.phaseIsActive p)
    (fun p => decayLhs intQuants.porosity * decayLhs (intQuants.fluidState_.saturation p) *
      decayLhs (intQuants.fluidState_.internalEnergy p) *
      decayLhs (intQuants.fluidState_.density p))]
  simp only [Function.update_same, Function.update_idem]

/-- The flux vector after `computeFlux` of the enabled module. -/
theorem computeFlux_enabled_eq {ParameterCache : Type} (T : TypeTag)
    (FS : FluidSystem n ParameterCache) (flux : RateVector n) (elemCtx : ElementContext n true)
    (scvfIdx timeIdx : Nat) :
    computeFlux T FS flux elemCtx scvfIdx timeIdx =
      Function.update flux T.contiEnergyEqIdx
        (((List.range FS.numPhases).foldl
            (fun (acc : Evaluation n) (p : Nat) =>
              if !FS.phaseIsActive p then acc
              else
                acc +
                  (if (elemCtx.extensiveQuantities scvfIdx timeIdx).upstreamIndex p =
                      elemCtx.focusDofIndex then
                    (elemCtx.intensiveQuantities
                        ((elemCtx.extensiveQuantities scvfIdx timeIdx).upstreamIndex p)
                        timeIdx).fluidState_.enthalpy p *
                      (elemCtx.intensiveQuantities
                        ((elemCtx.extensiveQuantities scvfIdx timeIdx).upstreamIndex p)
                        timeIdx).fluidState_.density p *
                      (elemCtx.extensiveQuantities scvfIdx timeIdx).volumeFlux p
                  else
                    Evaluation.scalarMul
                      (((elemCtx.intensiveQuantities
                          ((elemCtx.extensiveQuantities scvfIdx timeIdx).upstreamIndex p)
                          timeIdx).fluidState_.enthalpy p).decay *
                        ((elemCtx.intensiveQuantities
                          ((elemCtx.extensiveQuantities scvfIdx timeIdx).upstreamIndex p)
                          timeIdx).fluidState_.density p).decay)
                      ((elemCtx.extensiveQuantities scvfIdx timeIdx).volumeFlux p)))
            (Evaluation.createConstant 0) +
          (elemCtx.extensiveQuantities scvfIdx timeIdx).energy.energyFlux_).mulScalar
          T.BlackOilEnergyScalingFactor) := by
  simp only [computeFlux]
  have hbody :
      (fun (flux : RateVector n) (phaseIdx : Nat) =>
        if (!FS.phaseIsActive phaseIdx) = true then flux
        else
          if (elemCtx.extensiveQuantities scvfIdx timeIdx).upstreamIndex phaseIdx =
              elemCtx.focusDofIndex then
            addPhaseEnthalpyFlux_ T true flux phaseIdx elemCtx scvfIdx timeIdx
          else addPhaseEnthalpyFlux_ T false flux phaseIdx elemCtx scvfIdx timeIdx) =
      (fun (v : RateVector n) (p : Nat) =>
        if (!FS.phaseIsActive p) = true then v
        else
          Function.update v T.contiEnergyEqIdx
            (v T.contiEnergyEqIdx +
              (if (elemCtx.extensiveQuantities scvfIdx timeIdx).upstreamIndex p =
                  elemCtx.focusDofIndex then
                (elemCtx.intensiveQuantities
                    ((elemCtx.extensiveQuantities scvfIdx timeIdx).upstreamIndex p)
                    timeIdx).fluidState_.enthalpy p *
                  (elemCtx.intensiveQuantities
                    ((elemCtx.extensiveQuantities scvfIdx timeIdx).upstreamIndex p)
                    timeIdx).fluidState_.density p *
                  (elemCtx.extensiveQuantities scvfIdx timeIdx).volumeFlux p
              else
                Evaluation.scalarMul
                  (((elemCtx.intensiveQuantities
                      ((elemCtx.extensiveQuantities scvfIdx timeIdx).upstreamIndex p)
                      timeIdx).fluidState_.enthalpy p).decay *
                    ((elemCtx.intensiveQuantities
                      ((elemCtx.extensiveQuantities scvfIdx timeIdx).upstreamIndex p)
                      timeIdx).fluidState_.density p).decay)
                  ((elemCtx.extensiveQuantities scvfIdx timeIdx).volumeFlux p)))) := by
    funext v p
    simp only [addPhaseEnthalpyFlux_]
    split_ifs <;> first | rfl | (exfalso; assumption)
  rw [hbody, foldl_update_slot_add (fun p => !FS.phaseIsActive p)]
  simp only [Function.update_same, Function.update_idem]

end BlackOilEnergyModule

/-- C11: with the energy extension disabled, `addStorage`, `computeFlux`,
`addToEnthalpyRate`, both overloads of `assignPrimaryVars`, `updatePrimaryVars`,
`updateEnergy`, `updateEnergyBoundary` and `updateEnergyQuantities_` return the vector or
object they were given, unchanged, for every input. -/
theorem energyDisabled_noop {L ParameterCache F : Type} [Add L] [Mul L] (T : TypeTag)
    (FS : FluidSystem n ParameterCache) (decayLhs : Evaluation n → L) (ofScalar : Scalar → L)
    (storage : Nat → L) (intQuants : IntensiveQuantities n false) (flux : RateVector n)
    (elemCtx : ElementContext n false) (scvfIdx dofIdx timeIdx : Nat) (hRate : Evaluation n)
    (priVars newPv oldPv : PrimaryVariables) (delta : EqVector) (temperature : Scalar)
    (fluidStateTemperature : F → Nat → Scalar) (fluidState : F)
    (extQuants : BlackOilEnergyExtensiveQuantities n false) (boundaryFs : FluidState n)
    (paramCache : ParameterCache) :
    BlackOilEnergyModule.addStorage T FS decayLhs ofScalar storage intQuants = storage ∧
      BlackOilEnergyModule.computeFlux T FS flux elemCtx scvfIdx timeIdx = flux ∧
      BlackOilEnergyModule.addToEnthalpyRate T false flux hRate = flux ∧
      BlackOilEnergyModule.assignPrimaryVars T false priVars temperature = priVars ∧
      BlackOilEnergyModule.assignPrimaryVarsFluidState T false fluidStateTemperature priVars
          fluidState = priVars ∧
      BlackOilEnergyModule.updatePrimaryVars T false newPv oldPv delta = newPv ∧
      extQuants.updateEnergy elemCtx scvfIdx timeIdx = extQuants ∧
      extQuants.updateEnergyBoundary elemCtx scvfIdx timeIdx boundaryFs = extQuants ∧
      intQuants.updateEnergyQuantities_ FS elemCtx dofIdx timeIdx paramCache = intQuants :=
  ⟨rfl, rfl, rfl, rfl, rfl, rfl, rfl, rfl, rfl⟩

/-- C12 fails on the code: with the energy extension disabled, `computeResidualError`
still reads the slot `contiEnergyEqIdx` of the residual.  Two residuals that agree in every
other slot (in particular in the three black-oil slots 0, 1 and 2) get the errors `5` and
`0`. -/
theorem computeResidualError_disabled_reads_energy_slot :
    BlackOilEnergyModule.computeResidualError Examples.typeTagEnergy false
        (Function.update (fun _ => 0) Examples.typeTagEnergy.contiEnergyEqIdx 5) = 5 ∧
      BlackOilEnergyModule.computeResidualError Examples.typeTagEnergy false (fun _ => 0) = 0 ∧
      ∀ j, j ≠ Examples.typeTagEnergy.contiEnergyEqIdx →
        Function.update (fun _ => (0 : Scalar)) Examples.typeTagEnergy.contiEnergyEqIdx 5 j =
          (fun _ => (0 : Scalar)) j := by
  refine ⟨?_, ?_, fun j hj => Function.update_noteq hj _ _⟩
  · simp [BlackOilEnergyModule.computeResidualError]
  · simp [BlackOilEnergyModule.computeResidualError]

/-- C13: with energy enabled `primaryVarApplies(i)` holds exactly for `i = temperatureIdx`
and `eqApplies(i)` exactly for `i = contiEnergyEqIdx`; with energy disabled both are false
for every index. -/
theorem primaryVarApplies_eqApplies (T : TypeTag) (i : Nat) :
    (BlackOilEnergyModule.primaryVarApplies T true i = true ↔ i = T.temperatureIdx) ∧
      (BlackOilEnergyModule.eqApplies T true i = true ↔ i = T.contiEnergyEqIdx) ∧
      BlackOilEnergyModule.primaryVarApplies T false i = false ∧
      BlackOilEnergyModule.eqApplies T false i = false := by
  refine ⟨?_, ?_, rfl, rfl⟩
  · simp [BlackOilEnergyModule.primaryVarApplies]
  · simp [BlackOilEnergyModule.eqApplies]

/-- C14: with energy enabled `addStorage` changes only the slot `contiEnergyEqIdx`, whose
new value is `(old value + sum over the active phases of
porosity * saturation(p) * internalEnergy(p) * density(p)
+ (1 - referencePorosity) * rockInternalEnergy) * BlackOilEnergyScalingFactor`; the sum runs
over the active phases only.  Stated for `LhsEval = Evaluation` (value of the slot) and for
`LhsEval = Scalar`. -/
theorem addStorage_enabled {ParameterCache : Type} (T : TypeTag)
    (FS : FluidSystem n ParameterCache) (storageEval : Nat → Evaluation n)
    (storageScalar : Nat → Scalar) (intQuants : IntensiveQuantities n true) :
    let fs := intQuants.fluidState_
    let activeSum :=
      Finset.sum ((Finset.range FS.numPhases).filter (fun p => FS.phaseIsActive p = true))
        (fun p => intQuants.porosity.value * (fs.saturation p).value *
          (fs.internalEnergy p).value * (fs.density p).value)
    let rock := (1 - intQuants.referencePorosity) * intQuants.energy.rockInternalEnergy_.value
    (∀ j, j ≠ T.contiEnergyEqIdx →
        BlackOilEnergyModule.addStorage T FS id Evaluation.createConstant storageEval
          intQuants j = storageEval j) ∧
      (BlackOilEnergyModule.addStorage T FS id Evaluation.createConstant storageEval intQuants
          T.contiEnergyEqIdx).value =
        ((storageEval T.contiEnergyEqIdx).value + activeSum + rock) *
          T.BlackOilEnergyScalingFactor ∧
      (∀ j, j ≠ T.contiEnergyEqIdx →
        BlackOilEnergyModule.addStorage T FS Evaluation.decay id storageScalar intQuants j =
          storageScalar j) ∧
      BlackOilEnergyModule.addStorage T FS Evaluation.decay id storageScalar intQuants
          T.contiEnergyEqIdx =
        (storageScalar T.contiEnergyEqIdx + activeSum + rock) *
          T.BlackOilEnergyScalingFactor := by
  intro fs activeSum rock
  have hfilter : (Finset.range FS.numPhases).filter (fun p => (!FS.phaseIsActive p) = false) =
      (Finset.range FS.numPhases).filter (fun p => FS.phaseIsActive p = true) := by
    apply Finset.filter_congr
    intro p _
    simp
  refine ⟨fun j hj => ?_, ?_, fun j hj => ?_, ?_⟩
  · rw [BlackOilEnergyModule.addStorage_enabled_eq, Function.update_noteq hj]
  · rw [BlackOilEnergyModule.addStorage_enabled_eq, Function.update_same]
    rw [Evaluation.mul_value, Evaluation.add_value, Evaluation.mul_value,
      Evaluation.foldl_cond_add_value (fun p => !FS.phaseIsActive p)
        (fun p => id intQuants.porosity * id (intQuants.fluidState_.saturation p) *
          id (intQuants.fluidState_.internalEnergy p) * id (intQuants.fluidState_.density p))]
    have hsum := foldl_range_cond_add (fun p => !FS.phaseIsActive p)
      (fun p => intQuants.porosity.value * (fs.saturation p).value *
        (fs.internalEnergy p).value * (fs.density p).value) FS.numPhases
      (storageEval T.contiEnergyEqIdx).value
    rw [hfilter] at hsum
    simp only [id, Evaluation.mul_value]
    rw [hsum]
    rfl
  · rw [BlackOilEnergyModule.addStorage_enabled_eq, Function.update_noteq hj]
  · rw [BlackOilEnergyModule.addStorage_enabled_eq, Function.update_same]
    have hsum := foldl_range_cond_add (fun p => !FS.phaseIsActive p)
      (fun p => intQuants.porosity.value * (fs.saturation p).value *
        (fs.internalEnergy p).value * (fs.density p).value) FS.numPhases
      (storageScalar T.contiEnergyEqIdx)
    rw [hfilter] at hsum
    simp only [id, Evaluation.decay]
    rw [hsum]

/-- C15: with energy enabled `computeFlux` changes only the slot `contiEnergyEqIdx` and
sets its value to `(sum over the active phases of
enthalpy(up, p) * density(up, p) * volumeFlux(p) + energyFlux) * BlackOilEnergyScalingFactor`
with `up` the upstream degree of freedom of the phase; what the slot held before has no
influence on the result. -/
theorem computeFlux_enabled {ParameterCache : Type} (T : TypeTag)
    (FS : FluidSystem n ParameterCache) (flux flux' : RateVector n)
    (elemCtx : ElementContext n true) (scvfIdx timeIdx : Nat) :
    let extQuants := elemCtx.extensiveQuantities scvfIdx timeIdx
    let up := fun p => elemCtx.intensiveQuantities (extQuants.upstreamIndex p) timeIdx
    let activeSum :=
      Finset.sum ((Finset.range FS.numPhases).filter (fun p => FS.phaseIsActive p = true))
        (fun p => ((up p).fluidState_.enthalpy p).value * ((up p).fluidState_.density p).value *
          (extQuants.volumeFlux p).value)
    (∀ j, j ≠ T.contiEnergyEqIdx →
        BlackOilEnergyModule.computeFlux T FS flux elemCtx scvfIdx timeIdx j = flux j) ∧
      (BlackOilEnergyModule.computeFlux T FS flux elemCtx scvfIdx timeIdx
          T.contiEnergyEqIdx).value =
        (activeSum + extQuants.energy.energyFlux_.value) * T.BlackOilEnergyScalingFactor ∧
      BlackOilEnergyModule.computeFlux T FS flux elemCtx scvfIdx timeIdx T.contiEnergyEqIdx =
        BlackOilEnergyModule.computeFlux T FS flux' elemCtx scvfIdx timeIdx
          T.contiEnergyEqIdx := by
  intro extQuants up activeSum
  have hfilter : (Finset.range FS.numPhases).filter (fun p => (!FS.phaseIsActive p) = false) =
      (Finset.range FS.numPhases).filter (fun p => FS.phaseIsActive p = true) := by
    apply Finset.filter_congr
    intro p _
    simp
  refine ⟨fun j hj => ?_, ?_, ?_⟩
  · rw [BlackOilEnergyModule.computeFlux_enabled_eq, Function.update_noteq hj]
  · rw [BlackOilEnergyModule.computeFlux_enabled_eq, Function.update_same,
      Evaluation.mulScalar_value, Evaluation.add_value,
      Evaluation.foldl_cond_add_value (fun p => !FS.phaseIsActive p)]
    have hterm : (fun (acc : Scalar) (p : Nat) =>
        if (!FS.phaseIsActive p) = true then acc
        else
          acc +
            (if (elemCtx.extensiveQuantities scvfIdx timeIdx).upstreamIndex p =
                elemCtx.focusDofIndex then
              (elemCtx.intensiveQuantities
                  ((elemCtx.extensiveQuantities scvfIdx timeIdx).upstreamIndex p)
                  timeIdx).fluidState_.enthalpy p *
                (elemCtx.intensiveQuantities
                  ((elemCtx.extensiveQuantities scvfIdx timeIdx).upstreamIndex p)
                  timeIdx).fluidState_.density p *
                (elemCtx.extensiveQuantities scvfIdx timeIdx).volumeFlux p
            else
              Evaluation.scalarMul
                (((elemCtx.intensiveQuantities
                    ((elemCtx.extensiveQuantities scvfIdx timeIdx).upstreamIndex p)
                    timeIdx).fluidState_.enthalpy p).decay *
                  ((elemCtx.intensiveQuantities
                    ((elemCtx.extensiveQuantities scvfIdx timeIdx).upstreamIndex p)
                    timeIdx).fluidState_.density p).decay)
                ((elemCtx.extensiveQuantities scvfIdx timeIdx).volumeFlux p)).value) =
        (fun (acc : Scalar) (p : Nat) =>
          if (!FS.phaseIsActive p) = true then acc
          else
            acc + ((up p).fluidState_.enthalpy p).value * ((up p).fluidState_.density p).value *
              (extQuants.volumeFlux p).value) := by
      funext acc p
      split_ifs <;> rfl
    rw [hterm]
    have hsum := foldl_range_cond_add (fun p => !FS.phaseIsActive p)
      (fun p => ((up p).fluidState_.enthalpy p).value * ((up p).fluidState_.density p).value *
        (extQuants.volumeFlux p).value) FS.numPhases
      (Evaluation.createConstant 0 : Evaluation n).value
    rw [hfilter] at hsum
    rw [hsum]
    show ((0 : Scalar) + activeSum + extQuants.energy.energyFlux_.value) *
      T.BlackOilEnergyScalingFactor = _
    rw [zero_add]
  · rw [BlackOilEnergyModule.computeFlux_enabled_eq, BlackOilEnergyModule.computeFlux_enabled_eq,
      Function.update_same, Function.update_same]

/-- C16: with energy enabled, after `deserializeEntity` for a degree of freedom the
temperature unknown of that degree of freedom equals the token read from the stream, at the
time level 0 and at the time level 1; the token is removed from the stream. -/
theorem deserializeEntity_temperature {DofEntity : Type} (T : TypeTag)
    (model : Model DofEntity) (token : Scalar) (rest : List Scalar) (dof : DofEntity) :
    (BlackOilEnergyModule.deserializeEntity T true model (token :: rest) dof).1.solution 0
          (model.dofMapperIndex dof) T.temperatureIdx = token ∧
      (BlackOilEnergyModule.deserializeEntity T true model (token :: rest) dof).1.solution 1
          (model.dofMapperIndex dof) T.temperatureIdx = token ∧
      (BlackOilEnergyModule.deserializeEntity T true model (token :: rest) dof).2 = rest := by
  simp [BlackOilEnergyModule.deserializeEntity]

/-- What `deserializeEntity` of the enabled module does to the solution: at the time
level 0 only the temperature slot of the degree of freedom changes, at the time level 1
every slot of the degree of freedom receives the temperature, and the other degrees of
freedom keep their primary variables. -/
theorem deserializeEntity_solution {DofEntity : Type} (T : TypeTag) (model : Model DofEntity)
    (token : Scalar) (rest : List Scalar) (dof : DofEntity) :
    (∀ pvIdx, pvIdx ≠ T.temperatureIdx →
        (BlackOilEnergyModule.deserializeEntity T true model (token :: rest) dof).1.solution 0
            (model.dofMapperIndex dof) pvIdx =
          model.solution 0 (model.dofMapperIndex dof) pvIdx) ∧
      (∀ pvIdx,
        (BlackOilEnergyModule.deserializeEntity T true model (token :: rest) dof).1.solution 1
            (model.dofMapperIndex dof) pvIdx = token) ∧
      (∀ timeIdx dofIdx, dofIdx ≠ model.dofMapperIndex dof →
        (BlackOilEnergyModule.deserializeEntity T true model (token :: rest) dof).1.solution
            timeIdx dofIdx = model.solution timeIdx dofIdx) := by
  refine ⟨fun pvIdx h => ?_, fun pvIdx => ?_, fun timeIdx dofIdx h => ?_⟩
  · simp [BlackOilEnergyModule.deserializeEntity, Function.update_noteq h]
  · simp [BlackOilEnergyModule.deserializeEntity]
  · simp only [BlackOilEnergyModule.deserializeEntity, if_true]
    by_cases h1 : timeIdx = 1
    · subst h1
      simp [Function.update_noteq h]
    · by_cases h0 : timeIdx = 0
      · subst h0
        simp [Function.update_noteq h]
      · simp [Function.update_noteq h1, Function.update_noteq h0]

/-- C17 fails on the code: `deserializeEntity` overwrites the whole vector of primary
variables of the degree of freedom at the time level 1.  In the example model the pressure
of the degree of freedom 0 at the time level 1 is `100000` before the call and, after
reading the token `350`, it is `350`. -/
theorem deserializeEntity_overwrites_previous_level :
    Examples.modelEnergy.solution 1 0 0 = 100000 ∧
      Examples.typeTagEnergy.temperatureIdx ≠ 0 ∧
      (BlackOilEnergyModule.deserializeEntity Examples.typeTagEnergy true Examples.modelEnergy
          [350] 0).1.solution 1 0 0 = 350 := by
  refine ⟨?_, by decide, ?_⟩
  · simp [Examples.modelEnergy]
  · exact (deserializeEntity_solution Examples.typeTagEnergy Examples.modelEnergy 350 [] 0).2.1 0

/-- C19 as stated fails: with the energy extension disabled and `EnableTemperature` unset,
`updateTemperature_` leaves the fluid state as it is; in the example the temperature stays
`273` although the problem's temperature of the degree of freedom is `293`. -/
theorem updateTemperature_disabled_counterexample :
    Examples.typeTagEnergy.enableTemperature = false ∧
      Examples.elemCtxNoEnergy.problem.temperature 0 0 = 293 ∧
      (((Examples.intQuantsNoEnergy.updateTemperature_ Examples.typeTagEnergy
          Examples.elemCtxNoEnergy 0 0).fluidState_.temperature 0).value = 273) ∧
      ((Examples.intQuantsNoEnergy.updateTemperature_ Examples.typeTagEnergy
          Examples.elemCtxNoEnergy 0 0).fluidState_.temperature 0).value ≠
        Examples.elemCtxNoEnergy.problem.temperature 0 0 := by
  have h1 : Examples.elemCtxNoEnergy.problem.temperature 0 0 = 293 := rfl
  have h2 : ((Examples.intQuantsNoEnergy.updateTemperature_ Examples.typeTagEnergy
      Examples.elemCtxNoEnergy 0 0).fluidState_.temperature 0).value = 273 := rfl
  refine ⟨rfl, h1, h2, ?_⟩
  rw [h1, h2]
  norm_num

/-- C19, amended: `updateTemperature_` sets the temperature of the fluid state to the
problem's temperature of the degree of freedom when the energy extension is disabled and
`EnableTemperature` is set, and always in `OnePTwoCVolumeVariables`; with the energy
extension disabled and `EnableTemperature` unset it changes nothing; with the energy
extension enabled it sets the temperature to the primary variable at `temperatureIdx`
(as an `Evaluation` whose value is that primary variable). -/
theorem updateTemperature_rule (T : TypeTag) (selfOff : IntensiveQuantities n false)
    (elemCtxOff : ElementContext n false) (selfOn : IntensiveQuantities n true)
    (elemCtxOn : ElementContext n true) (fluidState : Dumux.FluidState)
    (elemCtx1p2c : Dumux.ElementContext) (dofIdx timeIdx phaseIdx : Nat)
    (hmake : ∀ (priVars : PrimaryVariables) (varIdx t : Nat),
      (elemCtxOn.makeEvaluation priVars varIdx t).value = priVars varIdx) :
    (T.enableTemperature = true →
        (selfOff.updateTemperature_ T elemCtxOff dofIdx timeIdx).fluidState_.temperature
            phaseIdx =
          Evaluation.createConstant (elemCtxOff.problem.temperature dofIdx timeIdx)) ∧
      (T.enableTemperature = false →
        selfOff.updateTemperature_ T elemCtxOff dofIdx timeIdx = selfOff) ∧
      ((selfOn.updateTemperature_ T elemCtxOn dofIdx timeIdx).fluidState_.temperature
          phaseIdx).value = elemCtxOn.primaryVars dofIdx timeIdx T.temperatureIdx ∧
      (Dumux.updateTemperature_ fluidState elemCtx1p2c dofIdx timeIdx).temperature =
        elemCtx1p2c.problemTemperature dofIdx := by
  refine ⟨fun h => ?_, fun h => ?_, ?_, rfl⟩
  · simp [IntensiveQuantities.updateTemperature_, h, FluidState.setTemperature]
  · simp [IntensiveQuantities.updateTemperature_, h]
  · exact hmake _ _ _

/-- Evaluation of the amended C19 on the example with energy: the temperature of the
degree of freedom 0 becomes its primary variable, `300`. -/
theorem updateTemperature_rule_witness :
    (((Examples.intQuantsEnergy 0 2).updateTemperature_ Examples.typeTagEnergy
        (Examples.elemCtxEnergy 2) 0 0).fluidState_.temperature 0).value = 300 := by
  have h := (updateTemperature_rule Examples.typeTagEnergy Examples.intQuantsNoEnergy
    Examples.elemCtxNoEnergy (Examples.intQuantsEnergy 0 2) (Examples.elemCtxEnergy 2)
    Examples.fluidState1p2c Examples.elemCtx1p2c 0 0 0 (fun _ _ _ => rfl)).2.2.1
  rw [h]
  simp [Examples.elemCtxEnergy]

end Opm

/-! ## Properties of `OnePTwoCVolumeVariables::update` -/

namespace Dumux

/-- C20 fails on the code: `update` stores the dispersivity `0` whatever the spatial
parameters return; in the example they return `1` for the sub-control volume 0. -/
theorem update_dispersivity_not_queried :
    (∀ (useMolarFormulation : Bool) (FS : FluidSystem) (I : Indices)
        (self : OnePTwoCVolumeVariables) (priVars : PrimaryVariables)
        (elemCtx : ElementContext) (scvIdx historyIdx : Nat),
        (update useMolarFormulation FS I self priVars elemCtx scvIdx historyIdx).dispersivity_ =
          0) ∧
      Examples.elemCtx1p2c.spatialParameters.dispersivity 0 = 1 ∧
      (update false Examples.fluidSystem1p2c Examples.indices1p2c Examples.volVars1p2c
          (Examples.elemCtx1p2c.primaryVars 0 0) Examples.elemCtx1p2c 0 0).dispersivity_ ≠
        Examples.elemCtx1p2c.spatialParameters.dispersivity 0 := by
  refine ⟨fun _ _ _ _ _ _ _ _ => rfl, rfl, ?_⟩
  show (0 : Scalar) ≠ 1
  norm_num

end Dumux

namespace Dumux

/-- C21: after `update` for a sub-control volume, `porosity()` and `tortuosity()` are the
values the spatial parameters return for it, `pressure()` is the primary variable at
`pressureIdx` (of the primary variables the element context holds for it), and `diffCoeff()`
is the binary diffusion coefficient of the components 0 and 1 in phase 0 that the fluid
system computes on the completed fluid state. -/
theorem update_accessors (useMolarFormulation : Bool) (FS : FluidSystem) (I : Indices)
    (self : OnePTwoCVolumeVariables) (priVars : PrimaryVariables) (elemCtx : ElementContext)
    (scvIdx historyIdx : Nat) :
    (update useMolarFormulation FS I self priVars elemCtx scvIdx historyIdx).porosity =
        elemCtx.spatialParameters.porosity scvIdx ∧
      (update useMolarFormulation FS I self priVars elemCtx scvIdx historyIdx).tortuosity =
        elemCtx.spatialParameters.tortuosity scvIdx ∧
      (update useMolarFormulation FS I self priVars elemCtx scvIdx historyIdx).pressure =
        elemCtx.primaryVars scvIdx historyIdx I.pressureIdx ∧
      (update useMolarFormulation FS I self priVars elemCtx scvIdx historyIdx).diffCoeff =
        FS.binaryDiffusionCoefficient
          (completeFluidState useMolarFormulation FS I self.fluidState_ elemCtx scvIdx
            historyIdx) 0 0 1 ∧
      (update useMolarFormulation FS I self priVars elemCtx scvIdx historyIdx).fluidState_ =
        completeFluidState useMolarFormulation FS I self.fluidState_ elemCtx scvIdx
          historyIdx := by
  refine ⟨rfl, rfl, ?_, rfl, rfl⟩
  simp [OnePTwoCVolumeVariables.pressure, update, completeFluidState, FluidState.setViscosity,
    FluidState.setDensity, FluidState.setMoleFraction, FluidState.setPressure]

end Dumux

namespace Opm

variable {n : Nat}

namespace BlackOilEnergyExtensiveQuantities

/-- C22: with energy enabled, on a boundary face `updateEnergyBoundary` sets the value of
the energy flux to `-alpha * lambda * (T_boundary - T_interior)` when the interior thermal
conductivity `lambda` is positive, `alpha` being the boundary thermal half-transmissibility,
and sets the energy flux to the constant zero when `lambda ≤ 0`. -/
theorem updateEnergyBoundary_energyFlux (self : BlackOilEnergyExtensiveQuantities n true)
    (ctx : ElementContext n true) (scvfIdx timeIdx : Nat) (boundaryFs : FluidState n) :
    let inIdx := ((ctx.stencil timeIdx).boundaryFace scvfIdx).interiorIndex
    let inIq := ctx.intensiveQuantities inIdx timeIdx
    let lambda := inIq.energy.totalThermalConductivity_.value
    let alpha := ctx.problem.thermalHalfTransmissibilityBoundary scvfIdx
    (0 < lambda →
        Except.map Evaluation.value
            (energyFlux (updateEnergyBoundary self ctx scvfIdx timeIdx boundaryFs)) =
          Except.ok (-alpha * lambda *
            ((boundaryFs.temperature 0).value - (inIq.fluidState_.temperature 0).value))) ∧
      (lambda ≤ 0 →
        energyFlux (updateEnergyBoundary self ctx scvfIdx timeIdx boundaryFs) =
          Except.ok (Evaluation.createConstant 0)) := by
  intro inIdx inIq lambda alpha
  have hlam : (if ctx.focusDofIndex = inIdx then inIq.energy.totalThermalConductivity_
      else Evaluation.createConstant inIq.energy.totalThermalConductivity_.decay).value =
      lambda := by
    split_ifs <;> rfl
  have hdT : (if ctx.focusDofIndex = inIdx then
        boundaryFs.temperature 0 - inIq.fluidState_.temperature 0
      else Evaluation.createConstant
        ((boundaryFs.temperature 0).decay - (inIq.fluidState_.temperature 0).decay)).value =
      (boundaryFs.temperature 0).value - (inIq.fluidState_.temperature 0).value := by
    split_ifs <;> rfl
  constructor
  · intro hpos
    simp only [updateEnergyBoundary]
    rw [if_pos (by rw [hlam]; exact hpos)]
    show Except.ok (_ * _ * (-alpha)) = _
    rw [hdT, hlam]
    congr 1
    ring
  · intro hle
    simp only [updateEnergyBoundary]
    rw [if_neg (by rw [hlam]; exact not_lt.2 hle)]
    rfl

/-- Evaluation of C22 on the boundary face of the example: `alpha = 1`, `lambda = 2`, the
boundary at `320` K and the interior at `300` K give the flux `-40`. -/
theorem updateEnergyBoundary_energyFlux_witness :
    Except.map Evaluation.value
        (energyFlux (updateEnergyBoundary (enabled 0) (Examples.elemCtxEnergy 2) 0 0
          Examples.boundaryFsEnergy)) = Except.ok (-40) := by
  have h := (updateEnergyBoundary_energyFlux (enabled 0) (Examples.elemCtxEnergy 2) 0 0
    Examples.boundaryFsEnergy).1
    (by
      norm_num [Examples.elemCtxEnergy, Examples.intQuantsEnergy,
        BlackOilEnergyIntensiveQuantities.totalThermalConductivity_])
  rw [h]
  norm_num [Examples.elemCtxEnergy, Examples.intQuantsEnergy, Examples.problemEnergy,
    Examples.boundaryFsEnergy, Evaluation.createConstant,
    BlackOilEnergyIntensiveQuantities.totalThermalConductivity_]

end BlackOilEnergyExtensiveQuantities

/-- C23 fails on the code: with energy enabled, `assignPrimaryVars(priVars, T)` stores the
index `temperatureIdx` in the slot `temperatureIdx`, not the temperature it is given.  With
`temperatureIdx = 3` and the temperature `300` the slot holds `3` afterwards.  The other
slots are left as they are. -/
theorem assignPrimaryVars_stores_index :
    BlackOilEnergyModule.assignPrimaryVars Examples.typeTagEnergy true (fun _ => 0) 300
        Examples.typeTagEnergy.temperatureIdx = 3 ∧
      BlackOilEnergyModule.assignPrimaryVars Examples.typeTagEnergy true (fun _ => 0) 300
        Examples.typeTagEnergy.temperatureIdx ≠ 300 ∧
      (∀ (T : TypeTag) (priVars : PrimaryVariables) (temperature : Scalar),
        BlackOilEnergyModule.assignPrimaryVars T true priVars temperature T.temperatureIdx =
          (T.temperatureIdx : Scalar)) ∧
      (∀ (T : TypeTag) (priVars : PrimaryVariables) (temperature : Scalar) (pvIdx : Nat),
        pvIdx ≠ T.temperatureIdx →
          BlackOilEnergyModule.assignPrimaryVars T true priVars temperature pvIdx =
            priVars pvIdx) := by
  have h3 : BlackOilEnergyModule.assignPrimaryVars Examples.typeTagEnergy true (fun _ => 0) 300
      Examples.typeTagEnergy.temperatureIdx = 3 := by
    simp [BlackOilEnergyModule.assignPrimaryVars, Examples.typeTagEnergy]
  refine ⟨h3, ?_, fun T priVars temperature => ?_, fun T priVars temperature pvIdx h => ?_⟩
  · rw [h3]
    norm_num
  · simp [BlackOilEnergyModule.assignPrimaryVars]
  · simp [BlackOilEnergyModule.assignPrimaryVars, Function.update_noteq h]

/-- C24: with energy enabled `updatePrimaryVars` stores
`oldPv[temperatureIdx] - delta[temperatureIdx]` in `newPv[temperatureIdx]`, for every
`oldPv` and `delta`, and leaves every other entry of `newPv` as it is. -/
theorem updatePrimaryVars_enabled (T : TypeTag) (newPv oldPv : PrimaryVariables)
    (delta : EqVector) :
    BlackOilEnergyModule.updatePrimaryVars T true newPv oldPv delta T.temperatureIdx =
        oldPv T.temperatureIdx - delta T.temperatureIdx ∧
      ∀ pvIdx, pvIdx ≠ T.temperatureIdx →
        BlackOilEnergyModule.updatePrimaryVars T true newPv oldPv delta pvIdx = newPv pvIdx := by
  refine ⟨?_, fun pvIdx h => ?_⟩
  · simp [BlackOilEnergyModule.updatePrimaryVars]
  · simp [BlackOilEnergyModule.updatePrimaryVars, Function.update_noteq h]

end Opm

namespace Ewoms

variable {n : Nat}

/-- C25: for every face and phase the upstream degree of freedom is the interior one
whenever the volumetric flux of the phase is `≥ 0`, in particular when it is `0`, and the
exterior one otherwise. -/
theorem upstreamIndex_update (interiorIndex exteriorIndex : Nat)
    (volumeFlux : Nat → Evaluation n) (phaseIdx : Nat) :
    let extQuants := ExtensiveQuantities.update interiorIndex exteriorIndex volumeFlux
    (0 ≤ (extQuants.volumeFlux phaseIdx).value →
        extQuants.upstreamIndex phaseIdx = extQuants.interiorIndex) ∧
      ((extQuants.volumeFlux phaseIdx).value = 0 →
        extQuants.upstreamIndex phaseIdx = extQuants.interiorIndex) ∧
      ((extQuants.volumeFlux phaseIdx).value < 0 →
        extQuants.upstreamIndex phaseIdx = extQuants.exteriorIndex) := by
  intro extQuants
  refine ⟨fun h => ?_, fun h => ?_, fun h => ?_⟩
  · exact if_pos h
  · exact if_pos (le_of_eq h.symm)
  · exact if_neg (not_le.2 h)

end Ewoms

/-! ## Derivative tracking and the thermal transmissibility -/

namespace Evaluation

variable {n : Nat}

theorem createConstant_derivatives (c : Scalar) (i : Fin n) :
    (createConstant c : Evaluation n).derivatives i = 0 := rfl

theorem scalarSub_derivatives (s : Scalar) (a : Evaluation n) (i : Fin n) :
    (scalarSub s a).derivatives i = -(a.derivatives i) := by
  show (0 : Scalar) - a.derivatives i = -(a.derivatives i)
  ring

theorem subScalar_derivatives (a : Evaluation n) (s : Scalar) (i : Fin n) :
    (subScalar a s).derivatives i = a.derivatives i := by
  show a.derivatives i - (0 : Scalar) = a.derivatives i
  ring

theorem scalarMul_value (s : Scalar) (a : Evaluation n) : (scalarMul s a).value = s * a.value :=
  rfl

theorem scalarMul_derivatives (s : Scalar) (a : Evaluation n) (i : Fin n) :
    (scalarMul s a).derivatives i = s * a.derivatives i := by
  show (0 : Scalar) * a.value + s * a.derivatives i = s * a.derivatives i
  ring

/-- The reciprocal `s / a` of a number without derivative has no derivative. -/
theorem scalarDiv_derivatives_of_zero (s : Scalar) (a : Evaluation n) (i : Fin n)
    (h : a.derivatives i = 0) : (scalarDiv s a).derivatives i = 0 := by
  show ((0 : Scalar) * a.value - s * a.derivatives i) / (a.value * a.value) = 0
  rw [h]
  simp

/-- The quotient `a / s` of a number without derivative has no derivative. -/
theorem divScalar_derivatives_of_zero (a : Evaluation n) (s : Scalar) (i : Fin n)
    (h : a.derivatives i = 0) : (divScalar a s).derivatives i = 0 := by
  show (a.derivatives i * s - a.value * 0) / (s * s) = 0
  rw [h]
  simp

theorem neg_derivatives (a : Evaluation n) (i : Fin n) :
    (-a).derivatives i = -(a.derivatives i) := rfl

end Evaluation

namespace Opm

variable {n : Nat}

namespace BlackOilEnergyExtensiveQuantities

/-- The value of the thermal transmissibility in terms of the stored conductivities. -/
theorem thermalTransmissibility_value (elemCtx : ElementContext n true)
    (scvfIdx timeIdx : Nat) :
    (thermalTransmissibility elemCtx scvfIdx timeIdx).value =
      if 0 < (elemCtx.intensiveQuantities
            ((elemCtx.stencil timeIdx).interiorFace scvfIdx).interiorIndex
            timeIdx).energy.totalThermalConductivity_.value ∧
          0 < (elemCtx.intensiveQuantities
            ((elemCtx.stencil timeIdx).interiorFace scvfIdx).exteriorIndex
            timeIdx).energy.totalThermalConductivity_.value then
        1 / (1 / ((elemCtx.intensiveQuantities
              ((elemCtx.stencil timeIdx).interiorFace scvfIdx).interiorIndex
              timeIdx).energy.totalThermalConductivity_.value *
            elemCtx.problem.thermalHalfTransmissibilityIn scvfIdx timeIdx) +
          1 / ((elemCtx.intensiveQuantities
              ((elemCtx.stencil timeIdx).interiorFace scvfIdx).exteriorIndex
              timeIdx).energy.totalThermalConductivity_.value *
            elemCtx.problem.thermalHalfTransmissibilityOut scvfIdx timeIdx))
      else 0 := by
  unfold thermalTransmissibility
  dsimp only
  rw [← inLambda_value, ← exLambda_value]
  by_cases h : (inLambda elemCtx scvfIdx timeIdx).value > 0 ∧
      (exLambda elemCtx scvfIdx timeIdx).value > 0
  · rw [if_pos h, if_pos h]
    rfl
  · rw [if_neg h, if_neg h]
    rfl

/-- If neither conductivity carries a derivative, neither does the transmissibility. -/
theorem thermalTransmissibility_derivatives_of_zero (elemCtx : ElementContext n true)
    (scvfIdx timeIdx : Nat) (i : Fin n)
    (hin : (inLambda elemCtx scvfIdx timeIdx).derivatives i = 0)
    (hex : (exLambda elemCtx scvfIdx timeIdx).derivatives i = 0) :
    (thermalTransmissibility elemCtx scvfIdx timeIdx).derivatives i = 0 := by
  unfold thermalTransmissibility
  dsimp only
  split_ifs
  · apply Evaluation.scalarDiv_derivatives_of_zero
    rw [Evaluation.add_derivatives,
      Evaluation.scalarDiv_derivatives_of_zero _ _ _
        (by rw [Evaluation.mulScalar_derivatives, hin, zero_mul]),
      Evaluation.scalarDiv_derivatives_of_zero _ _ _
        (by rw [Evaluation.mulScalar_derivatives, hex, zero_mul]), add_zero]
  · rfl

/-- The derivative of `1/(1/a + 1/b)` as the quotient rule computes it from the derivatives
`da` and `db`, with the terms that a constant contributes. -/
theorem harmonic_derivative_algebra (a b da db la le : Scalar) :
    (0 * (1 / a + 1 / b) -
          1 * ((0 * a - 1 * (da + la * 0)) / (a * a) + (0 * b - 1 * (db + le * 0)) / (b * b))) /
        ((1 / a + 1 / b) * (1 / a + 1 / b)) =
      (da / (a * a) + db / (b * b)) / ((1 / a + 1 / b) * (1 / a + 1 / b)) := by
  ring

/-- The derivative of `dT * (-H/A)` by the product and the quotient rule, for `H = 1/S` with
the derivative `D/(S*S)` and a face area `A` that is not zero. -/
theorem flux_derivative_algebra (dT dTv S D A : Scalar) (hA : A ≠ 0) :
    dT * (-(1 / S) / A) + dTv * ((-(D / (S * S)) * A - -(1 / S) * 0) / (A * A)) =
      dT * (-(1 / S) / A) + dTv * (-(1 / S * (1 / S) * D) / A) := by
  have h : (-(D / (S * S)) * A - -(1 / S) * 0) / (A * A) = -(D / (S * S)) / A := by
    rw [mul_zero, sub_zero, mul_div_mul_right _ _ hA]
  rw [h]
  ring

/-- The derivatives of the thermal transmissibility, by the quotient rule, in terms of the
derivatives of the locals `inLambda` and `exLambda`. -/
theorem thermalTransmissibility_derivatives (elemCtx : ElementContext n true)
    (scvfIdx timeIdx : Nat) (i : Fin n) :
    (thermalTransmissibility elemCtx scvfIdx timeIdx).derivatives i =
      if 0 < (inLambda elemCtx scvfIdx timeIdx).value ∧
          0 < (exLambda elemCtx scvfIdx timeIdx).value then
        ((inLambda elemCtx scvfIdx timeIdx).derivatives i *
                elemCtx.problem.thermalHalfTransmissibilityIn scvfIdx timeIdx /
              ((inLambda elemCtx scvfIdx timeIdx).value *
                  elemCtx.problem.thermalHalfTransmissibilityIn scvfIdx timeIdx *
                ((inLambda elemCtx scvfIdx timeIdx).value *
                  elemCtx.problem.thermalHalfTransmissibilityIn scvfIdx timeIdx)) +
            (exLambda elemCtx scvfIdx timeIdx).derivatives i *
                elemCtx.problem.thermalHalfTransmissibilityOut scvfIdx timeIdx /
              ((exLambda elemCtx scvfIdx timeIdx).value *
                  elemCtx.problem.thermalHalfTransmissibilityOut scvfIdx timeIdx *
                ((exLambda elemCtx scvfIdx timeIdx).value *
                  elemCtx.problem.thermalHalfTransmissibilityOut scvfIdx timeIdx))) /
          ((1 / ((inLambda elemCtx scvfIdx timeIdx).value *
                elemCtx.problem.thermalHalfTransmissibilityIn scvfIdx timeIdx) +
              1 / ((exLambda elemCtx scvfIdx timeIdx).value *
                elemCtx.problem.thermalHalfTransmissibilityOut scvfIdx timeIdx)) *
            (1 / ((inLambda elemCtx scvfIdx timeIdx).value *
                elemCtx.problem.thermalHalfTransmissibilityIn scvfIdx timeIdx) +
              1 / ((exLambda elemCtx scvfIdx timeIdx).value *
                elemCtx.problem.thermalHalfTransmissibilityOut scvfIdx timeIdx)))
      else 0 := by
  unfold thermalTransmissibility
  dsimp only
  by_cases h : (inLambda elemCtx scvfIdx timeIdx).value > 0 ∧
      (exLambda elemCtx scvfIdx timeIdx).value > 0
  · rw [if_pos h, if_pos h]
    exact harmonic_derivative_algebra _ _ _ _ _ _
  · rw [if_neg h, if_neg h]
    rfl

/-- The derivatives of the energy flux that `updateEnergy` stores, by the product and the
quotient rule. -/
theorem updateEnergy_energyFlux_derivatives (self : BlackOilEnergyExtensiveQuantities n true)
    (elemCtx : ElementContext n true) (scvfIdx timeIdx : Nat) (i : Fin n) :
    (energyFlux_ (updateEnergy self elemCtx scvfIdx timeIdx)).derivatives i =
      (deltaT elemCtx scvfIdx timeIdx).derivatives i *
          (-(thermalTransmissibility elemCtx scvfIdx timeIdx).value /
            ((elemCtx.stencil timeIdx).interiorFace scvfIdx).area) +
        (deltaT elemCtx scvfIdx timeIdx).value *
          ((-(thermalTransmissibility elemCtx scvfIdx timeIdx).derivatives i *
                ((elemCtx.stencil timeIdx).interiorFace scvfIdx).area -
              -(thermalTransmissibility elemCtx scvfIdx timeIdx).value * 0) /
            (((elemCtx.stencil timeIdx).interiorFace scvfIdx).area *
              ((elemCtx.stencil timeIdx).interiorFace scvfIdx).area)) :=
  rfl

/-- The value of the thermal transmissibility in terms of the locals `inLambda` and
`exLambda`. -/
theorem thermalTransmissibility_value_locals (elemCtx : ElementContext n true)
    (scvfIdx timeIdx : Nat) :
    (thermalTransmissibility elemCtx scvfIdx timeIdx).value =
      if 0 < (inLambda elemCtx scvfIdx timeIdx).value ∧
          0 < (exLambda elemCtx scvfIdx timeIdx).value then
        1 / (1 / ((inLambda elemCtx scvfIdx timeIdx).value *
              elemCtx.problem.thermalHalfTransmissibilityIn scvfIdx timeIdx) +
            1 / ((exLambda elemCtx scvfIdx timeIdx).value *
              elemCtx.problem.thermalHalfTransmissibilityOut scvfIdx timeIdx))
      else 0 := by
  unfold thermalTransmissibility
  dsimp only
  by_cases h : (inLambda elemCtx scvfIdx timeIdx).value > 0 ∧
      (exLambda elemCtx scvfIdx timeIdx).value > 0
  · rw [if_pos h, if_pos h]
    rfl
  · rw [if_neg h, if_neg h]
    rfl

/-- The derivatives of the stored energy flux on a face with two positive conductivities
and a face area that is not zero. -/
theorem updateEnergy_energyFlux_derivatives_conducting
    (self : BlackOilEnergyExtensiveQuantities n true) (elemCtx : ElementContext n true)
    (scvfIdx timeIdx : Nat) (i : Fin n)
    (hpos : 0 < (inLambda elemCtx scvfIdx timeIdx).value ∧
      0 < (exLambda elemCtx scvfIdx timeIdx).value)
    (harea : ((elemCtx.stencil timeIdx).interiorFace scvfIdx).area ≠ 0) :
    (energyFlux_ (updateEnergy self elemCtx scvfIdx timeIdx)).derivatives i =
      (deltaT elemCtx scvfIdx timeIdx).derivatives i *
          (-(1 / (1 / ((inLambda elemCtx scvfIdx timeIdx).value *
                  elemCtx.problem.thermalHalfTransmissibilityIn scvfIdx timeIdx) +
                1 / ((exLambda elemCtx scvfIdx timeIdx).value *
                  elemCtx.problem.thermalHalfTransmissibilityOut scvfIdx timeIdx))) /
            ((elemCtx.stencil timeIdx).interiorFace scvfIdx).area) +
        (deltaT elemCtx scvfIdx timeIdx).value *
          (-(1 / (1 / ((inLambda elemCtx scvfIdx timeIdx).value *
                    elemCtx.problem.thermalHalfTransmissibilityIn scvfIdx timeIdx) +
                  1 / ((exLambda elemCtx scvfIdx timeIdx).value *
                    elemCtx.problem.thermalHalfTransmissibilityOut scvfIdx timeIdx)) *
                (1 / (1 / ((inLambda elemCtx scvfIdx timeIdx).value *
                    elemCtx.problem.thermalHalfTransmissibilityIn scvfIdx timeIdx) +
                  1 / ((exLambda elemCtx scvfIdx timeIdx).value *
                    elemCtx.problem.thermalHalfTransmissibilityOut scvfIdx timeIdx))) *
                ((inLambda elemCtx scvfIdx timeIdx).derivatives i *
                      elemCtx.problem.thermalHalfTransmissibilityIn scvfIdx timeIdx /
                    ((inLambda elemCtx scvfIdx timeIdx).value *
                        elemCtx.problem.thermalHalfTransmissibilityIn scvfIdx timeIdx *
                      ((inLambda elemCtx scvfIdx timeIdx).value *
                        elemCtx.problem.thermalHalfTransmissibilityIn scvfIdx timeIdx)) +
                  (exLambda elemCtx scvfIdx timeIdx).derivatives i *
                      elemCtx.problem.thermalHalfTransmissibilityOut scvfIdx timeIdx /
                    ((exLambda elemCtx scvfIdx timeIdx).value *
                        elemCtx.problem.thermalHalfTransmissibilityOut scvfIdx timeIdx *
                      ((exLambda elemCtx scvfIdx timeIdx).value *
                        elemCtx.problem.thermalHalfTransmissibilityOut scvfIdx timeIdx)))) /
            ((elemCtx.stencil timeIdx).interiorFace scvfIdx).area) := by
  rw [updateEnergy_energyFlux_derivatives, thermalTransmissibility_derivatives,
    thermalTransmissibility_value_locals, if_pos hpos, if_pos hpos]
  exact flux_derivative_algebra _ _ _ _ _ harea

/-- On a face with a conductivity that is not positive the transmissibility is the constant
zero and the stored energy flux has no derivative. -/
theorem updateEnergy_energyFlux_derivatives_insulated
    (self : BlackOilEnergyExtensiveQuantities n true) (elemCtx : ElementContext n true)
    (scvfIdx timeIdx : Nat) (i : Fin n)
    (hneg : ¬ (0 < (inLambda elemCtx scvfIdx timeIdx).value ∧
      0 < (exLambda elemCtx scvfIdx timeIdx).value)) :
    (energyFlux_ (updateEnergy self elemCtx scvfIdx timeIdx)).derivatives i = 0 := by
  rw [updateEnergy_energyFlux_derivatives, thermalTransmissibility_derivatives,
    thermalTransmissibility_value_locals, if_neg hneg, if_neg hneg]
  simp

/-- C26: in `updateEnergy` the derivatives follow the focus degree of freedom term by term.
If it is the interior one (and not the exterior one), `deltaT` carries minus the derivative
of the interior temperature, the interior conductivity is used in full and the exterior one
carries no derivative; if it is the exterior one (and not the interior one), `deltaT`
carries the derivative of the exterior temperature, the exterior conductivity is used in
full and the interior one carries no derivative; if it is neither, nothing carries a
derivative.  The energy flux that `updateEnergy` stores follows: where the method divides by
no zero (the face area is not zero and, for two positive conductivities, neither are the
half-transmissibilities and the sum of the two resistances), its derivative is
`-dT_in * (-H/faceArea) + (T_ex - T_in) * (-dH/faceArea)` with
`dH = H*H * dlambda_in*alpha_in / (lambda_in*alpha_in)^2` in the first case,
`dT_ex * (-H/faceArea) + (T_ex - T_in) * (-dH/faceArea)` with
`dH = H*H * dlambda_ex*alpha_ex / (lambda_ex*alpha_ex)^2` in the second case, and zero in
the third; here `H` is the value of the transmissibility. -/
theorem updateEnergy_focus_rule (self : BlackOilEnergyExtensiveQuantities n true)
    (elemCtx : ElementContext n true) (scvfIdx timeIdx : Nat) :
    let inIdx := ((elemCtx.stencil timeIdx).interiorFace scvfIdx).interiorIndex
    let exIdx := ((elemCtx.stencil timeIdx).interiorFace scvfIdx).exteriorIndex
    let faceArea := ((elemCtx.stencil timeIdx).interiorFace scvfIdx).area
    let inIq := elemCtx.intensiveQuantities inIdx timeIdx
    let exIq := elemCtx.intensiveQuantities exIdx timeIdx
    let inT := inIq.fluidState_.temperature 0
    let exT := exIq.fluidState_.temperature 0
    let lambdaIn := inIq.energy.totalThermalConductivity_
    let lambdaEx := exIq.energy.totalThermalConductivity_
    let alphaIn := elemCtx.problem.thermalHalfTransmissibilityIn scvfIdx timeIdx
    let alphaEx := elemCtx.problem.thermalHalfTransmissibilityOut scvfIdx timeIdx
    let H : Scalar :=
      if 0 < lambdaIn.value ∧ 0 < lambdaEx.value then
        1 / (1 / (lambdaIn.value * alphaIn) + 1 / (lambdaEx.value * alphaEx))
      else 0
    let noZeroDivisor : Prop :=
      faceArea ≠ 0 ∧
        (0 < lambdaIn.value → 0 < lambdaEx.value →
          alphaIn ≠ 0 ∧ alphaEx ≠ 0 ∧
            1 / (lambdaIn.value * alphaIn) + 1 / (lambdaEx.value * alphaEx) ≠ 0)
    (elemCtx.focusDofIndex = inIdx → elemCtx.focusDofIndex ≠ exIdx →
        (∀ i, (deltaT elemCtx scvfIdx timeIdx).derivatives i = -(inT.derivatives i)) ∧
        inLambda elemCtx scvfIdx timeIdx = lambdaIn ∧
        (∀ i, (exLambda elemCtx scvfIdx timeIdx).derivatives i = 0) ∧
        (noZeroDivisor →
          ∀ i, (energyFlux_ (updateEnergy self elemCtx scvfIdx timeIdx)).derivatives i =
            -(inT.derivatives i) * (-H / faceArea) +
              (exT.value - inT.value) *
                (-(H * H * (lambdaIn.derivatives i * alphaIn) /
                    ((lambdaIn.value * alphaIn) * (lambdaIn.value * alphaIn))) / faceArea))) ∧
      (elemCtx.focusDofIndex = exIdx → elemCtx.focusDofIndex ≠ inIdx →
        (∀ i, (deltaT elemCtx scvfIdx timeIdx).derivatives i = exT.derivatives i) ∧
        exLambda elemCtx scvfIdx timeIdx = lambdaEx ∧
        (∀ i, (inLambda elemCtx scvfIdx timeIdx).derivatives i = 0) ∧
        (noZeroDivisor →
          ∀ i, (energyFlux_ (updateEnergy self elemCtx scvfIdx timeIdx)).derivatives i =
            exT.derivatives i * (-H / faceArea) +
              (exT.value - inT.value) *
                (-(H * H * (lambdaEx.derivatives i * alphaEx) /
                    ((lambdaEx.value * alphaEx) * (lambdaEx.value * alphaEx))) / faceArea))) ∧
      (elemCtx.focusDofIndex ≠ inIdx → elemCtx.focusDofIndex ≠ exIdx →
        (∀ i, (deltaT elemCtx scvfIdx timeIdx).derivatives i = 0) ∧
        (∀ i, (inLambda elemCtx scvfIdx timeIdx).derivatives i = 0) ∧
        (∀ i, (exLambda elemCtx scvfIdx timeIdx).derivatives i = 0) ∧
        (noZeroDivisor →
          ∀ i, (energyFlux_ (updateEnergy self elemCtx scvfIdx timeIdx)).derivatives i =
            0)) := by
  intro inIdx exIdx faceArea inIq exIq inT exT lambdaIn lambdaEx alphaIn alphaEx H
    noZeroDivisor
  have hposIff : (0 < (inLambda elemCtx scvfIdx timeIdx).value ∧
      0 < (exLambda elemCtx scvfIdx timeIdx).value) ↔
      (0 < lambdaIn.value ∧ 0 < lambdaEx.value) := by
    rw [inLambda_value, exLambda_value]
  refine ⟨fun hin hex => ?_, fun hex hin => ?_, fun hin hex => ?_⟩
  · have hdT : ∀ i, (deltaT elemCtx scvfIdx timeIdx).derivatives i = -(inT.derivatives i) := by
      intro i
      unfold deltaT
      dsimp only
      rw [if_pos hin, Evaluation.scalarSub_derivatives]
    have hinL : inLambda elemCtx scvfIdx timeIdx = lambdaIn := by
      unfold inLambda
      dsimp only
      rw [if_pos hin]
    have hexL : ∀ i, (exLambda elemCtx scvfIdx timeIdx).derivatives i = 0 := by
      intro i
      unfold exLambda
      dsimp only
      rw [if_neg hex]
      rfl
    refine ⟨hdT, hinL, hexL, fun hdef i => ?_⟩
    by_cases hc : 0 < lambdaIn.value ∧ 0 < lambdaEx.value
    · rw [updateEnergy_energyFlux_derivatives_conducting self elemCtx scvfIdx timeIdx i
        (hposIff.2 hc) hdef.1, hdT, deltaT_value, hexL, exLambda_value, hinL]
      have hH : H = 1 / (1 / (lambdaIn.value * alphaIn) + 1 / (lambdaEx.value * alphaEx)) :=
        if_pos hc
      rw [hH]
      ring
    · rw [updateEnergy_energyFlux_derivatives_insulated self elemCtx scvfIdx timeIdx i
        (fun h => hc (hposIff.1 h))]
      have hH : H = 0 := if_neg hc
      rw [hH]
      ring
  · have hdT : ∀ i, (deltaT elemCtx scvfIdx timeIdx).derivatives i = exT.derivatives i := by
      intro i
      unfold deltaT
      dsimp only
      rw [if_neg hin, if_pos hex, Evaluation.subScalar_derivatives]
    have hexL : exLambda elemCtx scvfIdx timeIdx = lambdaEx := by
      unfold exLambda
      dsimp only
      rw [if_pos hex]
    have hinL : ∀ i, (inLambda elemCtx scvfIdx timeIdx).derivatives i = 0 := by
      intro i
      unfold inLambda
      dsimp only
      rw [if_neg hin]
      rfl
    refine ⟨hdT, hexL, hinL, fun hdef i => ?_⟩
    by_cases hc : 0 < lambdaIn.value ∧ 0 < lambdaEx.value
    · rw [updateEnergy_energyFlux_derivatives_conducting self elemCtx scvfIdx timeIdx i
        (hposIff.2 hc) hdef.1, hdT, deltaT_value, hinL, inLambda_value, hexL]
      have hH : H = 1 / (1 / (lambdaIn.value * alphaIn) + 1 / (lambdaEx.value * alphaEx)) :=
        if_pos hc
      rw [hH]
      ring
    · rw [updateEnergy_energyFlux_derivatives_insulated self elemCtx scvfIdx timeIdx i
        (fun h => hc (hposIff.1 h))]
      have hH : H = 0 := if_neg hc
      rw [hH]
      ring
  · have hdT : ∀ i, (deltaT elemCtx scvfIdx timeIdx).derivatives i = 0 := by
      intro i
      unfold deltaT
      dsimp only
      rw [if_neg hin, if_neg hex]
      rfl
    have hinL : ∀ i, (inLambda elemCtx scvfIdx timeIdx).derivatives i = 0 := by
      intro i
      unfold inLambda
      dsimp only
      rw [if_neg hin]
      rfl
    have hexL : ∀ i, (exLambda elemCtx scvfIdx timeIdx).derivatives i = 0 := by
      intro i
      unfold exLambda
      dsimp only
      rw [if_neg hex]
      rfl
    refine ⟨hdT, hinL, hexL, fun _ i => ?_⟩
    show (deltaT elemCtx scvfIdx timeIdx *
      (-thermalTransmissibility elemCtx scvfIdx timeIdx).divScalar
        ((elemCtx.stencil timeIdx).interiorFace scvfIdx).area).derivatives i = 0
    rw [Evaluation.mul_derivatives, hdT,
      Evaluation.divScalar_derivatives_of_zero _ _ _
        (by rw [Evaluation.neg_derivatives,
          thermalTransmissibility_derivatives_of_zero elemCtx scvfIdx timeIdx i (hinL i)
            (hexL i), neg_zero])]
    ring

/-- Evaluation of C26 on the example face (focus on the interior degree of freedom 0,
temperatures `300` and `310` with derivative `1`, conductivities `2` and `3` with derivative
`1/2`, half-transmissibilities `1/2` and `1/3`, area `2`): `H = 1/2` and the derivative of
the stored flux is `-1 * (-(1/2)/2) + 10 * (-((1/4)*(1/4)/1)/2) = 1/4 - 5/16 = -1/16`. -/
theorem updateEnergy_focus_rule_witness :
    (BlackOilEnergyExtensiveQuantities.energyFlux_
        (BlackOilEnergyExtensiveQuantities.updateEnergy
          (BlackOilEnergyExtensiveQuantities.enabled 0) (Examples.elemCtxEnergy 2) 0
          0)).derivatives 0 = -1 / 16 := by
  have h := ((updateEnergy_focus_rule (BlackOilEnergyExtensiveQuantities.enabled 0)
    (Examples.elemCtxEnergy 2) 0 0).1 rfl (by decide)).2.2.2
    ⟨by norm_num [Examples.elemCtxEnergy],
      fun _ _ => ⟨by norm_num [Examples.elemCtxEnergy, Examples.problemEnergy],
        by norm_num [Examples.elemCtxEnergy, Examples.problemEnergy],
        by norm_num [Examples.elemCtxEnergy, Examples.intQuantsEnergy, Examples.problemEnergy,
          BlackOilEnergyIntensiveQuantities.totalThermalConductivity_]⟩⟩ 0
  rw [h]
  norm_num [Examples.elemCtxEnergy, Examples.intQuantsEnergy, Examples.problemEnergy,
    BlackOilEnergyIntensiveQuantities.totalThermalConductivity_]

end BlackOilEnergyExtensiveQuantities

/-- C27: in `computeFlux` every active phase `p` contributes one term to the energy slot.
Its value is `enthalpy * density` of the degree of freedom `upstreamIndex(p)` times the
volumetric flux; its derivatives contain the derivatives of that enthalpy and density
(product rule) if that same `upstreamIndex(p)` is the focus degree of freedom, and only the
derivative of the volumetric flux otherwise. -/
theorem computeFlux_donor_consistent {ParameterCache : Type} (T : TypeTag)
    (FS : FluidSystem n ParameterCache) (flux : RateVector n) (elemCtx : ElementContext n true)
    (scvfIdx timeIdx : Nat) :
    let extQuants := elemCtx.extensiveQuantities scvfIdx timeIdx
    let up := fun p => elemCtx.intensiveQuantities (extQuants.upstreamIndex p) timeIdx
    ∃ term : Nat → Evaluation n,
      BlackOilEnergyModule.computeFlux T FS flux elemCtx scvfIdx timeIdx T.contiEnergyEqIdx =
          ((List.range FS.numPhases).foldl
              (fun (acc : Evaluation n) (p : Nat) =>
                if !FS.phaseIsActive p then acc else acc + term p)
              (Evaluation.createConstant 0) +
            extQuants.energy.energyFlux_).mulScalar T.BlackOilEnergyScalingFactor ∧
        ∀ p,
          (term p).value =
              ((up p).fluidState_.enthalpy p).value * ((up p).fluidState_.density p).value *
                (extQuants.volumeFlux p).value ∧
            (extQuants.upstreamIndex p = elemCtx.focusDofIndex →
              ∀ i, (term p).derivatives i =
                (((up p).fluidState_.enthalpy p).derivatives i *
                      ((up p).fluidState_.density p).value +
                    ((up p).fluidState_.enthalpy p).value *
                      ((up p).fluidState_.density p).derivatives i) *
                    (extQuants.volumeFlux p).value +
                  ((up p).fluidState_.enthalpy p).value *
                    ((up p).fluidState_.density p).value *
                    (extQuants.volumeFlux p).derivatives i) ∧
            (extQuants.upstreamIndex p ≠ elemCtx.focusDofIndex →
              ∀ i, (term p).derivatives i =
                ((up p).fluidState_.enthalpy p).value * ((up p).fluidState_.density p).value *
                  (extQuants.volumeFlux p).derivatives i) := by
  intro extQuants up
  refine ⟨fun p =>
    if extQuants.upstreamIndex p = elemCtx.focusDofIndex then
      (up p).fluidState_.enthalpy p * (up p).fluidState_.density p * extQuants.volumeFlux p
    else
      Evaluation.scalarMul
        (((up p).fluidState_.enthalpy p).decay * ((up p).fluidState_.density p).decay)
        (extQuants.volumeFlux p), ?_, fun p => ⟨?_, fun h i => ?_, fun h i => ?_⟩⟩
  · rw [BlackOilEnergyModule.computeFlux_enabled_eq, Function.update_same]
  · dsimp only
    split_ifs <;> rfl
  · dsimp only
    rw [if_pos h]
    rfl
  · dsimp only
    rw [if_neg h, Evaluation.scalarMul_derivatives]
    rfl

namespace BlackOilEnergyExtensiveQuantities

/-- C28 as stated fails: on the example face the guard holds (the conductivities are `2`
and `3`), the harmonic formula is used, and its divisor `lambda_in * alpha_in` is zero,
because the interior half-transmissibility of the problem is zero. -/
theorem thermalTransmissibility_divisor_counterexample :
    ((inLambda Examples.elemCtxZeroAlpha 0 0).value > 0 ∧
        (exLambda Examples.elemCtxZeroAlpha 0 0).value > 0) ∧
      ((inLambda Examples.elemCtxZeroAlpha 0 0).mulScalar
        (Examples.elemCtxZeroAlpha.problem.thermalHalfTransmissibilityIn 0 0)).value = 0 := by
  have hin : (inLambda Examples.elemCtxZeroAlpha 0 0).value = 2 := by
    rw [inLambda_value]
    simp [Examples.elemCtxZeroAlpha, Examples.elemCtxEnergy, Examples.intQuantsEnergy,
      BlackOilEnergyIntensiveQuantities.totalThermalConductivity_]
  have hex : (exLambda Examples.elemCtxZeroAlpha 0 0).value = 3 := by
    rw [exLambda_value]
    simp [Examples.elemCtxZeroAlpha, Examples.elemCtxEnergy, Examples.intQuantsEnergy,
      BlackOilEnergyIntensiveQuantities.totalThermalConductivity_]
  refine ⟨⟨by rw [hin]; norm_num, by rw [hex]; norm_num⟩, ?_⟩
  rw [Evaluation.mulScalar_value, hin]
  simp [Examples.elemCtxZeroAlpha, Examples.problemZeroAlpha]

/-- C28, amended: when the two half-transmissibilities of the problem are non-zero and of
the same sign (in particular when both are positive), then, whenever the guard of
`updateEnergy` lets the harmonic formula compute `H`, each divisor in it is non-zero:
`lambda_in*alpha_in`, `lambda_ex*alpha_ex` and the sum of their reciprocals. -/
theorem thermalTransmissibility_divisors_ne_zero (elemCtx : ElementContext n true)
    (scvfIdx timeIdx : Nat)
    (halpha : 0 < elemCtx.problem.thermalHalfTransmissibilityIn scvfIdx timeIdx *
      elemCtx.problem.thermalHalfTransmissibilityOut scvfIdx timeIdx)
    (hguard : (inLambda elemCtx scvfIdx timeIdx).value > 0 ∧
      (exLambda elemCtx scvfIdx timeIdx).value > 0) :
    let inH := (inLambda elemCtx scvfIdx timeIdx).mulScalar
      (elemCtx.problem.thermalHalfTransmissibilityIn scvfIdx timeIdx)
    let exH := (exLambda elemCtx scvfIdx timeIdx).mulScalar
      (elemCtx.problem.thermalHalfTransmissibilityOut scvfIdx timeIdx)
    inH.value ≠ 0 ∧ exH.value ≠ 0 ∧
      (Evaluation.scalarDiv 1 inH + Evaluation.scalarDiv 1 exH).value ≠ 0 := by
  intro inH exH
  obtain ⟨hin, hex⟩ := hguard
  have hprod : 0 < inH.value * exH.value := by
    show 0 < (inLambda elemCtx scvfIdx timeIdx).value *
        elemCtx.problem.thermalHalfTransmissibilityIn scvfIdx timeIdx *
      ((exLambda elemCtx scvfIdx timeIdx).value *
        elemCtx.problem.thermalHalfTransmissibilityOut scvfIdx timeIdx)
    have := mul_pos (mul_pos hin hex) halpha
    nlinarith [this]
  have h1 : inH.value ≠ 0 := fun h => by rw [h, zero_mul] at hprod; exact lt_irrefl _ hprod
  have h2 : exH.value ≠ 0 := fun h => by rw [h, mul_zero] at hprod; exact lt_irrefl _ hprod
  refine ⟨h1, h2, ?_⟩
  show 1 / inH.value + 1 / exH.value ≠ 0
  intro h0
  have hne : inH.value + exH.value ≠ 0 := by
    intro hz
    have : exH.value = -inH.value := by linarith
    rw [this] at hprod
    nlinarith [mul_self_nonneg inH.value]
  have hrec : 1 / inH.value + 1 / exH.value =
      (inH.value + exH.value) / (inH.value * exH.value) := by
    field_simp
    ring
  rw [hrec] at h0
  rcases div_eq_zero_iff.1 h0 with h | h
  · exact hne h
  · exact (ne_of_gt hprod) h

/-- Evaluation of the amended C28 on the example face: the divisor of the interior side is
`2 * (1/2) = 1`, not zero. -/
theorem thermalTransmissibility_divisors_ne_zero_witness :
    ((inLambda (Examples.elemCtxEnergy 2) 0 0).mulScalar
      ((Examples.elemCtxEnergy 2).problem.thermalHalfTransmissibilityIn 0 0)).value ≠ 0 :=
  (thermalTransmissibility_divisors_ne_zero (Examples.elemCtxEnergy 2) 0 0
    (by norm_num [Examples.elemCtxEnergy, Examples.problemEnergy])
    (by
      rw [inLambda_value, exLambda_value]
      norm_num [Examples.elemCtxEnergy, Examples.intQuantsEnergy,
        BlackOilEnergyIntensiveQuantities.totalThermalConductivity_])).1

/-- C29: for positive conductivities and positive half-transmissibilities the thermal
transmissibility `H` that `updateEnergy` computes satisfies
`0 < H ≤ min (lambda_in*alpha_in) (lambda_ex*alpha_ex)` and
`H = (lambda_in*alpha_in * lambda_ex*alpha_ex) / (lambda_in*alpha_in + lambda_ex*alpha_ex)`. -/
theorem thermalTransmissibility_series_bound (elemCtx : ElementContext n true)
    (scvfIdx timeIdx : Nat)
    (hlamIn : 0 < (elemCtx.intensiveQuantities
      ((elemCtx.stencil timeIdx).interiorFace scvfIdx).interiorIndex
      timeIdx).energy.totalThermalConductivity_.value)
    (hlamEx : 0 < (elemCtx.intensiveQuantities
      ((elemCtx.stencil timeIdx).interiorFace scvfIdx).exteriorIndex
      timeIdx).energy.totalThermalConductivity_.value)
    (halphaIn : 0 < elemCtx.problem.thermalHalfTransmissibilityIn scvfIdx timeIdx)
    (halphaEx : 0 < elemCtx.problem.thermalHalfTransmissibilityOut scvfIdx timeIdx) :
    let a := (elemCtx.intensiveQuantities
        ((elemCtx.stencil timeIdx).interiorFace scvfIdx).interiorIndex
        timeIdx).energy.totalThermalConductivity_.value *
      elemCtx.problem.thermalHalfTransmissibilityIn scvfIdx timeIdx
    let b := (elemCtx.intensiveQuantities
        ((elemCtx.stencil timeIdx).interiorFace scvfIdx).exteriorIndex
        timeIdx).energy.totalThermalConductivity_.value *
      elemCtx.problem.thermalHalfTransmissibilityOut scvfIdx timeIdx
    let H := (thermalTransmissibility elemCtx scvfIdx timeIdx).value
    0 < H ∧ H ≤ min a b ∧ H = a * b / (a + b) := by
  intro a b H
  have ha : 0 < a := mul_pos hlamIn halphaIn
  have hb : 0 < b := mul_pos hlamEx halphaEx
  have hab : 0 < a + b := add_pos ha hb
  have hH : H = a * b / (a + b) := by
    show (thermalTransmissibility elemCtx scvfIdx timeIdx).value = _
    rw [thermalTransmissibility_value, if_pos ⟨hlamIn, hlamEx⟩]
    show 1 / (1 / a + 1 / b) = a * b / (a + b)
    have ha' : a ≠ 0 := ne_of_gt ha
    have hb' : b ≠ 0 := ne_of_gt hb
    have hab' : a + b ≠ 0 := ne_of_gt hab
    field_simp
    ring
  refine ⟨?_, ?_, hH⟩
  · rw [hH]
    exact div_pos (mul_pos ha hb) hab
  · rw [hH, le_min_iff]
    constructor
    · rw [div_le_iff₀ hab]
      nlinarith [mul_pos ha ha]
    · rw [div_le_iff₀ hab]
      nlinarith [mul_pos hb hb]

/-- Evaluation of C29 on the example face: both sides have `lambda*alpha = 1`, and
`H = 1/2`. -/
theorem thermalTransmissibility_series_bound_witness :
    (thermalTransmissibility (Examples.elemCtxEnergy 2) 0 0).value = 1 / 2 := by
  have h := (thermalTransmissibility_series_bound (Examples.elemCtxEnergy 2) 0 0
    (by
      norm_num [Examples.elemCtxEnergy, Examples.intQuantsEnergy,
        BlackOilEnergyIntensiveQuantities.totalThermalConductivity_])
    (by
      norm_num [Examples.elemCtxEnergy, Examples.intQuantsEnergy,
        BlackOilEnergyIntensiveQuantities.totalThermalConductivity_])
    (by norm_num [Examples.elemCtxEnergy, Examples.problemEnergy])
    (by norm_num [Examples.elemCtxEnergy, Examples.problemEnergy])).2.2
  rw [h]
  norm_num [Examples.elemCtxEnergy, Examples.intQuantsEnergy, Examples.problemEnergy,
    BlackOilEnergyIntensiveQuantities.totalThermalConductivity_]

/-- The value of the energy flux of `updateEnergy` in terms of the stored intensive
quantities, the face and the problem; the focus degree of freedom does not occur. -/
theorem updateEnergy_energyFlux_value_eq (self : BlackOilEnergyExtensiveQuantities n true)
    (elemCtx : ElementContext n true) (scvfIdx timeIdx : Nat) :
    (energyFlux_ (updateEnergy self elemCtx scvfIdx timeIdx)).value =
      (((elemCtx.intensiveQuantities
            ((elemCtx.stencil timeIdx).interiorFace scvfIdx).exteriorIndex
            timeIdx).fluidState_.temperature 0).value -
          ((elemCtx.intensiveQuantities
            ((elemCtx.stencil timeIdx).interiorFace scvfIdx).interiorIndex
            timeIdx).fluidState_.temperature 0).value) *
        (-(if 0 < (elemCtx.intensiveQuantities
                ((elemCtx.stencil timeIdx).interiorFace scvfIdx).interiorIndex
                timeIdx).energy.totalThermalConductivity_.value ∧
              0 < (elemCtx.intensiveQuantities
                ((elemCtx.stencil timeIdx).interiorFace scvfIdx).exteriorIndex
                timeIdx).energy.totalThermalConductivity_.value then
            1 / (1 / ((elemCtx.intensiveQuantities
                  ((elemCtx.stencil timeIdx).interiorFace scvfIdx).interiorIndex
                  timeIdx).energy.totalThermalConductivity_.value *
                elemCtx.problem.thermalHalfTransmissibilityIn scvfIdx timeIdx) +
              1 / ((elemCtx.intensiveQuantities
                  ((elemCtx.stencil timeIdx).interiorFace scvfIdx).exteriorIndex
                  timeIdx).energy.totalThermalConductivity_.value *
                elemCtx.problem.thermalHalfTransmissibilityOut scvfIdx timeIdx))
          else 0) /
          ((elemCtx.stencil timeIdx).interiorFace scvfIdx).area) := by
  show (deltaT elemCtx scvfIdx timeIdx).value *
    (-(thermalTransmissibility elemCtx scvfIdx timeIdx).value /
      ((elemCtx.stencil timeIdx).interiorFace scvfIdx).area) = _
  rw [deltaT_value, thermalTransmissibility_value]

end BlackOilEnergyExtensiveQuantities

/-- C30: decaying does not change values.  For fixed intensive quantities, extensive
quantities, stencil and problem, the value of the energy flux computed by `updateEnergy` is
the same for any two focus degrees of freedom, and so is what `addAdvectiveFlux` leaves in
the continuity slot of a phase (value and, as this method never reads the focus, derivatives
too). -/
theorem flux_values_focus_independent (self : BlackOilEnergyExtensiveQuantities n true)
    (elemCtx : ElementContext n true) (scvfIdx timeIdx : Nat) (C : Ewoms.Config)
    (EM : Ewoms.EnergyModule n) (flux : Nat → Evaluation n)
    (elemCtxImm : Ewoms.ElementContext n) (phaseIdx focus focus' : Nat)
    (hp : phaseIdx < C.numPhases)
    (hE : EM.enableEnergy = true → EM.energyEqIdx ≠ C.conti0EqIdx + phaseIdx) :
    (BlackOilEnergyExtensiveQuantities.energyFlux_
          (BlackOilEnergyExtensiveQuantities.updateEnergy self
            { elemCtx with focusDofIndex := focus } scvfIdx timeIdx)).value =
        (BlackOilEnergyExtensiveQuantities.energyFlux_
          (BlackOilEnergyExtensiveQuantities.updateEnergy self
            { elemCtx with focusDofIndex := focus' } scvfIdx timeIdx)).value ∧
      (Ewoms.addAdvectiveFlux C EM flux { elemCtxImm with focusDofIndex := focus } scvfIdx
          timeIdx (C.conti0EqIdx + phaseIdx)).value =
        (Ewoms.addAdvectiveFlux C EM flux { elemCtxImm with focusDofIndex := focus' } scvfIdx
          timeIdx (C.conti0EqIdx + phaseIdx)).value ∧
      Ewoms.addAdvectiveFlux C EM flux { elemCtxImm with focusDofIndex := focus } scvfIdx
          timeIdx (C.conti0EqIdx + phaseIdx) =
        Ewoms.addAdvectiveFlux C EM flux { elemCtxImm with focusDofIndex := focus' } scvfIdx
          timeIdx (C.conti0EqIdx + phaseIdx) := by
  have hadv : Ewoms.addAdvectiveFlux C EM flux { elemCtxImm with focusDofIndex := focus }
        scvfIdx timeIdx (C.conti0EqIdx + phaseIdx) =
      Ewoms.addAdvectiveFlux C EM flux { elemCtxImm with focusDofIndex := focus' } scvfIdx
        timeIdx (C.conti0EqIdx + phaseIdx) := by
    rw [Ewoms.addAdvectiveFlux_slot C EM flux _ scvfIdx timeIdx phaseIdx hp hE,
      Ewoms.addAdvectiveFlux_slot C EM flux _ scvfIdx timeIdx phaseIdx hp hE]
    rfl
  refine ⟨?_, ?_, hadv⟩
  · rw [BlackOilEnergyExtensiveQuantities.updateEnergy_energyFlux_value_eq,
      BlackOilEnergyExtensiveQuantities.updateEnergy_energyFlux_value_eq]
  · rw [hadv]

/-- Evaluation of C30 on the example faces: with the focus on the degree of freedom 0 or 1
the energy flux has the same value, and so has the continuity slot of the outflow face. -/
theorem flux_values_focus_independent_witness :
    (BlackOilEnergyExtensiveQuantities.energyFlux_
          (BlackOilEnergyExtensiveQuantities.updateEnergy
            (BlackOilEnergyExtensiveQuantities.enabled 0)
            { Examples.elemCtxEnergy 2 with focusDofIndex := 0 } 0 0)).value =
        (BlackOilEnergyExtensiveQuantities.energyFlux_
          (BlackOilEnergyExtensiveQuantities.updateEnergy
            (BlackOilEnergyExtensiveQuantities.enabled 0)
            { Examples.elemCtxEnergy 2 with focusDofIndex := 1 } 0 0)).value ∧
      (Ewoms.addAdvectiveFlux Examples.configImm Examples.energyOff (fun _ => 0)
          { Examples.elemCtxOutflow with focusDofIndex := 0 } 0 0
          (Examples.configImm.conti0EqIdx + 0)).value =
        (Ewoms.addAdvectiveFlux Examples.configImm Examples.energyOff (fun _ => 0)
          { Examples.elemCtxOutflow with focusDofIndex := 1 } 0 0
          (Examples.configImm.conti0EqIdx + 0)).value :=
  have h := flux_values_focus_independent (BlackOilEnergyExtensiveQuantities.enabled 0)
    (Examples.elemCtxEnergy 2) 0 0 Examples.configImm Examples.energyOff (fun _ => 0)
    Examples.elemCtxOutflow 0 0 1 (by decide) (by decide)
  ⟨h.1, h.2.1⟩

end Opm

/-! ## Frame of `addDiffusiveFlux`, the index table, and two further properties -/

namespace Ewoms

variable {n : Nat}

/-- C31: `addDiffusiveFlux` adds no mass flux: on every face it leaves every continuity
slot `conti0EqIdx + p`, `p < numPhases`, of the flux vector as it is (the slot of the
energy module is not a continuity slot), and with the energy extension disabled it leaves
the whole flux vector as it is. -/
theorem addDiffusiveFlux_frame (C : Config) (EM : EnergyModule n) (flux : Nat → Evaluation n)
    (elemCtx : ElementContext n) (scvfIdx timeIdx : Nat) :
    (∀ phaseIdx, phaseIdx < C.numPhases →
        (EM.enableEnergy = true → EM.energyEqIdx ≠ C.conti0EqIdx + phaseIdx) →
        addDiffusiveFlux EM flux elemCtx scvfIdx timeIdx (C.conti0EqIdx + phaseIdx) =
          flux (C.conti0EqIdx + phaseIdx)) ∧
      (EM.enableEnergy = false → addDiffusiveFlux EM flux elemCtx scvfIdx timeIdx = flux) := by
  constructor
  · intro phaseIdx _ hE
    unfold addDiffusiveFlux EnergyModule.addDiffusiveFlux
    by_cases h : EM.enableEnergy = true
    · rw [if_pos h, Function.update_noteq (Ne.symm (hE h))]
    · rw [if_neg h]
  · intro h
    unfold addDiffusiveFlux EnergyModule.addDiffusiveFlux
    rw [h]
    rfl

/-- Evaluation of C31 with an enabled energy module that conducts heat: the continuity
slot 0 keeps its content `5`; with the disabled module the whole vector is kept. -/
theorem addDiffusiveFlux_frame_witness :
    addDiffusiveFlux Examples.energyOn (fun _ => Evaluation.createConstant 5)
          Examples.elemCtxOutflow 0 0 (Examples.configImm.conti0EqIdx + 0) =
        Evaluation.createConstant 5 ∧
      addDiffusiveFlux Examples.energyOff (fun _ => Evaluation.createConstant 5)
          Examples.elemCtxOutflow 0 0 =
        fun _ => Evaluation.createConstant 5 :=
  have h := addDiffusiveFlux_frame Examples.configImm Examples.energyOn
    (fun _ => Evaluation.createConstant 5) Examples.elemCtxOutflow 0 0
  have h' := addDiffusiveFlux_frame Examples.configImm Examples.energyOff
    (fun _ => Evaluation.createConstant 5) Examples.elemCtxOutflow 0 0
  ⟨h.1 0 (by decide) (by decide), h'.2 rfl⟩

/-- C32: for every offset the three primary-variable indices of the black-oil index table
are pairwise distinct and are exactly the indices `PVOffset, ..., PVOffset + numEq - 1`; the
continuity-equation indices `conti0EqIdx + p`, `p = 0, 1, 2`, are exactly the same indices;
`numEq` is `3`, so there is no further (energy) slot. -/
theorem blackOilIndices_consistent (PVOffset : Int) :
    BlackOilIndices.gasPressureIdx PVOffset ≠ BlackOilIndices.waterSaturationIdx PVOffset ∧
      BlackOilIndices.gasPressureIdx PVOffset ≠ BlackOilIndices.switchIdx PVOffset ∧
      BlackOilIndices.waterSaturationIdx PVOffset ≠ BlackOilIndices.switchIdx PVOffset ∧
      (∀ i : Int,
        (i = BlackOilIndices.gasPressureIdx PVOffset ∨
            i = BlackOilIndices.waterSaturationIdx PVOffset ∨
            i = BlackOilIndices.switchIdx PVOffset) ↔
          (PVOffset ≤ i ∧ i ≤ PVOffset + BlackOilIndices.numEq - 1)) ∧
      (∀ i : Int,
        (∃ p : Int, 0 ≤ p ∧ p ≤ 2 ∧ i = BlackOilIndices.conti0EqIdx PVOffset + p) ↔
          (PVOffset ≤ i ∧ i ≤ PVOffset + BlackOilIndices.numEq - 1)) ∧
      BlackOilIndices.numEq = 3 := by
  simp only [BlackOilIndices.gasPressureIdx, BlackOilIndices.waterSaturationIdx,
    BlackOilIndices.switchIdx, BlackOilIndices.conti0EqIdx, BlackOilIndices.numEq]
  refine ⟨by omega, by omega, by omega, fun i => ⟨fun h => by omega, fun h => by omega⟩,
    fun i => ⟨?_, fun h => ⟨i - PVOffset, by omega, by omega, by omega⟩⟩, trivial⟩
  rintro ⟨p, hp0, hp2, rfl⟩
  constructor <;> omega

end Ewoms

namespace Dumux

/-- The conversion of `completeFluidState` in closed form: for positive molar masses and a
mass fraction `X` in `[0,1]` the denominator `D = M1 + X*(M0 - M1)` is positive and the mole
fraction is `X*M0/D`. -/
theorem massToMole_closed_form (M0 M1 X : Scalar) (hM0 : 0 < M0) (hM1 : 0 < M1) (hlo : 0 ≤ X)
    (hhi : X ≤ 1) :
    0 < M1 + X * (M0 - M1) ∧
      X * (M0 * M1 / (M1 + X * (M0 - M1)) / M1) = X * M0 / (M1 + X * (M0 - M1)) := by
  have hD : 0 < M1 + X * (M0 - M1) := by
    nlinarith [mul_nonneg hlo hM0.le, mul_nonneg (sub_nonneg.2 hhi) hM1.le]
  have hD' : M1 + X * (M0 - M1) ≠ 0 := ne_of_gt hD
  have hM1' : M1 ≠ 0 := ne_of_gt hM1
  refine ⟨hD, ?_⟩
  field_simp
  ring

/-- C33: for positive molar masses and a mass fraction `x1` in `[0,1]`, the mole fraction of
component 1 that `completeFluidState` computes in the mass-fraction formulation lies in
`[0,1]`, is `0` for `x1 = 0` and `1` for `x1 = 1`, is strictly increasing in `x1`, and its
denominator `M1 + x1*(M0 - M1)` is strictly positive. -/
theorem completeFluidState_moleFraction_range (FS : FluidSystem) (I : Indices)
    (fluidState fluidState' : FluidState) (elemCtx elemCtx' : ElementContext)
    (scvIdx historyIdx : Nat)
    (hM0 : 0 < FS.molarMass 0) (hM1 : 0 < FS.molarMass 1)
    (hlo : 0 ≤ elemCtx.primaryVars scvIdx historyIdx I.x1Idx)
    (hhi : elemCtx.primaryVars scvIdx historyIdx I.x1Idx ≤ 1)
    (hlo' : 0 ≤ elemCtx'.primaryVars scvIdx historyIdx I.x1Idx)
    (hhi' : elemCtx'.primaryVars scvIdx historyIdx I.x1Idx ≤ 1) :
    let x1 := elemCtx.primaryVars scvIdx historyIdx I.x1Idx
    let x1' := elemCtx'.primaryVars scvIdx historyIdx I.x1Idx
    let moleFrac :=
      moleFraction (completeFluidState false FS I fluidState elemCtx scvIdx historyIdx) 1
    let moleFrac' :=
      moleFraction (completeFluidState false FS I fluidState' elemCtx' scvIdx historyIdx) 1
    0 < FS.molarMass 1 + x1 * (FS.molarMass 0 - FS.molarMass 1) ∧
      0 ≤ moleFrac ∧ moleFrac ≤ 1 ∧
      (x1 = 0 → moleFrac = 0) ∧ (x1 = 1 → moleFrac = 1) ∧
      (x1 < x1' → moleFrac < moleFrac') := by
  intro x1 x1' moleFrac moleFrac'
  have hmf : moleFrac = x1 * FS.molarMass 0 /
      (FS.molarMass 1 + x1 * (FS.molarMass 0 - FS.molarMass 1)) := by
    show moleFraction (completeFluidState false FS I fluidState elemCtx scvIdx historyIdx) 1 = _
    rw [moleFraction_completeFluidState_one]
    simp only [Bool.false_eq_true, if_false]
    exact (massToMole_closed_form _ _ _ hM0 hM1 hlo hhi).2
  have hmf' : moleFrac' = x1' * FS.molarMass 0 /
      (FS.molarMass 1 + x1' * (FS.molarMass 0 - FS.molarMass 1)) := by
    show moleFraction (completeFluidState false FS I fluidState' elemCtx' scvIdx historyIdx) 1 =
      _
    rw [moleFraction_completeFluidState_one]
    simp only [Bool.false_eq_true, if_false]
    exact (massToMole_closed_form _ _ _ hM0 hM1 hlo' hhi').2
  have hD := (massToMole_closed_form _ _ x1 hM0 hM1 hlo hhi).1
  have hD' := (massToMole_closed_form _ _ x1' hM0 hM1 hlo' hhi').1
  refine ⟨hD, ?_, ?_, fun h0 => ?_, fun h1 => ?_, fun hlt => ?_⟩
  · rw [hmf]
    exact div_nonneg (mul_nonneg hlo hM0.le) hD.le
  · rw [hmf, div_le_one hD]
    nlinarith [mul_nonneg (sub_nonneg.2 hhi) hM1.le]
  · rw [hmf, h0]
    simp
  · rw [hmf, h1]
    have : FS.molarMass 1 + 1 * (FS.molarMass 0 - FS.molarMass 1) = FS.molarMass 0 := by ring
    rw [this, one_mul]
    exact div_self (ne_of_gt hM0)
  · rw [hmf, hmf', div_lt_div_iff₀ hD hD']
    have hpos : 0 < FS.molarMass 0 * FS.molarMass 1 * (x1' - x1) :=
      mul_pos (mul_pos hM0 hM1) (sub_pos.2 hlt)
    nlinarith [hpos]

/-- Evaluation of C33 on water/nitrogen at the mass fraction `1/2`: the mole fraction
`9/23` is at most `1`. -/
theorem completeFluidState_moleFraction_range_witness :
    moleFraction (completeFluidState false Examples.fluidSystem1p2c Examples.indices1p2c
      Examples.fluidState1p2c Examples.elemCtx1p2c 0 0) 1 ≤ 1 :=
  (completeFluidState_moleFraction_range Examples.fluidSystem1p2c Examples.indices1p2c
    Examples.fluidState1p2c Examples.fluidState1p2c Examples.elemCtx1p2c Examples.elemCtx1p2c
    0 0 (by norm_num [Examples.fluidSystem1p2c]) (by norm_num [Examples.fluidSystem1p2c])
    (by norm_num [Examples.elemCtx1p2c, Examples.indices1p2c])
    (by norm_num [Examples.elemCtx1p2c, Examples.indices1p2c])
    (by norm_num [Examples.elemCtx1p2c, Examples.indices1p2c])
    (by norm_num [Examples.elemCtx1p2c, Examples.indices1p2c])).2.2.1

end Dumux

namespace Opm

variable {n : Nat}

namespace BlackOilEnergyExtensiveQuantities

/-- C34: the conductive energy flux is antisymmetric across a face.  If a second element
context sees the same face of non-zero area from the other side (interior and exterior
index exchanged, the same intensive quantities, the two half-transmissibilities exchanged),
the value of the energy flux that `updateEnergy` computes for it is minus the value computed
for the first. -/
theorem updateEnergy_energyFlux_antisymmetric
    (self self' : BlackOilEnergyExtensiveQuantities n true)
    (elemCtx elemCtx' : ElementContext n true) (scvfIdx timeIdx : Nat)
    (_harea : ((elemCtx.stencil timeIdx).interiorFace scvfIdx).area ≠ 0)
    (hface : (elemCtx'.stencil timeIdx).interiorFace scvfIdx =
      { area := ((elemCtx.stencil timeIdx).interiorFace scvfIdx).area
        interiorIndex := ((elemCtx.stencil timeIdx).interiorFace scvfIdx).exteriorIndex
        exteriorIndex := ((elemCtx.stencil timeIdx).interiorFace scvfIdx).interiorIndex })
    (hiq : elemCtx'.intensiveQuantities = elemCtx.intensiveQuantities)
    (hin : elemCtx'.problem.thermalHalfTransmissibilityIn scvfIdx timeIdx =
      elemCtx.problem.thermalHalfTransmissibilityOut scvfIdx timeIdx)
    (hout : elemCtx'.problem.thermalHalfTransmissibilityOut scvfIdx timeIdx =
      elemCtx.problem.thermalHalfTransmissibilityIn scvfIdx timeIdx) :
    (energyFlux_ (updateEnergy self' elemCtx' scvfIdx timeIdx)).value =
      -(energyFlux_ (updateEnergy self elemCtx scvfIdx timeIdx)).value := by
  rw [updateEnergy_energyFlux_value_eq, updateEnergy_energyFlux_value_eq, hface, hiq, hin, hout]
  dsimp only
  by_cases hg : 0 < (elemCtx.intensiveQuantities
        ((elemCtx.stencil timeIdx).interiorFace scvfIdx).interiorIndex
        timeIdx).energy.totalThermalConductivity_.value ∧
      0 < (elemCtx.intensiveQuantities
        ((elemCtx.stencil timeIdx).interiorFace scvfIdx).exteriorIndex
        timeIdx).energy.totalThermalConductivity_.value
  · rw [if_pos hg, if_pos ⟨hg.2, hg.1⟩, add_comm (1 / _) (1 / _)]
    ring
  · rw [if_neg hg, if_neg (fun h => hg ⟨h.2, h.1⟩)]
    ring

/-- Evaluation of C34 on the example face: seen from the degree of freedom 1 the flux is
`5/2`, minus the `-5/2` seen from the degree of freedom 0. -/
theorem updateEnergy_energyFlux_antisymmetric_witness :
    (energyFlux_ (updateEnergy (enabled 0) Examples.elemCtxEnergySwapped 0 0)).value =
      -(energyFlux_ (updateEnergy (enabled 0) (Examples.elemCtxEnergy 2) 0 0)).value :=
  updateEnergy_energyFlux_antisymmetric (enabled 0) (enabled 0) (Examples.elemCtxEnergy 2)
    Examples.elemCtxEnergySwapped 0 0
    (by norm_num [Examples.elemCtxEnergy]) rfl rfl rfl rfl

end BlackOilEnergyExtensiveQuantities

end Opm
